import Mathlib

/-!
# The pyluksde volume object and the tool luksdeinfo: a shallow embedding

The Python binding `pyluksde_volume.c` wraps a `libluksde_volume_t`.  The
library itself (libluksde), libbfio and the helper modules of the binding
are not part of the sources at hand, so every call into them is a call to an
`Engine`: a function from the library's state and the call made to the
library's response and its next state.  Each call is logged in a trace, so
that statements of the form "the binding never calls ..." can be made.
The tool `luksdeinfo.c` is embedded the same way in the namespace
`Luksdeinfo` further down.

Conventions
* C integers are `Int`; casts are written out (`to_size_t`, `to_Py_ssize_t`).
* A `PyObject *` result is a `PyReturn`: `null e` is `NULL` with the
  exception `e` set, `object o` is a new reference to `o`.
* The functions are entered after `PyArg_ParseTupleAndKeywords` succeeded;
  their Lean arguments are the parsed C values (an optional argument that
  was omitted is `none`).  When parsing fails the C code returns `NULL` at
  once, before anything else happens.
* The build modelled is Python 3 (`PY_MAJOR_VERSION >= 3`) on an LP64 target.
-/

namespace Pyluksde

/-- A byte of data. -/
abbrev Byte := Nat

/-- Modelled from the spec: the error taxonomy of the engine (section 7 of
the specification); libcerror, which defines the error objects, is not among
the sources. -/
inductive EngineError
  | FormatError
  | UnlockFailed
  | IoError
  | InvalidArgument
  | Cancelled
  deriving DecidableEq, Repr

/-- The Python exception types the binding raises. -/
inductive PyExc
  | ValueError
  | IOError
  | MemoryError
  | TypeError
  | RuntimeError
  | SystemError
  deriving DecidableEq, Repr

/-- An exception raised by `PyErr_Format` or `pyluksde_error_raise`: its type,
the `function` that is formatted into the message, the message text after
`"%s: "`, and the engine error whose backtrace `pyluksde_error_raise`
appends (`none` for `PyErr_Format`, or when the engine set no error). -/
structure PyError where
  exc : PyExc
  function : String
  message : String
  cause : Option EngineError
  deriving DecidableEq, Repr

/-- The Python objects the binding receives and returns, as far as the
binding can tell them apart.

`long value` is an integer object for which
`pyluksde_integer_signed_copy_to_64bit` (not among the sources) returns 1 and
stores `value`; `long_unconvertible` is an integer object for which that
helper does not return 1.  `unicode wide utf8` carries what
`PyUnicode_AsUnicode` and `PyUnicode_AsUTF8String` give (`utf8 = none` when
the latter returns `NULL`). -/
inductive PyObject
  | none
  | long (value : Int)
  | long_unconvertible
  | unicode (wide : List Nat) (utf8 : Option (List Byte))
  | bytes (data : List Byte)
  | pair (first second : Int)
  | other (id : Nat)
  deriving DecidableEq, Repr

/-- What a function of type `PyObject *` returns. -/
inductive PyReturn
  | null (raised : PyError)
  | object (o : PyObject)
  deriving DecidableEq, Repr

/-- The read-only access flag.  `libluksde/definitions.h`, which defines it
as `LIBLUKSDE_ACCESS_FLAG_READ` (0x01), is not among the sources; nothing
below depends on the value. -/
def LIBLUKSDE_OPEN_READ : Int := 1

/-- The constant `INT_MAX` of `<limits.h>`. -/
def INT_MAX : Int := 2147483647

/-- The constant `SSIZE_MAX` of `<limits.h>` (LP64). -/
def SSIZE_MAX : Int := 9223372036854775807

/-- The cast `(size_t) x` of a 64-bit signed value. -/
def to_size_t (x : Int) : Nat := (x % 18446744073709551616).toNat

/-- The cast `(Py_ssize_t) x` (a 64-bit signed type) of an integer value. -/
def to_Py_ssize_t (x : Int) : Int :=
  (x + 9223372036854775808) % 18446744073709551616 - 9223372036854775808

/-- The value an `int64_t` variable holds after the 64-bit unsigned value
`x` was stored through a `(size64_t *)` cast of its address. -/
def int64_of_size64 (x : Int) : Int :=
  (x + 9223372036854775808) % 18446744073709551616 - 9223372036854775808

/-- The calls the binding makes into libluksde, libbfio and its file object
helper, with the arguments that matter (the volume passed is always
`pyluksde_volume->volume`, the error argument always `&error`). -/
inductive EngineCall
  | libluksde_volume_initialize
  | libluksde_volume_open (filename : List Byte) (access_flags : Int)
  | libluksde_volume_open_wide (filename : List Nat) (access_flags : Int)
  | libluksde_volume_open_file_io_handle (file_io_handle : Option Nat) (access_flags : Int)
  | libluksde_volume_close
  | libluksde_volume_get_size
  | libluksde_volume_read_buffer (buffer_size : Nat)
  | libluksde_volume_read_buffer_at_offset (buffer_size : Nat) (offset : Int)
  | libluksde_volume_seek_offset (offset : Int) (whence : Int)
  | libluksde_volume_get_offset
  | libluksde_volume_get_encryption_method
  | libluksde_volume_free
  | libluksde_volume_signal_abort
  | libluksde_volume_set_utf8_password (utf8_string : List Byte)
  | pyluksde_file_object_initialize (file_object : PyObject)
  | libbfio_handle_free (handle : Option Nat)
  deriving DecidableEq, Repr

/-- What a call gives back: the C return value, the values stored through
its out-parameters (`value`, `value2` for integers, `pointer` for a handle
or volume pointer), the bytes written to the caller's buffer, and the error
object stored through `error`, if any. -/
structure Response where
  result : Int
  value : Int
  value2 : Int
  pointer : Option Nat
  data : List Byte
  error : Option EngineError
  deriving DecidableEq, Repr

/-- The libraries behind the binding: from their state and a call, the
response and the next state. -/
abbrev Engine (σ : Type) := σ → EngineCall → Response × σ

/-- The state of the libraries together with the log of the calls made. -/
structure World (σ : Type) where
  state : σ
  trace : List EngineCall

/-- Makes a call: the engine answers and moves on, the call is logged. -/
def World.call {σ : Type} (E : Engine σ) (w : World σ) (c : EngineCall) :
    Response × World σ :=
  ((E w.state c).1, { state := (E w.state c).2, trace := w.trace ++ [c] })

/-- The C struct `pyluksde_volume_t`: the libluksde volume and the libbfio
file IO handle, each a pointer that may be `NULL`. -/
structure PyVolume where
  volume : Option Nat
  file_io_handle : Option Nat
  deriving DecidableEq, Repr

/-- The result of a method call: what it returns, the volume object after
the call (`none` when the `pyluksde_volume` pointer was `NULL`) and the
world after the call. -/
structure Outcome (σ : Type) where
  ret : PyReturn
  self : Option PyVolume
  world : World σ

/-- The CPython call `PyObject_IsInstance( o, &PyLong_Type )`. -/
def PyObject_IsInstance_PyLong : PyObject → Int
  | .long _ => 1
  | .long_unconvertible => 1
  | _ => 0

/-- The CPython call `PyObject_IsInstance( o, &PyUnicode_Type )`. -/
def PyObject_IsInstance_PyUnicode : PyObject → Int
  | .unicode _ _ => 1
  | _ => 0

/-- The CPython call `PyObject_IsInstance( o, &PyBytes_Type )`. -/
def PyObject_IsInstance_PyBytes : PyObject → Int
  | .bytes _ => 1
  | _ => 0

/-- The helper `pyluksde_integer_signed_copy_to_64bit` (not among the
sources), by its outcome: `some v` when it returns 1 and stores `v`. -/
def pyluksde_integer_signed_copy_to_64bit : PyObject → Option Int
  | .long v => some v
  | _ => none

/-- The CPython call `PyBytes_FromStringAndSize( NULL, size )`: a new bytes
object of `size` bytes, not yet written (shown as zero bytes). -/
def PyBytes_FromStringAndSize (size : Int) : List Byte :=
  List.replicate size.toNat 0

/-- The buffer of a bytes object after the engine wrote `data` to its
start; what does not fit is not written. -/
def buffer_written (buffer data : List Byte) : List Byte :=
  data.take buffer.length ++ buffer.drop data.length

/-- The CPython call `_PyBytes_Resize( &string_object, newsize )`: fails
(bad internal call) on a negative size, else keeps the first `newsize`
bytes, and pads with unwritten bytes when the object grows. -/
def PyBytes_Resize (string_object : List Byte) (newsize : Int) : Option (List Byte) :=
  if newsize < 0 then none
  else some (string_object.take newsize.toNat
    ++ List.replicate (newsize.toNat - string_object.length) 0)

/-- The CPython call `PyErr_Format( exc, "%s: message", function )`: the
exception it sets. -/
def PyErr_Format (exc : PyExc) (function message : String) : PyError :=
  { exc := exc, function := function, message := message, cause := none }

/-- The helper `pyluksde_error_raise( error, exc, "%s: message", function )`
(not among the sources): the exception it sets, of type `exc` with the
message and the backtrace of `error`. -/
def pyluksde_error_raise (error : Option EngineError) (exc : PyExc)
    (function message : String) : PyError :=
  { exc := exc, function := function, message := message, cause := error }

/-- The first character `s[ 0 ]` of a C string (the terminating NUL for the
empty string). -/
def char_at_0 (s : String) : Char := s.toList.headD (Char.ofNat 0)

/-- The statements of `pyluksde_volume_read_buffer` from
`if( read_size == 0 )` to the end (lines 1033-1125), which both ways of
getting `read_size` run into. -/
def pyluksde_volume_read_buffer_sized {σ : Type} (E : Engine σ) (w : World σ)
    (self : PyVolume) (read_size : Int) : Outcome σ :=
  let function := "pyluksde_volume_read_buffer"
  if read_size = 0 then
    { ret := .object (.bytes []), self := some self, world := w }
  else if read_size < 0 then
    { ret := .null <| PyErr_Format .ValueError function "invalid read size value less than zero.",
      self := some self, world := w }
  else if read_size > INT_MAX ∨ read_size > SSIZE_MAX then
    { ret := .null <| PyErr_Format .ValueError function
        "invalid argument read size value exceeds maximum.",
      self := some self, world := w }
  else
    let string_object := PyBytes_FromStringAndSize (to_Py_ssize_t read_size)
    let r := w.call E (.libluksde_volume_read_buffer (to_size_t read_size))
    let read_count := r.1.result
    if read_count = -1 then
      { ret := .null <| pyluksde_error_raise r.1.error .IOError function "unable to read data.",
        self := some self, world := r.2 }
    else
      match PyBytes_Resize (buffer_written string_object r.1.data) read_count with
      | none =>
        { ret := .null <| PyErr_Format .SystemError "_PyBytes_Resize" "bad internal call.",
          self := some self, world := r.2 }
      | some resized =>
        { ret := .object (.bytes resized), self := some self, world := r.2 }

/-- The method `read_buffer` / `read` (lines 906-1126).  `integer_object` is
`none` when the `size` argument was omitted. -/
def pyluksde_volume_read_buffer {σ : Type} (E : Engine σ) (w : World σ)
    (pyluksde_volume : Option PyVolume) (integer_object : Option PyObject) : Outcome σ :=
  let function := "pyluksde_volume_read_buffer"
  match pyluksde_volume with
  | none =>
    { ret := .null <| PyErr_Format .ValueError function "invalid volume.", self := none, world := w }
  | some self =>
    let result : Int :=
      match integer_object with
      | none => 0
      | some o => PyObject_IsInstance_PyLong o
    if result = -1 then
      { ret := .null <| PyErr_Format .RuntimeError function
          "unable to determine if integer object is of type long.",
        self := some self, world := w }
    else if result ≠ 0 then
      match integer_object.bind pyluksde_integer_signed_copy_to_64bit with
      | none =>
        { ret := .null <| pyluksde_error_raise none .IOError function
            "unable to convert integer object into read size.",
          self := some self, world := w }
      | some read_size => pyluksde_volume_read_buffer_sized E w self read_size
    else if integer_object = none ∨ integer_object = some .none then
      let r := w.call E .libluksde_volume_get_size
      if r.1.result ≠ 1 then
        { ret := .null <| pyluksde_error_raise r.1.error .IOError function "unable to retrieve size.",
          self := some self, world := r.2 }
      else pyluksde_volume_read_buffer_sized E r.2 self (int64_of_size64 r.1.value)
    else
      { ret := .null <| PyErr_Format .TypeError function "unsupported integer object type.",
        self := some self, world := w }

/-- The method `read_buffer_at_offset` (lines 1131-1330). -/
def pyluksde_volume_read_buffer_at_offset {σ : Type} (E : Engine σ) (w : World σ)
    (pyluksde_volume : Option PyVolume) (integer_object : PyObject) (read_offset : Int) :
    Outcome σ :=
  let function := "pyluksde_volume_read_buffer_at_offset"
  match pyluksde_volume with
  | none =>
    { ret := .null <| PyErr_Format .ValueError function "invalid volume.", self := none, world := w }
  | some self =>
    let result : Int := PyObject_IsInstance_PyLong integer_object
    if result = -1 then
      { ret := .null <| PyErr_Format .RuntimeError function
          "unable to determine if integer object is of type long.",
        self := some self, world := w }
    else if result ≠ 0 then
      match pyluksde_integer_signed_copy_to_64bit integer_object with
      | none =>
        { ret := .null <| pyluksde_error_raise none .IOError function
            "unable to convert integer object into read size.",
          self := some self, world := w }
      | some read_size =>
        if read_size = 0 then
          { ret := .object (.bytes []), self := some self, world := w }
        else if read_size < 0 then
          { ret := .null <| PyErr_Format .ValueError function
              "invalid read size value less than zero.",
            self := some self, world := w }
        else if read_size > INT_MAX ∨ read_size > SSIZE_MAX then
          { ret := .null <| PyErr_Format .ValueError function
              "invalid argument read size value exceeds maximum.",
            self := some self, world := w }
        else if read_offset < 0 then
          { ret := .null <| PyErr_Format .ValueError function
              "invalid read offset value less than zero.",
            self := some self, world := w }
        else
          let string_object := PyBytes_FromStringAndSize (to_Py_ssize_t read_size)
          let r := w.call E
            (.libluksde_volume_read_buffer_at_offset (to_size_t read_size) read_offset)
          let read_count := r.1.result
          if read_count = -1 then
            { ret := .null <| pyluksde_error_raise r.1.error .IOError function "unable to read data.",
              self := some self, world := r.2 }
          else
            match PyBytes_Resize (buffer_written string_object r.1.data) read_count with
            | none =>
              { ret := .null <| PyErr_Format .SystemError "_PyBytes_Resize" "bad internal call.",
                self := some self, world := r.2 }
            | some resized =>
              { ret := .object (.bytes resized), self := some self, world := r.2 }
    else
      { ret := .null <| PyErr_Format .TypeError function "unsupported integer object type.",
        self := some self, world := w }

/-- The method `seek_offset` / `seek` (lines 1335-1392).  `whence` is `none`
when the argument was omitted; the C variable then keeps its initial 0. -/
def pyluksde_volume_seek_offset {σ : Type} (E : Engine σ) (w : World σ)
    (pyluksde_volume : Option PyVolume) (offset : Int) (whence : Option Int) : Outcome σ :=
  let function := "pyluksde_volume_seek_offset"
  match pyluksde_volume with
  | none =>
    { ret := .null <| PyErr_Format .ValueError function "invalid volume.", self := none, world := w }
  | some self =>
    let whence : Int := whence.getD 0
    let r := w.call E (.libluksde_volume_seek_offset offset whence)
    let offset := r.1.result
    if offset = -1 then
      { ret := .null <| pyluksde_error_raise r.1.error .IOError function "unable to seek offset.",
        self := some self, world := r.2 }
    else
      { ret := .object .none, self := some self, world := r.2 }

/-- The method `get_offset` / `tell` (lines 1397-1451). -/
def pyluksde_volume_get_offset {σ : Type} (E : Engine σ) (w : World σ)
    (pyluksde_volume : Option PyVolume) : Outcome σ :=
  let function := "pyluksde_volume_get_offset"
  match pyluksde_volume with
  | none =>
    { ret := .null <| PyErr_Format .ValueError function "invalid volume.", self := none, world := w }
  | some self =>
    let r := w.call E .libluksde_volume_get_offset
    if r.1.result = -1 then
      { ret := .null <| pyluksde_error_raise r.1.error .IOError function "unable to retrieve offset.",
        self := some self, world := r.2 }
    else if r.1.result = 0 then
      { ret := .object .none, self := some self, world := r.2 }
    else
      { ret := .object (.long r.1.value), self := some self, world := r.2 }

/-- The method `get_size` and the getter of `size` (lines 1456-1503). -/
def pyluksde_volume_get_size {σ : Type} (E : Engine σ) (w : World σ)
    (pyluksde_volume : Option PyVolume) : Outcome σ :=
  let function := "pyluksde_volume_get_size"
  match pyluksde_volume with
  | none =>
    { ret := .null <| PyErr_Format .ValueError function "invalid volume.", self := none, world := w }
  | some self =>
    let r := w.call E .libluksde_volume_get_size
    if r.1.result ≠ 1 then
      { ret := .null <| pyluksde_error_raise r.1.error .IOError function "failed to retrieve size.",
        self := some self, world := r.2 }
    else
      { ret := .object (.long r.1.value), self := some self, world := r.2 }

/-- The method `get_encryption_method` and the getter of `encryption_method`
(lines 1508-1561).  The engine stores the method in `value` and the chaining
mode in `value2`; the result is `PyLong_FromLong( (long) encryption_method )`. -/
def pyluksde_volume_get_encryption_method {σ : Type} (E : Engine σ) (w : World σ)
    (pyluksde_volume : Option PyVolume) : Outcome σ :=
  let function := "pyluksde_volume_get_encryption_method"
  match pyluksde_volume with
  | none =>
    { ret := .null <| PyErr_Format .ValueError function "invalid volume.", self := none, world := w }
  | some self =>
    let r := w.call E .libluksde_volume_get_encryption_method
    let encryption_method := r.1.value
    if r.1.result ≠ 1 then
      { ret := .null <| pyluksde_error_raise r.1.error .IOError function
          "unable to retrieve encryption method.",
        self := some self, world := r.2 }
    else
      { ret := .object (.long encryption_method), self := some self, world := r.2 }

/-- The CPython call `PyUnicode_AsUnicode( o )`. -/
def PyUnicode_AsUnicode : PyObject → List Nat
  | .unicode wide _ => wide
  | _ => []

/-- The CPython calls `PyUnicode_AsUTF8String( o )` and, on its result,
`PyBytes_AsString`; `none` when the first returns `NULL`. -/
def PyUnicode_AsUTF8String : PyObject → Option (List Byte)
  | .unicode _ utf8 => utf8
  | _ => none

/-- The CPython call `PyBytes_AsString( o )`. -/
def PyBytes_AsString : PyObject → List Byte
  | .bytes data => data
  | _ => []

/-- The result of a C function that returns `int` and may set an exception. -/
structure IntOutcome (σ : Type) where
  result : Int
  raised : Option PyError
  self : Option PyVolume
  world : World σ

/-- The result of a function that returns a volume object or `NULL`: the
pointer returned (with the object's fields), the exception left pending, the
world. -/
structure NewOutcome (σ : Type) where
  object : Option PyVolume
  raised : Option PyError
  world : World σ

/-- The function `pyluksde_volume_init` (lines 358-392). -/
def pyluksde_volume_init {σ : Type} (E : Engine σ) (w : World σ)
    (pyluksde_volume : Option PyVolume) : IntOutcome σ :=
  let function := "pyluksde_volume_init"
  match pyluksde_volume with
  | none =>
    { result := -1, raised := some (PyErr_Format .ValueError function "invalid volume."),
      self := none, world := w }
  | some _ =>
    let r := w.call E EngineCall.libluksde_volume_initialize
    let self : PyVolume := { volume := r.1.pointer, file_io_handle := none }
    if r.1.result ≠ 1 then
      { result := -1,
        raised := some (pyluksde_error_raise r.1.error .MemoryError function
          "unable to initialize volume."),
        self := some self, world := r.2 }
    else
      { result := 0, raised := none, self := some self, world := r.2 }

/-- The function `pyluksde_volume_free` (lines 396-464), the `tp_dealloc` of
the type: the exception it sets, if any, and the world after it.  The type
object is the static `pyluksde_volume_type_object`, so `ob_type` and its
`tp_free` are not `NULL`. -/
def pyluksde_volume_free {σ : Type} (E : Engine σ) (w : World σ)
    (pyluksde_volume : Option PyVolume) : Option PyError × World σ :=
  let function := "pyluksde_volume_free"
  match pyluksde_volume with
  | none => (some (PyErr_Format .ValueError function "invalid volume."), w)
  | some self =>
    if self.volume = none then
      (some (PyErr_Format .ValueError function "invalid volume - missing libluksde volume."), w)
    else
      let r := w.call E .libluksde_volume_free
      if r.1.result ≠ 1 then
        (some (pyluksde_error_raise r.1.error .MemoryError function
          "unable to free libluksde volume."), r.2)
      else (none, r.2)

/-- The function `pyluksde_volume_new` (lines 271-309).  `allocated` is what
`PyObject_New` returns: a new object whose fields are not yet set, or `NULL`.
On the error path `Py_DecRef` drops the only reference, which runs
`pyluksde_volume_free`. -/
def pyluksde_volume_new {σ : Type} (E : Engine σ) (w : World σ)
    (allocated : Option PyVolume) : NewOutcome σ :=
  let function := "pyluksde_volume_new"
  match allocated with
  | none =>
    { object := none,
      raised := some (PyErr_Format .MemoryError function "unable to initialize volume."),
      world := w }
  | some pyluksde_volume =>
    let i := pyluksde_volume_init E w (some pyluksde_volume)
    if i.result ≠ 0 then
      let f := pyluksde_volume_free E i.world i.self
      { object := none,
        raised := some (f.1.getD
          (PyErr_Format .MemoryError function "unable to initialize volume.")),
        world := f.2 }
    else
      { object := i.self, raised := none, world := i.world }

/-- The method `signal_abort` (lines 469-513). -/
def pyluksde_volume_signal_abort {σ : Type} (E : Engine σ) (w : World σ)
    (pyluksde_volume : Option PyVolume) : Outcome σ :=
  let function := "pyluksde_volume_signal_abort"
  match pyluksde_volume with
  | none =>
    { ret := .null <| PyErr_Format .ValueError function "invalid volume.", self := none, world := w }
  | some self =>
    let r := w.call E .libluksde_volume_signal_abort
    if r.1.result ≠ 1 then
      { ret := .null <| pyluksde_error_raise r.1.error .IOError function "unable to signal abort.",
        self := some self, world := r.2 }
    else
      { ret := .object .none, self := some self, world := r.2 }

/-- The test `( mode != NULL ) && ( mode[ 0 ] != 'r' )` of the two open
methods; `mode` is `none` when the argument was omitted. -/
def mode_unsupported (mode : Option String) : Bool :=
  match mode with
  | none => false
  | some m => decide (char_at_0 m ≠ 'r')

/-- The method `open` (lines 518-719).  `HAVE_WIDE_SYSTEM_CHARACTER` tells
which of the two preprocessor branches for a unicode file name was built. -/
def pyluksde_volume_open {σ : Type} (E : Engine σ) (w : World σ)
    (HAVE_WIDE_SYSTEM_CHARACTER : Bool) (pyluksde_volume : Option PyVolume)
    (string_object : PyObject) (mode : Option String) : Outcome σ :=
  let function := "pyluksde_volume_open"
  match pyluksde_volume with
  | none =>
    { ret := .null <| PyErr_Format .ValueError function "invalid volume.", self := none, world := w }
  | some self =>
    if mode_unsupported mode then
      { ret := .null <| PyErr_Format .ValueError function
          ("unsupported mode: " ++ mode.getD "" ++ "."),
        self := some self, world := w }
    else
      let result : Int := PyObject_IsInstance_PyUnicode string_object
      if result = -1 then
        { ret := .null <| PyErr_Format .RuntimeError function
            "unable to determine if string object is of type unicode.",
          self := some self, world := w }
      else if result ≠ 0 then
        if HAVE_WIDE_SYSTEM_CHARACTER then
          let filename_wide := PyUnicode_AsUnicode string_object
          let r := w.call E (.libluksde_volume_open_wide filename_wide LIBLUKSDE_OPEN_READ)
          if r.1.result ≠ 1 then
            { ret := .null <| pyluksde_error_raise r.1.error .IOError function
                "unable to open volume.",
              self := some self, world := r.2 }
          else
            { ret := .object .none, self := some self, world := r.2 }
        else
          match PyUnicode_AsUTF8String string_object with
          | none =>
            { ret := .null <| PyErr_Format .RuntimeError function
                "unable to convert unicode string to UTF-8.",
              self := some self, world := w }
          | some filename_narrow =>
            let r := w.call E (.libluksde_volume_open filename_narrow LIBLUKSDE_OPEN_READ)
            if r.1.result ≠ 1 then
              { ret := .null <| pyluksde_error_raise r.1.error .IOError function
                  "unable to open volume.",
                self := some self, world := r.2 }
            else
              { ret := .object .none, self := some self, world := r.2 }
      else
        let result : Int := PyObject_IsInstance_PyBytes string_object
        if result = -1 then
          { ret := .null <| PyErr_Format .RuntimeError function
              "unable to determine if string object is of type string.",
            self := some self, world := w }
        else if result ≠ 0 then
          let filename_narrow := PyBytes_AsString string_object
          let r := w.call E (.libluksde_volume_open filename_narrow LIBLUKSDE_OPEN_READ)
          if r.1.result ≠ 1 then
            { ret := .null <| pyluksde_error_raise r.1.error .IOError function
                "unable to open volume.",
              self := some self, world := r.2 }
          else
            { ret := .object .none, self := some self, world := r.2 }
        else
          { ret := .null <| PyErr_Format .TypeError function "unsupported string object type.",
            self := some self, world := w }

/-- The label `on_error` of `pyluksde_volume_open_file_object` (lines
820-827), reached with the exception `raised` set.  `libbfio_handle_free`
(libbfio is not among the sources) is given the address of the field and
stores `NULL` in it. -/
def pyluksde_volume_open_file_object_on_error {σ : Type} (E : Engine σ) (w : World σ)
    (self : PyVolume) (raised : PyError) : Outcome σ :=
  if self.file_io_handle ≠ none then
    let r := w.call E (.libbfio_handle_free self.file_io_handle)
    { ret := .null raised, self := some { self with file_io_handle := none }, world := r.2 }
  else
    { ret := .null raised, self := some self, world := w }

/-- The method `open_file_object` (lines 724-828).
`pyluksde_file_object_initialize` stores the new handle through
`&( pyluksde_volume->file_io_handle )`: the `pointer` of its response. -/
def pyluksde_volume_open_file_object {σ : Type} (E : Engine σ) (w : World σ)
    (pyluksde_volume : Option PyVolume) (file_object : PyObject) (mode : Option String) :
    Outcome σ :=
  let function := "pyluksde_volume_open_file_object"
  match pyluksde_volume with
  | none =>
    { ret := .null <| PyErr_Format .ValueError function "invalid volume.", self := none, world := w }
  | some self =>
    if mode_unsupported mode then
      { ret := .null <| PyErr_Format .ValueError function
          ("unsupported mode: " ++ mode.getD "" ++ "."),
        self := some self, world := w }
    else if self.file_io_handle ≠ none then
      pyluksde_volume_open_file_object_on_error E w self
        (pyluksde_error_raise none .IOError function
          "invalid volume - file IO handle already set.")
    else
      let r := w.call E ( EngineCall.pyluksde_file_object_initialize file_object)
      let self : PyVolume := { self with file_io_handle := r.1.pointer }
      if r.1.result ≠ 1 then
        pyluksde_volume_open_file_object_on_error E r.2 self
          (pyluksde_error_raise r.1.error .MemoryError function
            "unable to initialize file IO handle.")
      else
        let r2 := r.2.call E
          (.libluksde_volume_open_file_io_handle self.file_io_handle LIBLUKSDE_OPEN_READ)
        if r2.1.result ≠ 1 then
          pyluksde_volume_open_file_object_on_error E r2.2 self
            (pyluksde_error_raise r2.1.error .IOError function "unable to open volume.")
        else
          { ret := .object .none, self := some self, world := r2.2 }

/-- The method `close` (lines 833-901). -/
def pyluksde_volume_close {σ : Type} (E : Engine σ) (w : World σ)
    (pyluksde_volume : Option PyVolume) : Outcome σ :=
  let function := "pyluksde_volume_close"
  match pyluksde_volume with
  | none =>
    { ret := .null <| PyErr_Format .ValueError function "invalid volume.", self := none, world := w }
  | some self =>
    let r := w.call E .libluksde_volume_close
    if r.1.result ≠ 0 then
      { ret := .null <| pyluksde_error_raise r.1.error .IOError function "unable to close volume.",
        self := some self, world := r.2 }
    else if self.file_io_handle ≠ none then
      let r2 := r.2.call E (.libbfio_handle_free self.file_io_handle)
      let self : PyVolume := { self with file_io_handle := none }
      if r2.1.result ≠ 1 then
        { ret := .null <| pyluksde_error_raise r2.1.error .IOError function
            "unable to free libbfio file IO handle.",
          self := some self, world := r2.2 }
      else
        { ret := .object .none, self := some self, world := r2.2 }
    else
      { ret := .object .none, self := some self, world := r.2 }

/-- The method `set_password` (lines 1566-1635).  The format `"s"` never
leaves `utf8_string` `NULL` when parsing succeeded. -/
def pyluksde_volume_set_password {σ : Type} (E : Engine σ) (w : World σ)
    (pyluksde_volume : Option PyVolume) (utf8_string : List Byte) : Outcome σ :=
  let function := "pyluksde_volume_set_password"
  match pyluksde_volume with
  | none =>
    { ret := .null <| PyErr_Format .ValueError function "invalid volume.", self := none, world := w }
  | some self =>
    let r := w.call E (.libluksde_volume_set_utf8_password utf8_string)
    if r.1.result ≠ 1 then
      { ret := .null <| pyluksde_error_raise r.1.error .IOError function "unable to set password.",
        self := some self, world := r.2 }
    else
      { ret := .object .none, self := some self, world := r.2 }

/-- The exception pending after a method was called while `before` was
pending: the one the method set when it returned `NULL`. -/
def pending_after (before : Option PyError) (ret : PyReturn) : Option PyError :=
  match ret with
  | .null raised => some raised
  | .object _ => before

/-- The function `pyluksde_volume_new_open` (lines 314-331): the value of
`pyluksde_volume_open` is not looked at, the pointer `pyluksde_volume_new`
gave is returned. -/
def pyluksde_volume_new_open {σ : Type} (E : Engine σ) (w : World σ)
    (HAVE_WIDE_SYSTEM_CHARACTER : Bool) (allocated : Option PyVolume)
    (string_object : PyObject) (mode : Option String) : NewOutcome σ :=
  let n := pyluksde_volume_new E w allocated
  let o := pyluksde_volume_open E n.world HAVE_WIDE_SYSTEM_CHARACTER n.object string_object mode
  { object := o.self, raised := pending_after n.raised o.ret, world := o.world }

/-- The function `pyluksde_volume_new_open_file_object` (lines 336-353): the
value of `pyluksde_volume_open_file_object` is not looked at, the pointer
`pyluksde_volume_new` gave is returned. -/
def pyluksde_volume_new_open_file_object {σ : Type} (E : Engine σ) (w : World σ)
    (allocated : Option PyVolume) (file_object : PyObject) (mode : Option String) :
    NewOutcome σ :=
  let n := pyluksde_volume_new E w allocated
  let o := pyluksde_volume_open_file_object E n.world n.object file_object mode
  { object := o.self, raised := pending_after n.raised o.ret, world := o.world }

/-! ## The engine as the specification describes it -/

/-- Modelled from the spec: the three states of a Volume Handle (section 3:
"a Volume Handle is in exactly one of states Closed, OpenLocked,
OpenUnlocked").  libluksde is not among the sources. -/
inductive HandleState
  | Closed
  | OpenLocked
  | OpenUnlocked
  deriving DecidableEq, Repr

/-- Modelled from the spec: the Volume Handle of the engine (sections 3 and
4.4), which libluksde implements and which is not among the sources.
`size` is the logical payload size, `plaintext o` the decrypted byte at
logical offset `o`, `cursor` the CursorState, `password` the passphrase that
unlocks a key slot. -/
structure SpecVolume where
  state : HandleState
  size : Nat
  plaintext : Nat → Byte
  cursor : Nat
  encryption_method : Int
  encryption_chaining_mode : Int
  password : List Byte

/-- A response that only carries a return value. -/
def Response.of_result (result : Int) : Response :=
  { result := result, value := 0, value2 := 0, pointer := none, data := [], error := none }

/-- A failed call: -1 and the error object. -/
def Response.failure (error : Option EngineError) : Response :=
  { result := -1, value := 0, value2 := 0, pointer := none, data := [], error := error }

/-- Modelled from the spec: the decrypted bytes of the range
`[offset, offset + length)`, clipped to the volume's size (section 4.4:
"fewer bytes if the read would exceed the volume's advertised size"). -/
def SpecVolume.read_range (v : SpecVolume) (offset length : Nat) : List Byte :=
  (List.range (min length (v.size - offset))).map (fun i => v.plaintext (offset + i))

/-- Modelled from the spec: the offset a seek asks for (section 4.4:
"absolute/relative/end-relative positioning of the cursor"), `none` for a
`whence` that is none of `SEEK_SET` (0), `SEEK_CUR` (1), `SEEK_END` (2). -/
def SpecVolume.seek_target (v : SpecVolume) (offset whence : Int) : Option Int :=
  if whence = 0 then some offset
  else if whence = 1 then some ((v.cursor : Int) + offset)
  else if whence = 2 then some ((v.size : Int) + offset)
  else none

/-- Modelled from the spec: the engine behind the binding (sections 3, 4.4,
6 and 7), which libluksde implements and which is not among the sources.

* open: `Closed` to `OpenLocked`, cursor reset to 0; a failed open leaves the
  handle `Closed`.
* a password: `OpenLocked` to `OpenUnlocked` when it unlocks a key slot, else
  `UnlockFailed` and the handle stays `OpenLocked`.
* reads are valid only in `OpenUnlocked`; a read returns the decrypted bytes
  clipped to the volume's size; the cursor-relative read advances the cursor
  by the number of bytes returned, the positional read has no cursor side
  effect.
* seek: a negative resulting offset fails with `InvalidArgument` and leaves
  the cursor as it was.
* size and encryption method are known once the header is parsed, that is
  in both open states.

A call the specification gives no rule for in the state at hand fails with
-1 and no error kind. -/
def specEngine : Engine SpecVolume := fun v c =>
  match c with
  | EngineCall.libluksde_volume_initialize =>
    ({ Response.of_result 1 with pointer := some 1 }, v)
  | .libluksde_volume_free => (Response.of_result 1, v)
  | .libluksde_volume_signal_abort => (Response.of_result 1, v)
  | EngineCall.pyluksde_file_object_initialize _ =>
    ({ Response.of_result 1 with pointer := some 1 }, v)
  | .libbfio_handle_free _ => (Response.of_result 1, v)
  | .libluksde_volume_open _ _ =>
    if v.state = .Closed then
      (Response.of_result 1, { v with state := .OpenLocked, cursor := 0 })
    else (Response.failure none, v)
  | .libluksde_volume_open_wide _ _ =>
    if v.state = .Closed then
      (Response.of_result 1, { v with state := .OpenLocked, cursor := 0 })
    else (Response.failure none, v)
  | .libluksde_volume_open_file_io_handle _ _ =>
    if v.state = .Closed then
      (Response.of_result 1, { v with state := .OpenLocked, cursor := 0 })
    else (Response.failure none, v)
  | .libluksde_volume_set_utf8_password utf8_string =>
    if v.state = .OpenLocked then
      if utf8_string = v.password then
        (Response.of_result 1, { v with state := .OpenUnlocked })
      else (Response.failure (some .UnlockFailed), v)
    else (Response.failure none, v)
  | .libluksde_volume_close =>
    if v.state = .Closed then (Response.failure none, v)
    else (Response.of_result 0, { v with state := .Closed })
  | .libluksde_volume_get_size =>
    if v.state = .Closed then (Response.failure none, v)
    else ({ Response.of_result 1 with value := v.size }, v)
  | .libluksde_volume_get_encryption_method =>
    if v.state = .Closed then (Response.failure none, v)
    else
      ({ Response.of_result 1 with
          value := v.encryption_method, value2 := v.encryption_chaining_mode }, v)
  | .libluksde_volume_get_offset =>
    if v.state = .Closed then (Response.failure none, v)
    else ({ Response.of_result 1 with value := v.cursor }, v)
  | .libluksde_volume_seek_offset offset whence =>
    match v.seek_target offset whence with
    | none => (Response.failure (some .InvalidArgument), v)
    | some target =>
      if target < 0 then (Response.failure (some .InvalidArgument), v)
      else if v.state = .Closed then (Response.failure none, v)
      else (Response.of_result target, { v with cursor := target.toNat })
  | .libluksde_volume_read_buffer buffer_size =>
    if v.state = .OpenUnlocked then
      let data := v.read_range v.cursor buffer_size
      ({ Response.of_result data.length with data := data },
        { v with cursor := v.cursor + data.length })
    else (Response.failure none, v)
  | .libluksde_volume_read_buffer_at_offset buffer_size offset =>
    if offset < 0 then (Response.failure (some .InvalidArgument), v)
    else if v.state = .OpenUnlocked then
      let data := v.read_range offset.toNat buffer_size
      ({ Response.of_result data.length with data := data }, v)
    else (Response.failure none, v)

/-! ## Concrete inputs -/

/-- An unlocked volume of ten bytes, the byte at offset `o` being `o + 10`,
with the cursor at offset 5. -/
def demo_volume : SpecVolume :=
  { state := .OpenUnlocked, size := 10, plaintext := fun o => o + 10, cursor := 5,
    encryption_method := 1, encryption_chaining_mode := 2, password := [112, 119] }

/-- The world in which `demo_volume` is the engine's volume and no call has
been made yet. -/
def demo_world : World SpecVolume := { state := demo_volume, trace := [] }

/-- A volume object whose libluksde volume is set and that was not opened
from a file object. -/
def demo_self : PyVolume := { volume := some 1, file_io_handle := none }

/-- An unlocked volume of `INT_MAX + 1` bytes, all zero, with the cursor at
offset 0. -/
def large_volume : SpecVolume :=
  { state := .OpenUnlocked, size := 2147483648, plaintext := fun _ => 0, cursor := 0,
    encryption_method := 1, encryption_chaining_mode := 2, password := [] }

/-- The world in which `large_volume` is the engine's volume and no call has
been made yet. -/
def large_world : World SpecVolume := { state := large_volume, trace := [] }

/-- A closed volume: `demo_volume` before it is opened. -/
def closed_volume : SpecVolume := { demo_volume with state := .Closed, cursor := 0 }

/-- The world in which `closed_volume` is the engine's volume and no call
has been made yet. -/
def closed_world : World SpecVolume := { state := closed_volume, trace := [] }

/-- A volume object that was opened from a file object: its file IO handle
is set. -/
def demo_self_with_handle : PyVolume := { volume := some 1, file_io_handle := some 7 }

/-- The access flags a call passes, for the calls that open a volume. -/
def EngineCall.access_flags : EngineCall → Option Int
  | .libluksde_volume_open _ access_flags => some access_flags
  | .libluksde_volume_open_wide _ access_flags => some access_flags
  | .libluksde_volume_open_file_io_handle _ access_flags => some access_flags
  | _ => none

/-- What `PyObject_New` returns when it succeeds: an object whose fields
are not yet set. -/
def allocated_object : PyVolume := { volume := none, file_io_handle := none }

/-- The call `read_buffer_at_offset` makes for its arguments, if it makes
one: the positional read, for an accepted size and offset. -/
def read_buffer_at_offset_call (integer_object : PyObject) (offset : Int) :
    Option EngineCall :=
  match integer_object with
  | .long size =>
    if 0 < size ∧ size ≤ INT_MAX ∧ 0 ≤ offset then
      some (.libluksde_volume_read_buffer_at_offset (to_size_t size) offset)
    else none
  | _ => none

/-- The log `after` continues the log `before` with calls of which each one
that opens a volume passes `LIBLUKSDE_OPEN_READ`. -/
def opens_read_only (before after : List EngineCall) : Prop :=
  before <+: after
    ∧ ∀ c ∈ after.drop before.length,
        c.access_flags = none ∨ c.access_flags = some LIBLUKSDE_OPEN_READ

/-- Whether a log continues another with read-only opens can be computed. -/
instance (before after : List EngineCall) : Decidable (opens_read_only before after) := by
  unfold opens_read_only
  infer_instance

/-- Whether a method returned an object (and not `NULL`). -/
def PyReturn.succeeded : PyReturn → Bool
  | .object _ => true
  | .null _ => false

/-- The calls on a volume object that the invariant of its file IO handle
is about, with their arguments. -/
inductive VolumeOp
  | call_init
  | call_open (HAVE_WIDE_SYSTEM_CHARACTER : Bool) (string_object : PyObject) (mode : Option String)
  | call_open_file_object (file_object : PyObject) (mode : Option String)
  | call_close

/-- A volume object in the course of a sequence of calls: the object, the
world, and whether the sequence is between a successful `open_file_object`
and the next successful `close` (a successful `open_file_object` has
happened and no `close` has succeeded since). -/
structure Lifetime (σ : Type) where
  self : PyVolume
  world : World σ
  opened_from_file_object : Bool

/-- One call of the sequence, made on the volume object. -/
def Lifetime.step {σ : Type} (E : Engine σ) (s : Lifetime σ) : VolumeOp → Lifetime σ
  | .call_init =>
    let i := pyluksde_volume_init E s.world (some s.self)
    { self := i.self.getD s.self, world := i.world,
      opened_from_file_object := s.opened_from_file_object }
  | .call_open wide string_object mode =>
    let o := pyluksde_volume_open E s.world wide (some s.self) string_object mode
    { self := o.self.getD s.self, world := o.world,
      opened_from_file_object := s.opened_from_file_object }
  | .call_open_file_object file_object mode =>
    let o := pyluksde_volume_open_file_object E s.world (some s.self) file_object mode
    { self := o.self.getD s.self, world := o.world,
      opened_from_file_object := o.ret.succeeded || s.opened_from_file_object }
  | .call_close =>
    let o := pyluksde_volume_close E s.world (some s.self)
    { self := o.self.getD s.self, world := o.world,
      opened_from_file_object := !o.ret.succeeded && s.opened_from_file_object }

/-- A sequence of calls, made one after the other on the volume object. -/
def Lifetime.run {σ : Type} (E : Engine σ) (s : Lifetime σ) (ops : List VolumeOp) :
    Lifetime σ :=
  ops.foldl (Lifetime.step E) s

/-- The file IO handle is set only between a successful `open_file_object`
and the next successful `close`. -/
def Lifetime.handle_only_when_opened {σ : Type} (s : Lifetime σ) : Prop :=
  s.self.file_io_handle ≠ none → s.opened_from_file_object = true

/-- An unlocked volume of no bytes. -/
def empty_volume : SpecVolume :=
  { state := .OpenUnlocked, size := 0, plaintext := fun _ => 0, cursor := 0,
    encryption_method := 1, encryption_chaining_mode := 2, password := [] }

/-- The world in which `empty_volume` is the engine's volume and no call has
been made yet. -/
def empty_world : World SpecVolume := { state := empty_volume, trace := [] }

end Pyluksde

/-! ## The tool luksdeinfo

`luksdeinfo.c` holds `usage_fprint`, a signal handler and `main`.  `main`
works through an info handle (`info_handle.c`), libclocale, libcnotify and
the output helpers of luksdetools, none of which is among the sources: every
call into them is a call to a `ToolEngine`, logged with its response.  What
`main` prints is kept as a list of `Output` items.  The results of
`luksdetools_getopt` (not among the sources either; it is the C library's
`getopt` where there is one) are part of the command line given to `main`.
The signal handler is not attached by this `main` and is left out. -/

namespace Luksdeinfo

/-- The constant `EXIT_SUCCESS` of `<stdlib.h>`. -/
def EXIT_SUCCESS : Int := 0

/-- The constant `EXIT_FAILURE` of `<stdlib.h>`. -/
def EXIT_FAILURE : Int := 1

/-- The two streams `main` prints to. -/
inductive Stream
  | stdout
  | stderr
  deriving DecidableEq, Repr

/-- One thing printed: the text of one `fprintf` call, the version banner
(`luksdeoutput_version_fprint`), the copyright text
(`luksdeoutput_copyright_fprint`), or the backtrace of an error object
(`libcnotify_print_error_backtrace`, which prints to the stream given to
`libcnotify_stream_set`: `main` gives it `stderr`). -/
inductive Output
  | write (stream : Stream) (text : String)
  | version (stream : Stream) (program : String)
  | copyright (stream : Stream)
  | backtrace (error : Pyluksde.EngineError)
  deriving DecidableEq, Repr

/-- The stream an item is printed to. -/
def Output.stream : Output → Stream
  | .write stream _ => stream
  | .version stream _ => stream
  | .copyright stream => stream
  | .backtrace _ => .stderr

/-- What was printed to standard error, in order. -/
def stderr_of (output : List Output) : List Output :=
  output.filter (fun o => decide (o.stream = .stderr))

/-- The calls `main` makes into the libraries and helpers, with the
arguments that matter (the info handle passed is always
`luksdeinfo_info_handle`). -/
inductive ToolCall
  | libcnotify_stream_set
  | libcnotify_verbose_set (verbose : Int)
  | libclocale_initialize
  | luksdetools_output_initialize
  | libluksde_notify_set_stream
  | libluksde_notify_set_verbose (verbose : Int)
  | info_handle_initialize
  | info_handle_set_keys (keys : String)
  | info_handle_set_password (password : String)
  | info_handle_set_volume_offset (offset : String)
  | info_handle_open_input (source : String)
  | info_handle_volume_fprint
  | info_handle_input_is_locked
  | info_handle_close_input
  | info_handle_free
  deriving DecidableEq, Repr

/-- What a call gives back: the C return value, the pointer stored through
`&luksdeinfo_info_handle` (for the two calls that are given it) and the
error object stored through `&error`, if any. -/
structure ToolResponse where
  result : Int
  handle : Option Nat
  error : Option Pyluksde.EngineError
  deriving DecidableEq, Repr

/-- The libraries behind `main`: from their state and a call, the response
and the next state. -/
abbrev ToolEngine (σ : Type) := σ → ToolCall → ToolResponse × σ

/-- The state of a run of `main`: the state of the libraries, the log of the
calls made with their responses, what was printed, the local variable
`error` and the global `luksdeinfo_info_handle`. -/
structure Run (σ : Type) where
  state : σ
  trace : List (ToolCall × ToolResponse)
  output : List Output
  error : Option Pyluksde.EngineError
  luksdeinfo_info_handle : Option Nat

/-- A call that is not given `&error` (or has no error argument). -/
def Run.call {σ : Type} (E : ToolEngine σ) (r : Run σ) (c : ToolCall) :
    ToolResponse × Run σ :=
  ((E r.state c).1,
   { r with state := (E r.state c).2, trace := r.trace ++ [(c, (E r.state c).1)] })

/-- A call that is given `&error`: an error object it stores is kept in
`error` (one that is there already stays). -/
def Run.call_error {σ : Type} (E : ToolEngine σ) (r : Run σ) (c : ToolCall) :
    ToolResponse × Run σ :=
  ((E r.state c).1,
   { r with state := (E r.state c).2, trace := r.trace ++ [(c, (E r.state c).1)],
            error := match r.error with
              | some e => some e
              | none => (E r.state c).1.error })

/-- Printing, in order. -/
def Run.print {σ : Type} (r : Run σ) (items : List Output) : Run σ :=
  { r with output := r.output ++ items }

/-- What `main` returns, and the run at that point. -/
structure MainResult (σ : Type) where
  exit_status : Int
  final : Run σ

/-- The function `usage_fprint` (lines 52-73): nothing for a `NULL` stream,
else one item per `fprintf` call. -/
def usage_fprint (stream : Option Stream) : List Output :=
  match stream with
  | none => []
  | some stream =>
    [ .write stream
        "Use luksdeinfo to determine information about a Linux Unified\nKey Setup (LUKS) volume\n\n",
      .write stream
        "Usage: luksdeinfo [ -k keys ] [ -o offset ] [ -p password ]\n                  [ -hvV ] source\n\n",
      .write stream "\tsource: the source file or device\n\n",
      .write stream "\t-h:     shows this help\n",
      .write stream "\t-k:     the master key, formatted in base16\n",
      .write stream "\t-o:     specify the volume offset\n",
      .write stream "\t-p:     specify the password/passphrase\n",
      .write stream "\t-v:     verbose output to stderr\n",
      .write stream "\t-V:     print version\n" ]

/-- The options string `main` gives to `luksdetools_getopt`. -/
def options_string : String := "hk:o:p:vV"

/-- One result of `luksdetools_getopt` other than -1: the option character
returned, `optarg` and `optind` as the call left them. -/
structure GetoptResult where
  option : Char
  optarg : Option String
  optind : Nat
  deriving DecidableEq, Repr

/-- The command line as `main` sees it: `argv` (with `argc` its length), the
successive results of `luksdetools_getopt( argc, argv, "hk:o:p:vV" )` up to
the call that returns -1, and `optind` after that call. -/
structure CommandLine where
  argv : List String
  getopt : List GetoptResult
  optind : Nat
  deriving DecidableEq, Repr

/-- The local variables of `main` that the option loop sets. -/
structure Options where
  option_keys : Option String
  option_password : Option String
  option_volume_offset : Option String
  verbose : Int
  deriving DecidableEq, Repr

/-- The label `on_error` of `main` (lines 350-364): the backtrace of the
error object, if there is one, is printed and the object freed; the info
handle, if there is one, is freed (`info_handle_free` is given the address
of the global and no error argument); `EXIT_FAILURE`. -/
def on_error {σ : Type} (E : ToolEngine σ) (r : Run σ) : MainResult σ :=
  let r : Run σ :=
    match r.error with
    | some e => { r.print [.backtrace e] with error := none }
    | none => r
  if r.luksdeinfo_info_handle ≠ none then
    let a := r.call E .info_handle_free
    { exit_status := EXIT_FAILURE,
      final := { a.2 with luksdeinfo_info_handle := a.1.handle } }
  else
    { exit_status := EXIT_FAILURE, final := r }

/-- The end of `main` from `info_handle_open_input` on (lines 292-348). -/
def main_from_open_input {σ : Type} (E : ToolEngine σ) (r : Run σ) (source : String) :
    MainResult σ :=
  let a := r.call_error E (.info_handle_open_input source)
  if a.1.result = -1 then
    on_error E (a.2.print [.write .stderr ("Unable to open: " ++ source ++ ".\n")])
  else
    let b := a.2.call_error E .info_handle_volume_fprint
    if b.1.result ≠ 1 then
      on_error E (b.2.print [.write .stderr "Unable to print volume information.\n"])
    else
      let c := b.2.call_error E .info_handle_input_is_locked
      if c.1.result ≠ 0 then
        on_error E (c.2.print [.write .stderr "Unable to unlock volume.\n"])
      else
        let d := c.2.call_error E .info_handle_close_input
        if d.1.result ≠ 0 then
          on_error E (d.2.print [.write .stderr "Unable to close info handle.\n"])
        else
          let e := d.2.call_error E .info_handle_free
          let run : Run σ := { e.2 with luksdeinfo_info_handle := e.1.handle }
          if e.1.result ≠ 1 then
            on_error E (run.print [.write .stderr "Unable to free info handle.\n"])
          else
            { exit_status := EXIT_SUCCESS, final := run }

/-- The part of `main` from `if( option_volume_offset != NULL )` on (lines
278-348). -/
def main_from_volume_offset {σ : Type} (E : ToolEngine σ) (r : Run σ) (options : Options)
    (source : String) : MainResult σ :=
  match options.option_volume_offset with
  | some option_volume_offset =>
    let a := r.call_error E (.info_handle_set_volume_offset option_volume_offset)
    if a.1.result ≠ 1 then
      on_error E (a.2.print [.write .stderr "Unable to set volume offset.\n"])
    else main_from_open_input E a.2 source
  | none => main_from_open_input E r source

/-- The part of `main` from `if( option_password != NULL )` on (lines
264-348). -/
def main_from_password {σ : Type} (E : ToolEngine σ) (r : Run σ) (options : Options)
    (source : String) : MainResult σ :=
  match options.option_password with
  | some option_password =>
    let a := r.call_error E (.info_handle_set_password option_password)
    if a.1.result ≠ 1 then
      on_error E (a.2.print [.write .stderr "Unable to set password.\n"])
    else main_from_volume_offset E a.2 options source
  | none => main_from_volume_offset E r options source

/-- The part of `main` from `if( option_keys != NULL )` on (lines 250-348). -/
def main_from_keys {σ : Type} (E : ToolEngine σ) (r : Run σ) (options : Options)
    (source : String) : MainResult σ :=
  match options.option_keys with
  | some option_keys =>
    let a := r.call_error E (.info_handle_set_keys option_keys)
    if a.1.result ≠ 1 then
      on_error E (a.2.print [.write .stderr "Unable to set keys.\n"])
    else main_from_password E a.2 options source
  | none => main_from_password E r options source

/-- The part of `main` from `info_handle_initialize` on (lines 240-348). -/
def main_from_initialize {σ : Type} (E : ToolEngine σ) (r : Run σ) (options : Options)
    (source : String) : MainResult σ :=
  let a := r.call_error E ToolCall.info_handle_initialize
  let run : Run σ := { a.2 with luksdeinfo_info_handle := a.1.handle }
  if a.1.result ≠ 1 then
    on_error E (run.print [.write .stderr "Unable to initialize info handle.\n"])
  else main_from_keys E run options source

/-- Where the start of `main` or its option loop leaves off: `main` has
returned, or goes on with the run (and the options set so far). -/
inductive Progress (σ : Type) (α : Type)
  | returned (result : MainResult σ)
  | goes_on (value : α) (run : Run σ)

/-- The start of `main` up to the option loop (lines 137-165). -/
def main_startup {σ : Type} (E : ToolEngine σ) (state : σ) : Progress σ Unit :=
  let program := "luksdeinfo"
  let r : Run σ :=
    { state := state, trace := [], output := [], error := none,
      luksdeinfo_info_handle := none }
  let r := (r.call E .libcnotify_stream_set).2
  let r := (r.call E (.libcnotify_verbose_set 1)).2
  let a := r.call_error E ToolCall.libclocale_initialize
  if a.1.result ≠ 1 then
    .returned (on_error E (a.2.print [.write .stderr "Unable to initialize locale values.\n"]))
  else
    let b := a.2.call_error E ToolCall.luksdetools_output_initialize
    if b.1.result ≠ 1 then
      .returned
        (on_error E (b.2.print [.write .stderr "Unable to initialize output settings.\n"]))
    else
      .goes_on () (b.2.print [.version .stdout program])

/-- The option loop of `main` (lines 167-218), run over the results of
`luksdetools_getopt` that are left. -/
def main_options {σ : Type} (argv : List String) :
    List GetoptResult → Options → Run σ → Progress σ Options
  | [], options, r => .goes_on options r
  | g :: rest, options, r =>
    if g.option = 'h' then
      .returned { exit_status := EXIT_SUCCESS, final := r.print (usage_fprint (some .stdout)) }
    else if g.option = 'k' then
      main_options argv rest { options with option_keys := g.optarg } r
    else if g.option = 'o' then
      main_options argv rest { options with option_volume_offset := g.optarg } r
    else if g.option = 'p' then
      main_options argv rest { options with option_password := g.optarg } r
    else if g.option = 'v' then
      main_options argv rest { options with verbose := 1 } r
    else if g.option = 'V' then
      .returned { exit_status := EXIT_SUCCESS, final := r.print [.copyright .stdout] }
    else
      .returned
        { exit_status := EXIT_FAILURE,
          final := (r.print
            [.write .stderr ("Invalid argument: " ++ argv.getD (g.optind - 1) "" ++ "\n")]).print
            (usage_fprint (some .stdout)) }

/-- The values the option variables of `main` start with. -/
def Options.initial : Options :=
  { option_keys := none, option_password := none, option_volume_offset := none, verbose := 0 }

/-- The part of `main` after the option loop (lines 219-348). -/
def main_after_options {σ : Type} (E : ToolEngine σ) (cl : CommandLine) (options : Options)
    (r : Run σ) : MainResult σ :=
  if cl.optind = cl.argv.length then
    { exit_status := EXIT_FAILURE,
      final := (r.print [.write .stderr "Missing source file or device.\n"]).print
        (usage_fprint (some .stdout)) }
  else
    let source := cl.argv.getD cl.optind ""
    let r := (r.call E (.libcnotify_verbose_set options.verbose)).2
    let r := (r.call E .libluksde_notify_set_stream).2
    let r := (r.call E (.libluksde_notify_set_verbose options.verbose)).2
    main_from_initialize E r options source

/-- The function `main` (lines 124-365). -/
def main {σ : Type} (E : ToolEngine σ) (state : σ) (cl : CommandLine) : MainResult σ :=
  match main_startup E state with
  | .returned result => result
  | .goes_on _ r =>
    match main_options cl.argv cl.getopt Options.initial r with
    | .returned result => result
    | .goes_on options r => main_after_options E cl options r

/-! ### The plan of `main`, in the words of the specification -/


/-- One step of the plan: the call it makes, which return values count as
its failure, the diagnostic printed when it fails, and whether the call is
given the address of `luksdeinfo_info_handle`. -/
structure Step where
  call : ToolCall
  failed : Int → Bool
  diagnostic : String
  stores_handle : Bool

/-- The steps `main` is to run once the options are read, in their fixed
order: initialise the handle, set the keys (if `-k`), set the password (if
`-p`), set the volume offset (if `-o`), open, print the volume information,
check the lock, close, free. -/
def planned_steps (options : Options) (source : String) : List Step :=
  [ { call := ToolCall.info_handle_initialize, failed := fun result => decide (result ≠ 1),
      diagnostic := "Unable to initialize info handle.\n", stores_handle := true } ]
  ++ (match options.option_keys with
      | some keys =>
        [ { call := .info_handle_set_keys keys, failed := fun result => decide (result ≠ 1),
            diagnostic := "Unable to set keys.\n", stores_handle := false } ]
      | none => [])
  ++ (match options.option_password with
      | some password =>
        [ { call := .info_handle_set_password password,
            failed := fun result => decide (result ≠ 1),
            diagnostic := "Unable to set password.\n", stores_handle := false } ]
      | none => [])
  ++ (match options.option_volume_offset with
      | some offset =>
        [ { call := .info_handle_set_volume_offset offset,
            failed := fun result => decide (result ≠ 1),
            diagnostic := "Unable to set volume offset.\n", stores_handle := false } ]
      | none => [])
  ++ [ { call := .info_handle_open_input source, failed := fun result => decide (result = -1),
         diagnostic := "Unable to open: " ++ source ++ ".\n", stores_handle := false },
       { call := .info_handle_volume_fprint, failed := fun result => decide (result ≠ 1),
         diagnostic := "Unable to print volume information.\n", stores_handle := false },
       { call := .info_handle_input_is_locked, failed := fun result => decide (result ≠ 0),
         diagnostic := "Unable to unlock volume.\n", stores_handle := false },
       { call := .info_handle_close_input, failed := fun result => decide (result ≠ 0),
         diagnostic := "Unable to close info handle.\n", stores_handle := false },
       { call := .info_handle_free, failed := fun result => decide (result ≠ 1),
         diagnostic := "Unable to free info handle.\n", stores_handle := true } ]

/-- The run after a step was made: its call, given `&error`, and the
pointer it stored in `luksdeinfo_info_handle` if it is given its address. -/
def Run.after {σ : Type} (E : ToolEngine σ) (r : Run σ) (s : Step) : Run σ :=
  if s.stores_handle then
    { (r.call_error E s.call).2 with
      luksdeinfo_info_handle := (r.call_error E s.call).1.handle }
  else (r.call_error E s.call).2

/-- Running a plan: the steps are made in order; the first one that fails
has its diagnostic printed to standard error, no later step is made, the
error path (`on_error`) frees the info handle if there is one and the exit
status is `EXIT_FAILURE`; when no step fails the exit status is
`EXIT_SUCCESS`. -/
def run_steps {σ : Type} (E : ToolEngine σ) : List Step → Run σ → MainResult σ
  | [], r => { exit_status := EXIT_SUCCESS, final := r }
  | s :: rest, r =>
    if s.failed (E r.state s.call).1.result then
      on_error E ((r.after E s).print [.write .stderr s.diagnostic])
    else run_steps E rest (r.after E s)

/-- The log entries of steps made, with the responses they got. -/
def entries (log : List (Step × ToolResponse)) : List (ToolCall × ToolResponse) :=
  log.map (fun p => (p.1.call, p.2))

/-- The variable `error` after the steps of a log: the first error object
stored. -/
def error_after (error : Option Pyluksde.EngineError) (log : List (Step × ToolResponse)) :
    Option Pyluksde.EngineError :=
  log.foldl (fun acc p => match acc with
    | some e => some e
    | none => p.2.error) error

/-- The global `luksdeinfo_info_handle` after the steps of a log: what the
last step that is given its address stored. -/
def handle_after (handle : Option Nat) (log : List (Step × ToolResponse)) : Option Nat :=
  log.foldl (fun acc p => if p.1.stores_handle then p.2.handle else acc) handle

/-- What the error path prints for the variable `error`. -/
def backtrace_of (error : Option Pyluksde.EngineError) : List Output :=
  match error with
  | some e => [.backtrace e]
  | none => []

/-- The option letters that set a variable and let the option loop go on. -/
def plain_options : List Char := ['k', 'o', 'p', 'v']

/-- The option variables after the option loop has run over results that
are all `k`, `o`, `p` or `v`. -/
def options_after : List GetoptResult → Options → Options
  | [], options => options
  | g :: rest, options =>
    if g.option = 'k' then options_after rest { options with option_keys := g.optarg }
    else if g.option = 'o' then
      options_after rest { options with option_volume_offset := g.optarg }
    else if g.option = 'p' then
      options_after rest { options with option_password := g.optarg }
    else if g.option = 'v' then options_after rest { options with verbose := 1 }
    else options_after rest options

/-- The run after the three calls that pass `verbose` on once the options
are read (lines 232-238). -/
def Run.notify_set {σ : Type} (E : ToolEngine σ) (r : Run σ) (verbose : Int) : Run σ :=
  (((r.call E (.libcnotify_verbose_set verbose)).2.call E .libluksde_notify_set_stream).2.call E
    (.libluksde_notify_set_verbose verbose)).2

/-- The six option characters the switch of `main` has a case for. -/
def handled_options : List Char := ['h', 'k', 'o', 'p', 'v', 'V']

/-- The options an options string declares, by the convention of `getopt`:
each character is an option, and takes an argument if a colon follows. -/
def optstring_options : List Char → List (Char × Bool)
  | [] => []
  | [c] => [(c, false)]
  | c :: d :: rest =>
    if d = ':' then (c, true) :: optstring_options rest
    else (c, false) :: optstring_options (d :: rest)

/-- The option a line of the usage text documents: the character between
the tab and dash it starts with and the colon after. -/
def documented_option (item : Output) : Option Char :=
  match item with
  | .write _ text =>
    match text.toList with
    | t :: d :: c :: e :: _ =>
      if t = Char.ofNat 9 ∧ d = '-' ∧ e = ':' then some c else none
    | _ => none
  | _ => none

/-- An engine without state that answers each call from a table. -/
def tableEngine (answer : ToolCall → ToolResponse) : ToolEngine Unit :=
  fun s c => (answer c, s)

/-- The answers of libraries for which everything works: the info handle is
made, the volume opens and is unlocked, the handle is freed. -/
def all_succeed : ToolCall → ToolResponse
  | ToolCall.info_handle_initialize => { result := 1, handle := some 1, error := none }
  | .info_handle_input_is_locked => { result := 0, handle := none, error := none }
  | .info_handle_close_input => { result := 0, handle := none, error := none }
  | _ => { result := 1, handle := none, error := none }

/-- The answers when the source cannot be opened: `info_handle_open_input`
returns -1 and stores an error object. -/
def open_fails : ToolCall → ToolResponse
  | .info_handle_open_input _ => { result := -1, handle := none, error := some .IoError }
  | c => all_succeed c

/-- The answers when the volume stays locked: `info_handle_input_is_locked`
returns 1 and stores no error object. -/
def stays_locked : ToolCall → ToolResponse
  | .info_handle_input_is_locked => { result := 1, handle := none, error := none }
  | c => all_succeed c

/-- The run in which the start of `main` leaves off when everything works
(`all_succeed`). -/
def started : Run Unit :=
  { state := (),
    trace := [(.libcnotify_stream_set, all_succeed .libcnotify_stream_set),
              (.libcnotify_verbose_set 1, all_succeed (.libcnotify_verbose_set 1)),
              ( ToolCall.libclocale_initialize, all_succeed ToolCall.libclocale_initialize),
              ( ToolCall.luksdetools_output_initialize,
                all_succeed ToolCall.luksdetools_output_initialize)],
    output := [.version .stdout "luksdeinfo"],
    error := none,
    luksdeinfo_info_handle := none }

/-- The command line `luksdeinfo image.raw`. -/
def cl_image : CommandLine :=
  { argv := ["luksdeinfo", "image.raw"], getopt := [], optind := 1 }

/-- The command line `luksdeinfo -p pw -k 00 image.raw`. -/
def cl_password_keys : CommandLine :=
  { argv := ["luksdeinfo", "-p", "pw", "-k", "00", "image.raw"],
    getopt := [{ option := 'p', optarg := some "pw", optind := 3 },
               { option := 'k', optarg := some "00", optind := 5 }],
    optind := 5 }

/-- The command line `luksdeinfo -k 00 -p pw image.raw`. -/
def cl_keys_password : CommandLine :=
  { argv := ["luksdeinfo", "-k", "00", "-p", "pw", "image.raw"],
    getopt := [{ option := 'k', optarg := some "00", optind := 3 },
               { option := 'p', optarg := some "pw", optind := 5 }],
    optind := 5 }

end Luksdeinfo

/-! ## Theorems -/

namespace Pyluksde

/-- A volume size that fits in `int` is read back unchanged from the
`int64_t` it was stored in. -/
lemma int64_of_size64_of_le_INT_MAX (n : Nat) (h : (n : Int) ≤ INT_MAX) :
    int64_of_size64 (n : Int) = n := by
  simp only [int64_of_size64, INT_MAX] at *
  omega

/-- The casts to `size_t` and `Py_ssize_t` keep a size between 0 and
`INT_MAX`. -/
lemma casts_of_accepted_size (x : Int) (h0 : 0 ≤ x) (h1 : x ≤ INT_MAX) :
    to_size_t x = x.toNat ∧ to_Py_ssize_t x = x := by
  simp only [to_size_t, to_Py_ssize_t, INT_MAX] at *
  constructor <;> omega

/-- The number of bytes a read of the specification's volume returns. -/
lemma SpecVolume.length_read_range (v : SpecVolume) (offset length : Nat) :
    (v.read_range offset length).length = min length (v.size - offset) := by
  simp [SpecVolume.read_range]

/-- The length of the buffer after the engine wrote to it. -/
lemma length_buffer_written (buffer data : List Byte) (h : data.length ≤ buffer.length) :
    (buffer_written buffer data).length = buffer.length := by
  simp [buffer_written]
  omega

/-- Resizing to a count between 0 and the buffer's length keeps the first
`count` bytes. -/
lemma PyBytes_Resize_of_le (buffer : List Byte) (count : Int) (h0 : 0 ≤ count)
    (h1 : count.toNat ≤ buffer.length) :
    PyBytes_Resize buffer count = some (buffer.take count.toNat) := by
  have h2 : ¬ count < 0 := not_lt.mpr h0
  have h3 : count.toNat - buffer.length = 0 := Nat.sub_eq_zero_of_le h1
  simp [PyBytes_Resize, h2, h3]

/-- Resizing a buffer of `size` bytes to the number of bytes written gives
the bytes written. -/
lemma PyBytes_Resize_written (size : Nat) (data : List Byte) (h : data.length ≤ size) :
    PyBytes_Resize (buffer_written (PyBytes_FromStringAndSize size) data) data.length
      = some data := by
  have hlen : (PyBytes_FromStringAndSize (size : Int)).length = size := by
    simp [PyBytes_FromStringAndSize]
  have hw : (buffer_written (PyBytes_FromStringAndSize size) data).length = size := by
    rw [length_buffer_written _ _ (by rw [hlen]; exact h), hlen]
  rw [PyBytes_Resize_of_le _ _ (by positivity) (by rw [hw]; simpa using h)]
  simp [buffer_written, hlen, List.take_of_length_le h]

/-- C7: for every integer size < 0, `read(size)` and
`read_buffer_at_offset(size, offset)` return `NULL` with ValueError "invalid
read size value less than zero." set, for every offset and every state of the
volume and of the engine, and leave the world as it was: no call is made
into the engine, so in particular none of its reads. -/
theorem negative_size_is_value_error {σ : Type} (E : Engine σ) (w : World σ)
    (self : PyVolume) (size offset : Int) (h : size < 0) :
    (pyluksde_volume_read_buffer E w (some self) (some (.long size))).ret
        = .null { exc := .ValueError, function := "pyluksde_volume_read_buffer",
                  message := "invalid read size value less than zero.", cause := none }
    ∧ (pyluksde_volume_read_buffer E w (some self) (some (.long size))).world = w
    ∧ (pyluksde_volume_read_buffer_at_offset E w (some self) (.long size) offset).ret
        = .null { exc := .ValueError, function := "pyluksde_volume_read_buffer_at_offset",
                  message := "invalid read size value less than zero.", cause := none }
    ∧ (pyluksde_volume_read_buffer_at_offset E w (some self) (.long size) offset).world = w := by
  have h0 : size ≠ 0 := ne_of_lt h
  simp [pyluksde_volume_read_buffer, pyluksde_volume_read_buffer_at_offset,
    pyluksde_volume_read_buffer_sized, PyObject_IsInstance_PyLong,
    pyluksde_integer_signed_copy_to_64bit, PyErr_Format, h, h0]

/-- Witness of C7: `read(-1)` and `read_buffer_at_offset(-1, 0)` on the
ten-byte volume. -/
theorem negative_size_is_value_error_witness :
    (-1 : Int) < 0
    ∧ (pyluksde_volume_read_buffer specEngine demo_world (some demo_self)
        (some (.long (-1)))).ret
        = .null { exc := .ValueError, function := "pyluksde_volume_read_buffer",
                  message := "invalid read size value less than zero.", cause := none }
    ∧ (pyluksde_volume_read_buffer_at_offset specEngine demo_world (some demo_self)
        (.long (-1)) 0).world = demo_world :=
  ⟨by decide,
   (negative_size_is_value_error specEngine demo_world demo_self (-1) 0 (by decide)).1,
   (negative_size_is_value_error specEngine demo_world demo_self (-1) 0 (by decide)).2.2.2⟩

/-- C6, the claim as stated fails: `read_buffer_at_offset(0, -1)` on the
ten-byte volume has a negative offset, yet it returns the empty byte string
and raises nothing: the test `read_size == 0` comes first. -/
theorem negative_offset_size_zero_counterexample :
    (-1 : Int) < 0
    ∧ (pyluksde_volume_read_buffer_at_offset specEngine demo_world (some demo_self)
        (.long 0) (-1)).ret = .object (.bytes [])
    ∧ (∀ e, (pyluksde_volume_read_buffer_at_offset specEngine demo_world (some demo_self)
        (.long 0) (-1)).ret ≠ .null e) := by
  refine ⟨by decide, rfl, ?_⟩
  intro e h
  have h2 : (pyluksde_volume_read_buffer_at_offset specEngine demo_world (some demo_self)
      (.long 0) (-1)).ret = .object (.bytes []) := rfl
  rw [h2] at h
  cases h

/-- C6 as amended: for every offset < 0 and every integer size other than 0,
`read_buffer_at_offset(size, offset)` returns `NULL` with a ValueError set
and leaves the world as it was (no engine call, no data); the message is the
one of the first test that fails: size below zero, size above the maximum,
offset below zero.  With size 0 the call returns the empty byte string, also
at a negative offset. -/
theorem negative_offset_is_value_error {σ : Type} (E : Engine σ) (w : World σ)
    (self : PyVolume) (size offset : Int) (hsize : size ≠ 0) (hoffset : offset < 0) :
    (pyluksde_volume_read_buffer_at_offset E w (some self) (.long size) offset).ret
        = .null { exc := .ValueError, function := "pyluksde_volume_read_buffer_at_offset",
                  message :=
                    if size < 0 then "invalid read size value less than zero."
                    else if size > INT_MAX then
                      "invalid argument read size value exceeds maximum."
                    else "invalid read offset value less than zero.",
                  cause := none }
    ∧ (pyluksde_volume_read_buffer_at_offset E w (some self) (.long size) offset).world = w
    ∧ (pyluksde_volume_read_buffer_at_offset E w (some self) (.long 0) offset).ret
        = .object (.bytes []) := by
  have hmax : size > SSIZE_MAX → size > INT_MAX := by
    intro h
    simp only [SSIZE_MAX, INT_MAX] at *
    omega
  by_cases h1 : size < 0
  · simp [pyluksde_volume_read_buffer_at_offset, PyObject_IsInstance_PyLong,
      pyluksde_integer_signed_copy_to_64bit, PyErr_Format, hsize, h1]
  · by_cases h2 : size > INT_MAX
    · simp [pyluksde_volume_read_buffer_at_offset, PyObject_IsInstance_PyLong,
        pyluksde_integer_signed_copy_to_64bit, PyErr_Format, hsize, h1, h2]
    · have h3 : ¬ size > SSIZE_MAX := fun h => h2 (hmax h)
      simp [pyluksde_volume_read_buffer_at_offset, PyObject_IsInstance_PyLong,
        pyluksde_integer_signed_copy_to_64bit, PyErr_Format, hsize, h1, h2, h3, hoffset]

/-- Witness of C6 as amended: `read_buffer_at_offset(4, -1)` on the ten-byte
volume. -/
theorem negative_offset_is_value_error_witness :
    (4 : Int) ≠ 0 ∧ (-1 : Int) < 0
    ∧ (pyluksde_volume_read_buffer_at_offset specEngine demo_world (some demo_self)
        (.long 4) (-1)).ret
        = .null { exc := .ValueError, function := "pyluksde_volume_read_buffer_at_offset",
                  message := "invalid read offset value less than zero.", cause := none } :=
  ⟨by decide, by decide,
   (negative_offset_is_value_error specEngine demo_world demo_self 4 (-1)
      (by decide) (by decide)).1⟩

/-- With the size omitted (or `None`) and the volume open, `read` asks the
engine for the size and goes on with it as the read size. -/
lemma read_buffer_size_omitted (w : World SpecVolume) (self : PyVolume)
    (integer_object : Option PyObject)
    (harg : integer_object = none ∨ integer_object = some .none)
    (hopen : w.state.state ≠ .Closed) :
    pyluksde_volume_read_buffer specEngine w (some self) integer_object
      = pyluksde_volume_read_buffer_sized specEngine
          { state := w.state, trace := w.trace ++ [.libluksde_volume_get_size] } self
          (int64_of_size64 (w.state.size : Int)) := by
  rcases harg with h | h <;> subst h <;>
    simp [pyluksde_volume_read_buffer, PyObject_IsInstance_PyLong, World.call, specEngine,
      hopen, Response.of_result]

/-- C1, the claim as stated fails: on an unlocked volume of `INT_MAX + 1`
bytes with the cursor at 0, `read()` with the size omitted does not return
the bytes up to the end of the volume: it returns `NULL` with ValueError
"invalid argument read size value exceeds maximum." set, having asked the
engine for the size only. -/
theorem read_to_end_large_volume_counterexample :
    large_volume.cursor ≤ large_volume.size
    ∧ (pyluksde_volume_read_buffer specEngine large_world (some demo_self) none).ret
        = .null { exc := .ValueError, function := "pyluksde_volume_read_buffer",
                  message := "invalid argument read size value exceeds maximum.",
                  cause := none }
    ∧ (pyluksde_volume_read_buffer specEngine large_world (some demo_self) none).world.trace
        = [.libluksde_volume_get_size] := by
  refine ⟨by decide, by decide, by decide⟩

/-- C1 as amended: on an open, unlocked volume of size S with the cursor at
c <= S, `read()` / `read_buffer()` with the size omitted (or `None`) returns
exactly the S - c bytes from the cursor to the end of the volume when
S <= INT_MAX; when S > INT_MAX it returns `NULL` with a ValueError set
("read size value exceeds maximum", or "less than zero" when S >= 2^63) and
calls no read of the engine.  The engine is the specification's, whose read
returns min(requested, S - c) bytes. -/
theorem read_to_end (w : World SpecVolume) (self : PyVolume)
    (integer_object : Option PyObject)
    (harg : integer_object = none ∨ integer_object = some .none)
    (hstate : w.state.state = .OpenUnlocked) (hcursor : w.state.cursor ≤ w.state.size) :
    ((w.state.size : Int) ≤ INT_MAX →
      (pyluksde_volume_read_buffer specEngine w (some self) integer_object).ret
        = .object (.bytes
            (w.state.read_range w.state.cursor (w.state.size - w.state.cursor)))
      ∧ (w.state.read_range w.state.cursor (w.state.size - w.state.cursor)).length
        = w.state.size - w.state.cursor)
    ∧ (INT_MAX < (w.state.size : Int) → w.state.size < 18446744073709551616 →
      (pyluksde_volume_read_buffer specEngine w (some self) integer_object).ret
        = .null { exc := .ValueError, function := "pyluksde_volume_read_buffer",
                  message :=
                    if w.state.size < 9223372036854775808 then
                      "invalid argument read size value exceeds maximum."
                    else "invalid read size value less than zero.",
                  cause := none }
      ∧ (pyluksde_volume_read_buffer specEngine w (some self) integer_object).world.trace
        = w.trace ++ [.libluksde_volume_get_size]) := by
  have hclosed : w.state.state ≠ .Closed := by rw [hstate]; decide
  rw [read_buffer_size_omitted w self integer_object harg hclosed]
  obtain ⟨v, trace⟩ := w
  simp only at hstate hcursor ⊢
  constructor
  · intro hsize
    have hlen := v.length_read_range v.cursor (v.size - v.cursor)
    rw [min_self] at hlen
    refine ⟨?_, hlen⟩
    have h64 := int64_of_size64_of_le_INT_MAX v.size hsize
    rw [h64]
    by_cases h0 : v.size = 0
    · have hc : v.cursor = 0 := by omega
      simp [pyluksde_volume_read_buffer_sized, h0, hc, SpecVolume.read_range]
    · have hpos : ¬ ((v.size : Int) = 0) := by exact_mod_cast h0
      have hneg : ¬ ((v.size : Int) < 0) := by omega
      have hssize : ¬ ((v.size : Int) > SSIZE_MAX) := by
        simp only [SSIZE_MAX, INT_MAX] at *
        omega
      have hint : ¬ ((v.size : Int) > INT_MAX) := not_lt.mpr hsize
      obtain ⟨hc1, hc2⟩ := casts_of_accepted_size v.size (by positivity) hsize
      have hdata : v.read_range v.cursor v.size
          = v.read_range v.cursor (v.size - v.cursor) := by
        simp [SpecVolume.read_range]
      have hle : (v.read_range v.cursor (v.size - v.cursor)).length ≤ v.size := by
        rw [hlen]; omega
      have hne : ¬ (((v.read_range v.cursor (v.size - v.cursor)).length : Int) = -1) := by
        omega
      have hresize := PyBytes_Resize_written v.size _ hle
      simp [pyluksde_volume_read_buffer_sized, World.call, specEngine, Response.of_result,
        hpos, hneg, hssize, hint, hc1, hc2, hstate, hdata, hne, hresize]
  · intro hbig h64
    by_cases hhalf : v.size < 9223372036854775808
    · have hv : int64_of_size64 (v.size : Int) = v.size := by
        simp only [int64_of_size64]
        omega
      have hpos : ¬ ((v.size : Int) = 0) := by
        simp only [INT_MAX] at hbig
        omega
      have hneg : ¬ ((v.size : Int) < 0) := by omega
      simp [hv, pyluksde_volume_read_buffer_sized, hpos, hneg, hbig, hhalf, PyErr_Format]
    · have hv : int64_of_size64 (v.size : Int) = (v.size : Int) - 18446744073709551616 := by
        simp only [int64_of_size64]
        omega
      have hpos : ¬ ((v.size : Int) - 18446744073709551616 = 0) := by omega
      have hneg : (v.size : Int) - 18446744073709551616 < 0 := by omega
      rw [hv]
      simp [pyluksde_volume_read_buffer_sized, hpos, hneg, hhalf, PyErr_Format]

/-- Witness of C1 as amended: `read()` on the ten-byte volume with the
cursor at 5 returns its last five bytes. -/
theorem read_to_end_witness :
    demo_world.state.state = .OpenUnlocked
    ∧ demo_world.state.cursor ≤ demo_world.state.size
    ∧ (pyluksde_volume_read_buffer specEngine demo_world (some demo_self) none).ret
        = .object (.bytes [15, 16, 17, 18, 19]) :=
  ⟨rfl, by decide,
   ((read_to_end demo_world demo_self none (Or.inl rfl) rfl (by decide)).1 (by decide)).1⟩

/-- What `read_buffer` returns for an accepted size once the engine has
answered the read with `r`. -/
lemma read_buffer_sized_of_accepted {σ : Type} (E : Engine σ) (w : World σ)
    (self : PyVolume) (size : Int) (hsize : 0 < size) (hmax : size ≤ INT_MAX) :
    (pyluksde_volume_read_buffer E w (some self) (some (.long size))).ret
      = if (E w.state (.libluksde_volume_read_buffer (to_size_t size))).1.result = -1 then
          .null (pyluksde_error_raise
            (E w.state (.libluksde_volume_read_buffer (to_size_t size))).1.error
            .IOError "pyluksde_volume_read_buffer" "unable to read data.")
        else
          match PyBytes_Resize
            (buffer_written (PyBytes_FromStringAndSize size)
              (E w.state (.libluksde_volume_read_buffer (to_size_t size))).1.data)
            (E w.state (.libluksde_volume_read_buffer (to_size_t size))).1.result with
          | none => .null (PyErr_Format .SystemError "_PyBytes_Resize" "bad internal call.")
          | some resized => .object (.bytes resized) := by
  have h0 : size ≠ 0 := ne_of_gt hsize
  have h1 : ¬ size < 0 := not_lt.mpr (le_of_lt hsize)
  have h2 : ¬ size > INT_MAX := not_lt.mpr hmax
  have h3 : ¬ size > SSIZE_MAX := by
    simp only [SSIZE_MAX, INT_MAX] at *
    omega
  have hc := (casts_of_accepted_size size (le_of_lt hsize) hmax).2
  simp only [pyluksde_volume_read_buffer, PyObject_IsInstance_PyLong,
    pyluksde_integer_signed_copy_to_64bit, pyluksde_volume_read_buffer_sized, World.call, hc]
  simp [h0, h1, h2, h3]
  split_ifs with h
  · rfl
  · split <;> simp_all

/-- What `read_buffer_at_offset` returns for an accepted size and offset
once the engine has answered the read with `r`. -/
lemma read_buffer_at_offset_of_accepted {σ : Type} (E : Engine σ) (w : World σ)
    (self : PyVolume) (size offset : Int) (hsize : 0 < size) (hmax : size ≤ INT_MAX)
    (hoffset : 0 ≤ offset) :
    (pyluksde_volume_read_buffer_at_offset E w (some self) (.long size) offset).ret
      = if (E w.state
            (.libluksde_volume_read_buffer_at_offset (to_size_t size) offset)).1.result = -1 then
          .null (pyluksde_error_raise
            (E w.state
              (.libluksde_volume_read_buffer_at_offset (to_size_t size) offset)).1.error
            .IOError "pyluksde_volume_read_buffer_at_offset" "unable to read data.")
        else
          match PyBytes_Resize
            (buffer_written (PyBytes_FromStringAndSize size)
              (E w.state
                (.libluksde_volume_read_buffer_at_offset (to_size_t size) offset)).1.data)
            (E w.state
              (.libluksde_volume_read_buffer_at_offset (to_size_t size) offset)).1.result with
          | none => .null (PyErr_Format .SystemError "_PyBytes_Resize" "bad internal call.")
          | some resized => .object (.bytes resized) := by
  have h0 : size ≠ 0 := ne_of_gt hsize
  have h1 : ¬ size < 0 := not_lt.mpr (le_of_lt hsize)
  have h2 : ¬ size > INT_MAX := not_lt.mpr hmax
  have h3 : ¬ size > SSIZE_MAX := by
    simp only [SSIZE_MAX, INT_MAX] at *
    omega
  have h4 : ¬ offset < 0 := not_lt.mpr hoffset
  have hc := (casts_of_accepted_size size (le_of_lt hsize) hmax).2
  simp only [pyluksde_volume_read_buffer_at_offset, PyObject_IsInstance_PyLong,
    pyluksde_integer_signed_copy_to_64bit, World.call, hc]
  simp [h0, h1, h2, h3, h4]
  split_ifs with h
  · rfl
  · split <;> simp_all

/-- The bytes object after a read that reported `r.result` bytes into a
buffer of `size` bytes: the exception for -1, else the first `r.result`
bytes of the buffer. -/
lemma resized_of_reported_count (size : Int) (r : Response)
    (hsize : 0 < size) (hr : r.result = -1 ∨ (0 ≤ r.result ∧ r.result ≤ size))
    (e : PyError) :
    ((0 ≤ r.result →
        (if r.result = -1 then PyReturn.null e
          else
            match PyBytes_Resize (buffer_written (PyBytes_FromStringAndSize size) r.data)
              r.result with
            | none => .null (PyErr_Format .SystemError "_PyBytes_Resize" "bad internal call.")
            | some resized => .object (.bytes resized))
          = .object (.bytes
              ((buffer_written (PyBytes_FromStringAndSize size) r.data).take r.result.toNat))
        ∧ ((buffer_written (PyBytes_FromStringAndSize size) r.data).take
              r.result.toNat).length = r.result.toNat)
      ∧ ((∃ e2, (if r.result = -1 then PyReturn.null e
          else
            match PyBytes_Resize (buffer_written (PyBytes_FromStringAndSize size) r.data)
              r.result with
            | none => .null (PyErr_Format .SystemError "_PyBytes_Resize" "bad internal call.")
            | some resized => .object (.bytes resized)) = .null e2)
          ↔ r.result = -1)) := by
  have hbuf : (buffer_written (PyBytes_FromStringAndSize size) r.data).length ≥ size.toNat := by
    simp [buffer_written, PyBytes_FromStringAndSize]
    omega
  rcases hr with hr | ⟨hr0, hr1⟩
  · constructor
    · intro h; omega
    · simp [hr]
  · have hne : r.result ≠ -1 := by omega
    have hle : r.result.toNat ≤
        (buffer_written (PyBytes_FromStringAndSize size) r.data).length := by omega
    rw [if_neg hne, PyBytes_Resize_of_le _ _ hr0 hle]
    refine ⟨fun _ => ⟨rfl, ?_⟩, ?_⟩
    · rw [List.length_take]; omega
    · simp [hne]

/-- C2: for `read(size)` and `read_buffer_at_offset(size, offset)` with an
accepted size (1 <= size <= INT_MAX) and offset (>= 0), when the engine
answers the read with a count in its range (-1, or n with 0 <= n <= size):
a count n >= 0 makes the binding return the byte string of length exactly n
that holds the first n bytes of the buffer the engine wrote to, and the
binding returns `NULL` with an exception set if and only if the count is -1.
So a request for 105 bytes that the engine answers with 5 returns exactly 5
bytes. -/
theorem read_returns_reported_count {σ : Type} (E : Engine σ) (w : World σ)
    (self : PyVolume) (size offset : Int) (r1 r2 : Response)
    (hsize : 0 < size) (hmax : size ≤ INT_MAX) (hoffset : 0 ≤ offset)
    (h1 : (E w.state (.libluksde_volume_read_buffer (to_size_t size))).1 = r1)
    (h2 : (E w.state
      (.libluksde_volume_read_buffer_at_offset (to_size_t size) offset)).1 = r2)
    (hr1 : r1.result = -1 ∨ (0 ≤ r1.result ∧ r1.result ≤ size))
    (hr2 : r2.result = -1 ∨ (0 ≤ r2.result ∧ r2.result ≤ size)) :
    (0 ≤ r1.result →
      (pyluksde_volume_read_buffer E w (some self) (some (.long size))).ret
        = .object (.bytes
            ((buffer_written (PyBytes_FromStringAndSize size) r1.data).take r1.result.toNat))
      ∧ ((buffer_written (PyBytes_FromStringAndSize size) r1.data).take
            r1.result.toNat).length = r1.result.toNat)
    ∧ ((∃ e, (pyluksde_volume_read_buffer E w (some self) (some (.long size))).ret = .null e)
        ↔ r1.result = -1)
    ∧ (0 ≤ r2.result →
      (pyluksde_volume_read_buffer_at_offset E w (some self) (.long size) offset).ret
        = .object (.bytes
            ((buffer_written (PyBytes_FromStringAndSize size) r2.data).take r2.result.toNat))
      ∧ ((buffer_written (PyBytes_FromStringAndSize size) r2.data).take
            r2.result.toNat).length = r2.result.toNat)
    ∧ ((∃ e, (pyluksde_volume_read_buffer_at_offset E w (some self) (.long size) offset).ret
          = .null e)
        ↔ r2.result = -1) := by
  rw [read_buffer_sized_of_accepted E w self size hsize hmax,
    read_buffer_at_offset_of_accepted E w self size offset hsize hmax hoffset, h1, h2]
  exact ⟨(resized_of_reported_count size r1 hsize hr1 _).1,
    (resized_of_reported_count size r1 hsize hr1 _).2,
    (resized_of_reported_count size r2 hsize hr2 _).1,
    (resized_of_reported_count size r2 hsize hr2 _).2⟩

/-- Witness of C2: on the ten-byte volume, `read_buffer_at_offset(105, 5)`
starts five bytes before the end; the engine reports 5 bytes and the binding
returns exactly these five bytes, as does `read(105)` with the cursor at 5. -/
theorem read_returns_reported_count_witness :
    (0 : Int) < 105 ∧ (105 : Int) ≤ INT_MAX ∧ (0 : Int) ≤ 5
    ∧ (specEngine demo_world.state
        (.libluksde_volume_read_buffer_at_offset (to_size_t 105) 5)).1.result = 5
    ∧ (pyluksde_volume_read_buffer_at_offset specEngine demo_world (some demo_self)
        (.long 105) 5).ret = .object (.bytes [15, 16, 17, 18, 19])
    ∧ (pyluksde_volume_read_buffer specEngine demo_world (some demo_self)
        (some (.long 105))).ret = .object (.bytes [15, 16, 17, 18, 19]) :=
  ⟨by decide, by decide, by decide, by decide,
   ((read_returns_reported_count specEngine demo_world demo_self 105 5
      { result := 5, value := 0, value2 := 0, pointer := none,
        data := [15, 16, 17, 18, 19], error := none }
      { result := 5, value := 0, value2 := 0, pointer := none,
        data := [15, 16, 17, 18, 19], error := none }
      (by decide) (by decide) (by decide) (by decide) (by decide)
      (Or.inr ⟨by decide, by decide⟩) (Or.inr ⟨by decide, by decide⟩)).2.2.1
        (by decide)).1,
   ((read_returns_reported_count specEngine demo_world demo_self 105 5
      { result := 5, value := 0, value2 := 0, pointer := none,
        data := [15, 16, 17, 18, 19], error := none }
      { result := 5, value := 0, value2 := 0, pointer := none,
        data := [15, 16, 17, 18, 19], error := none }
      (by decide) (by decide) (by decide) (by decide) (by decide)
      (Or.inr ⟨by decide, by decide⟩) (Or.inr ⟨by decide, by decide⟩)).1
        (by decide)).1⟩

/-- C3, the claim as stated fails: on a volume for which the engine reports
method 1 and chaining mode 2, `get_encryption_method()` returns the integer
1, not the pair (1, 2): the chaining mode is asked for and dropped. -/
theorem encryption_method_pair_counterexample :
    (specEngine demo_world.state .libluksde_volume_get_encryption_method).1.result = 1
    ∧ (specEngine demo_world.state .libluksde_volume_get_encryption_method).1.value = 1
    ∧ (specEngine demo_world.state .libluksde_volume_get_encryption_method).1.value2 = 2
    ∧ (pyluksde_volume_get_encryption_method specEngine demo_world (some demo_self)).ret
        = .object (.long 1)
    ∧ (pyluksde_volume_get_encryption_method specEngine demo_world (some demo_self)).ret
        ≠ .object (.pair 1 2) := by
  decide

/-- C3 as amended: `get_encryption_method()` (and the `encryption_method`
attribute) returns one integer, the cipher algorithm the engine reports; the
chaining mode the engine reports is not returned.  It returns `NULL` (with
IOError "unable to retrieve encryption method." and the engine's error) if
and only if the engine's query does not return 1.  The query is the only
call it makes and the volume object is left as it was: the binding asks for
no password or key. -/
theorem encryption_method_is_cipher_only {σ : Type} (E : Engine σ) (w : World σ)
    (self : PyVolume) :
    ((E w.state .libluksde_volume_get_encryption_method).1.result = 1 →
      (pyluksde_volume_get_encryption_method E w (some self)).ret
        = .object (.long (E w.state .libluksde_volume_get_encryption_method).1.value))
    ∧ ((E w.state .libluksde_volume_get_encryption_method).1.result ≠ 1 →
      (pyluksde_volume_get_encryption_method E w (some self)).ret
        = .null { exc := .IOError, function := "pyluksde_volume_get_encryption_method",
                  message := "unable to retrieve encryption method.",
                  cause := (E w.state .libluksde_volume_get_encryption_method).1.error })
    ∧ (pyluksde_volume_get_encryption_method E w (some self)).world.trace
        = w.trace ++ [.libluksde_volume_get_encryption_method]
    ∧ (pyluksde_volume_get_encryption_method E w (some self)).self = some self := by
  by_cases h : (E w.state .libluksde_volume_get_encryption_method).1.result = 1 <;>
    simp [pyluksde_volume_get_encryption_method, World.call, pyluksde_error_raise, h]

/-- Witness of C3 as amended: on the ten-byte volume the query is the only
call made; on the closed volume the engine's query fails and the binding
raises IOError. -/
theorem encryption_method_is_cipher_only_witness :
    (pyluksde_volume_get_encryption_method specEngine demo_world (some demo_self)).world.trace
        = [.libluksde_volume_get_encryption_method]
    ∧ (pyluksde_volume_get_encryption_method specEngine closed_world (some demo_self)).ret
        = .null { exc := .IOError, function := "pyluksde_volume_get_encryption_method",
                  message := "unable to retrieve encryption method.", cause := none } :=
  ⟨(encryption_method_is_cipher_only specEngine demo_world demo_self).2.2.1,
   (encryption_method_is_cipher_only specEngine closed_world demo_self).2.1 (by decide)⟩

/-- The method `open` hands back the volume object it was given (`self` is
`none` only for a `NULL` pointer). -/
lemma open_self_eq_none_iff {σ : Type} (E : Engine σ) (w : World σ) (wide : Bool)
    (pyluksde_volume : Option PyVolume) (string_object : PyObject) (mode : Option String) :
    (pyluksde_volume_open E w wide pyluksde_volume string_object mode).self = none
      ↔ pyluksde_volume = none := by
  cases pyluksde_volume with
  | none => simp [pyluksde_volume_open]
  | some self =>
    cases hu : PyUnicode_AsUTF8String string_object <;>
      simp only [pyluksde_volume_open, World.call, hu] <;>
      split_ifs <;> simp

/-- The method `open_file_object` hands back the volume object it was given
(`self` is `none` only for a `NULL` pointer). -/
lemma open_file_object_self_eq_none_iff {σ : Type} (E : Engine σ) (w : World σ)
    (pyluksde_volume : Option PyVolume) (file_object : PyObject) (mode : Option String) :
    (pyluksde_volume_open_file_object E w pyluksde_volume file_object mode).self = none
      ↔ pyluksde_volume = none := by
  cases pyluksde_volume with
  | none => simp [pyluksde_volume_open_file_object]
  | some self =>
    simp only [pyluksde_volume_open_file_object, pyluksde_volume_open_file_object_on_error,
      World.call]
    split_ifs <;> simp

/-- C4, what the code does: `pyluksde_volume_new_open` and
`pyluksde_volume_new_open_file_object` return `NULL` exactly when creating
the object failed; whether the open step failed has no part in it.  So with
a new object created they return that object, not `NULL`, while the
exception of the failed open is pending: on a closed volume with the
unsupported mode "w", with a file name that is neither unicode nor bytes,
and on a volume the engine refuses to open (it is open already). -/
theorem new_open_returns_object_when_open_fails :
    (∀ (σ : Type) (E : Engine σ) (w : World σ) (wide : Bool)
        (allocated : Option PyVolume) (o : PyObject) (mode : Option String),
        ((pyluksde_volume_new_open E w wide allocated o mode).object = none
          ↔ (pyluksde_volume_new E w allocated).object = none)
        ∧ ((pyluksde_volume_new_open_file_object E w allocated o mode).object = none
          ↔ (pyluksde_volume_new E w allocated).object = none))
    ∧ (pyluksde_volume_new_open specEngine closed_world false (some allocated_object)
        (.bytes [97]) (some "w")).object = some demo_self
    ∧ (pyluksde_volume_new_open specEngine closed_world false (some allocated_object)
        (.bytes [97]) (some "w")).raised
        = some { exc := .ValueError, function := "pyluksde_volume_open",
                 message := "unsupported mode: w.", cause := none }
    ∧ (pyluksde_volume_new_open specEngine closed_world false (some allocated_object)
        (.long 3) none).object = some demo_self
    ∧ (pyluksde_volume_new_open specEngine closed_world false (some allocated_object)
        (.long 3) none).raised
        = some { exc := .TypeError, function := "pyluksde_volume_open",
                 message := "unsupported string object type.", cause := none }
    ∧ (pyluksde_volume_new_open specEngine demo_world false (some allocated_object)
        (.bytes [97]) none).object = some demo_self
    ∧ (pyluksde_volume_new_open specEngine demo_world false (some allocated_object)
        (.bytes [97]) none).raised
        = some { exc := .IOError, function := "pyluksde_volume_open",
                 message := "unable to open volume.", cause := none }
    ∧ (pyluksde_volume_new_open_file_object specEngine closed_world (some allocated_object)
        (.other 3) (some "w")).object = some demo_self
    ∧ (pyluksde_volume_new_open_file_object specEngine closed_world (some allocated_object)
        (.other 3) (some "w")).raised
        = some { exc := .ValueError, function := "pyluksde_volume_open_file_object",
                 message := "unsupported mode: w.", cause := none } := by
  refine ⟨?_, by decide, by decide, by decide, by decide, by decide, by decide, by decide,
    by decide⟩
  intro σ E w wide allocated o mode
  simp only [pyluksde_volume_new_open, pyluksde_volume_new_open_file_object,
    open_self_eq_none_iff, open_file_object_self_eq_none_iff, and_self]

/-- C5, what the code does on the path "file IO handle already set": called
on a volume object whose file IO handle is `h`, `open_file_object` (mode
omitted) raises IOError "invalid volume - file IO handle already set.", and
on its way out frees `h` with `libbfio_handle_free` and leaves the field
`NULL`; the handle that was in place is gone. -/
theorem open_file_object_already_set_frees_handle {σ : Type} (E : Engine σ) (w : World σ)
    (volume : Option Nat) (h : Nat) (file_object : PyObject) :
    (pyluksde_volume_open_file_object E w
        (some { volume := volume, file_io_handle := some h }) file_object none).ret
        = .null { exc := .IOError, function := "pyluksde_volume_open_file_object",
                  message := "invalid volume - file IO handle already set.", cause := none }
    ∧ (pyluksde_volume_open_file_object E w
        (some { volume := volume, file_io_handle := some h }) file_object none).self
        = some { volume := volume, file_io_handle := none }
    ∧ (pyluksde_volume_open_file_object E w
        (some { volume := volume, file_io_handle := some h }) file_object none).world.trace
        = w.trace ++ [.libbfio_handle_free (some h)] := by
  simp [pyluksde_volume_open_file_object, pyluksde_volume_open_file_object_on_error,
    mode_unsupported, World.call, pyluksde_error_raise]

/-- The part of C5 the code keeps: when `open_file_object` fails on a
volume object that has no file IO handle, the field is `NULL` afterwards, as
it was before. -/
lemma open_file_object_failure_keeps_null {σ : Type} (E : Engine σ) (w : World σ)
    (volume : Option Nat) (file_object : PyObject) (mode : Option String) (e : PyError)
    (hfail : (pyluksde_volume_open_file_object E w
        (some { volume := volume, file_io_handle := none }) file_object mode).ret = .null e) :
    (pyluksde_volume_open_file_object E w
        (some { volume := volume, file_io_handle := none }) file_object mode).self
      = some { volume := volume, file_io_handle := none } := by
  revert hfail
  simp only [pyluksde_volume_open_file_object, pyluksde_volume_open_file_object_on_error,
    World.call]
  split_ifs <;> simp_all

/-- The positional read of the specification's engine leaves the engine's
state as it was. -/
lemma specEngine_read_buffer_at_offset_state (v : SpecVolume) (size : Nat) (offset : Int) :
    (specEngine v (.libluksde_volume_read_buffer_at_offset size offset)).2 = v := by
  simp only [specEngine]
  split_ifs <;> rfl

/-- The method `read_buffer_at_offset` changes no field of the volume object. -/
lemma read_buffer_at_offset_self {σ : Type} (E : Engine σ) (w : World σ) (self : PyVolume)
    (integer_object : PyObject) (offset : Int) :
    (pyluksde_volume_read_buffer_at_offset E w (some self) integer_object offset).self
        = some self := by
  cases integer_object <;>
    simp [pyluksde_volume_read_buffer_at_offset, PyObject_IsInstance_PyLong,
      pyluksde_integer_signed_copy_to_64bit]
  split_ifs <;> first | rfl | (split <;> rfl)

/-- The world after `read_buffer_at_offset`: the world before, or the world
after the one call it makes. -/
lemma read_buffer_at_offset_world {σ : Type} (E : Engine σ) (w : World σ) (self : PyVolume)
    (integer_object : PyObject) (offset : Int) :
    (pyluksde_volume_read_buffer_at_offset E w (some self) integer_object offset).world
      = match read_buffer_at_offset_call integer_object offset with
        | none => w
        | some c => (w.call E c).2 := by
  cases integer_object <;>
    simp [pyluksde_volume_read_buffer_at_offset, PyObject_IsInstance_PyLong,
      pyluksde_integer_signed_copy_to_64bit, read_buffer_at_offset_call]
  rename_i size
  have hmax : size > SSIZE_MAX → size > INT_MAX := by
    intro h
    simp only [SSIZE_MAX, INT_MAX] at *
    omega
  by_cases h0 : size = 0
  · simp [h0]
  by_cases h1 : size < 0
  · have : ¬ 0 < size := by omega
    simp [h0, h1, this]
  by_cases h2 : size > INT_MAX
  · have : ¬ size ≤ INT_MAX := by omega
    simp [h0, h1, h2, this]
  have h3 : ¬ size > SSIZE_MAX := fun h => h2 (hmax h)
  by_cases h4 : offset < 0
  · have : ¬ 0 ≤ offset := by omega
    simp [h0, h1, h2, h3, h4, this]
  have h5 : 0 < size ∧ size ≤ INT_MAX ∧ 0 ≤ offset := ⟨by omega, by omega, by omega⟩
  simp only [h0, h1, h2, h3, h4, h5, if_false, if_true, or_self, and_self]
  split_ifs
  · rfl
  · split <;> rfl

/-- What `read_buffer_at_offset` returns depends on the engine's state only,
not on the log of the calls made before. -/
lemma read_buffer_at_offset_ret_of_state {σ : Type} (E : Engine σ) (w1 w2 : World σ)
    (pyluksde_volume : Option PyVolume) (integer_object : PyObject) (offset : Int)
    (h : w1.state = w2.state) :
    (pyluksde_volume_read_buffer_at_offset E w1 pyluksde_volume integer_object offset).ret
      = (pyluksde_volume_read_buffer_at_offset E w2 pyluksde_volume integer_object offset).ret
    := by
  obtain ⟨s1, t1⟩ := w1
  obtain ⟨s2, t2⟩ := w2
  simp only at h
  subst h
  cases pyluksde_volume with
  | none => rfl
  | some self =>
    simp only [pyluksde_volume_read_buffer_at_offset, World.call]
    split_ifs <;> first | rfl | (split <;> first | rfl | (split_ifs <;> first | rfl | (split <;> rfl)))

/-- C8: on the specification's engine, `read_buffer_at_offset(n, o)` called
twice in succession with the same arguments returns the same value both
times (the same bytes, or the same exception), and the first call leaves the
engine's state, so its cursor, as it was.  For every engine, the call
changes no field of the volume object and makes exactly one engine call for
an accepted size and offset (0 < n <= INT_MAX, 0 <= o), the positional read
with size n and offset o: no seek and no cursor-relative read. -/
theorem read_at_offset_twice (w : World SpecVolume) (self : PyVolume) (n o : Int) :
    (pyluksde_volume_read_buffer_at_offset specEngine
        (pyluksde_volume_read_buffer_at_offset specEngine w (some self) (.long n) o).world
        (pyluksde_volume_read_buffer_at_offset specEngine w (some self) (.long n) o).self
        (.long n) o).ret
      = (pyluksde_volume_read_buffer_at_offset specEngine w (some self) (.long n) o).ret
    ∧ (pyluksde_volume_read_buffer_at_offset specEngine w (some self) (.long n) o).world.state
      = w.state
    ∧ (∀ (σ : Type) (E : Engine σ) (w : World σ),
        (pyluksde_volume_read_buffer_at_offset E w (some self) (.long n) o).self = some self
        ∧ (0 < n → n ≤ INT_MAX → 0 ≤ o →
          (pyluksde_volume_read_buffer_at_offset E w (some self) (.long n) o).world.trace
            = w.trace ++ [.libluksde_volume_read_buffer_at_offset n.toNat o])) := by
  have hstate : (pyluksde_volume_read_buffer_at_offset specEngine w (some self)
      (.long n) o).world.state = w.state := by
    rw [read_buffer_at_offset_world]
    cases hc : read_buffer_at_offset_call (.long n) o with
    | none => rfl
    | some c =>
      simp only [read_buffer_at_offset_call] at hc
      split_ifs at hc
      cases hc
      exact specEngine_read_buffer_at_offset_state _ _ _
  refine ⟨?_, hstate, ?_⟩
  · rw [read_buffer_at_offset_self]
    exact read_buffer_at_offset_ret_of_state _ _ _ _ _ _ hstate
  · intro σ E w
    refine ⟨read_buffer_at_offset_self _ _ _ _ _, ?_⟩
    intro h0 h1 h2
    rw [read_buffer_at_offset_world]
    simp [read_buffer_at_offset_call, h0, h1, h2, World.call,
      (casts_of_accepted_size n (le_of_lt h0) h1).1]

/-- Witness of C8: `read_buffer_at_offset(3, 2)` on the ten-byte volume with
the cursor at 5 returns the bytes at offsets 2, 3 and 4, twice; the cursor
stays at 5 and the one call made is the positional read of 3 bytes at
offset 2. -/
theorem read_at_offset_twice_witness :
    (pyluksde_volume_read_buffer_at_offset specEngine demo_world (some demo_self)
        (.long 3) 2).ret = .object (.bytes [12, 13, 14])
    ∧ (pyluksde_volume_read_buffer_at_offset specEngine
        (pyluksde_volume_read_buffer_at_offset specEngine demo_world (some demo_self)
          (.long 3) 2).world
        (pyluksde_volume_read_buffer_at_offset specEngine demo_world (some demo_self)
          (.long 3) 2).self
        (.long 3) 2).ret = .object (.bytes [12, 13, 14])
    ∧ (pyluksde_volume_read_buffer_at_offset specEngine demo_world (some demo_self)
        (.long 3) 2).world.state.cursor = 5
    ∧ (pyluksde_volume_read_buffer_at_offset specEngine demo_world (some demo_self)
        (.long 3) 2).world.trace = [.libluksde_volume_read_buffer_at_offset 3 2] :=
  ⟨by decide,
   (read_at_offset_twice demo_world demo_self 3 2).1.trans (by decide),
   congrArg SpecVolume.cursor (read_at_offset_twice demo_world demo_self 3 2).2.1,
   ((read_at_offset_twice demo_world demo_self 3 2).2.2 SpecVolume specEngine demo_world).2
      (by decide) (by decide) (by decide)⟩

/-- C9: on the specification's engine, `seek(offset, whence)` with whence
absolute (0, or omitted) and offset < 0 fails: it returns `NULL`, the error
is the engine's `InvalidArgument`, which the binding raises as IOError
"unable to seek offset."; the engine's state, so its cursor, is the same
after the failed call as before it, and `tell()` returns after it what it
returned before. -/
theorem seek_negative_absolute_fails (w : World SpecVolume) (self : PyVolume)
    (offset : Int) (whence : Option Int)
    (hwhence : whence = none ∨ whence = some 0) (hoffset : offset < 0) :
    (pyluksde_volume_seek_offset specEngine w (some self) offset whence).ret
        = .null { exc := .IOError, function := "pyluksde_volume_seek_offset",
                  message := "unable to seek offset.", cause := some .InvalidArgument }
    ∧ (pyluksde_volume_seek_offset specEngine w (some self) offset whence).world.state
        = w.state
    ∧ (pyluksde_volume_seek_offset specEngine w (some self) offset whence).world.state.cursor
        = w.state.cursor
    ∧ (pyluksde_volume_get_offset specEngine
        (pyluksde_volume_seek_offset specEngine w (some self) offset whence).world
        (pyluksde_volume_seek_offset specEngine w (some self) offset whence).self).ret
      = (pyluksde_volume_get_offset specEngine w (some self)).ret := by
  have h : pyluksde_volume_seek_offset specEngine w (some self) offset whence
      = { ret := .null { exc := .IOError, function := "pyluksde_volume_seek_offset",
                         message := "unable to seek offset.",
                         cause := some .InvalidArgument },
          self := some self,
          world := { state := w.state,
                     trace := w.trace ++ [.libluksde_volume_seek_offset offset 0] } } := by
    rcases hwhence with h | h <;> subst h <;>
      simp [pyluksde_volume_seek_offset, World.call, specEngine, SpecVolume.seek_target,
        hoffset, Response.failure, pyluksde_error_raise]
  rw [h]
  refine ⟨rfl, rfl, rfl, ?_⟩
  simp only [pyluksde_volume_get_offset, World.call]
  split_ifs <;> rfl

/-- Witness of C9: `seek(-1)` and `seek(-1, 0)` on the ten-byte volume with
the cursor at 5; `tell()` gives 5 before and after. -/
theorem seek_negative_absolute_fails_witness :
    (-1 : Int) < 0
    ∧ (pyluksde_volume_seek_offset specEngine demo_world (some demo_self) (-1) none).ret
        = .null { exc := .IOError, function := "pyluksde_volume_seek_offset",
                  message := "unable to seek offset.", cause := some .InvalidArgument }
    ∧ (pyluksde_volume_get_offset specEngine
        (pyluksde_volume_seek_offset specEngine demo_world (some demo_self) (-1) (some 0)).world
        (pyluksde_volume_seek_offset specEngine demo_world (some demo_self) (-1) (some 0)).self).ret
      = .object (.long 5)
    ∧ (pyluksde_volume_get_offset specEngine demo_world (some demo_self)).ret
      = .object (.long 5) :=
  ⟨by decide,
   (seek_negative_absolute_fails demo_world demo_self (-1) none (Or.inl rfl) (by decide)).1,
   (seek_negative_absolute_fails demo_world demo_self (-1) (some 0) (Or.inr rfl)
      (by decide)).2.2.2.trans (by decide),
   by decide⟩

/-- The log continues with read-only opens: there is a run of calls that
was appended, and each of them that passes access flags passes
`LIBLUKSDE_OPEN_READ`. -/
lemma opens_read_only_iff (before after : List EngineCall) :
    opens_read_only before after ↔
      ∃ calls, after = before ++ calls
        ∧ ∀ c ∈ calls, ∀ flags, c.access_flags = some flags → flags = LIBLUKSDE_OPEN_READ := by
  constructor
  · rintro ⟨⟨calls, rfl⟩, h⟩
    refine ⟨calls, rfl, ?_⟩
    intro c hc flags hf
    rcases h c (by simpa using hc) with h1 | h1
    · rw [h1] at hf; cases hf
    · rw [h1] at hf; cases hf; rfl
  · rintro ⟨calls, rfl, h⟩
    refine ⟨List.prefix_append _ _, ?_⟩
    intro c hc
    have hc2 : c ∈ calls := by simpa using hc
    cases hf : c.access_flags with
    | none => exact Or.inl rfl
    | some flags => exact Or.inr (by rw [h c hc2 flags hf])

/-- No call at all. -/
lemma opens_read_only_refl (t : List EngineCall) : opens_read_only t t :=
  (opens_read_only_iff t t).mpr ⟨[], by simp, by simp⟩

/-- One run of calls after another. -/
lemma opens_read_only_trans {a b c : List EngineCall} (h1 : opens_read_only a b)
    (h2 : opens_read_only b c) : opens_read_only a c := by
  obtain ⟨x, hx, hx2⟩ := (opens_read_only_iff a b).mp h1
  obtain ⟨y, hy, hy2⟩ := (opens_read_only_iff b c).mp h2
  refine (opens_read_only_iff a c).mpr ⟨x ++ y, by rw [hy, hx, List.append_assoc], ?_⟩
  intro d hd
  rcases List.mem_append.mp hd with h | h
  · exact hx2 d h
  · exact hy2 d h

/-- One call that opens nothing, or opens read-only. -/
lemma opens_read_only_call {σ : Type} (E : Engine σ) (w : World σ) (c : EngineCall)
    (h : ∀ flags, c.access_flags = some flags → flags = LIBLUKSDE_OPEN_READ) :
    opens_read_only w.trace (w.call E c).2.trace :=
  (opens_read_only_iff _ _).mpr ⟨[c], rfl, by simpa using h⟩

/-- The calls of `open`. -/
lemma open_opens_read_only {σ : Type} (E : Engine σ) (w : World σ) (wide : Bool)
    (pyluksde_volume : Option PyVolume) (string_object : PyObject) (mode : Option String) :
    opens_read_only w.trace
      (pyluksde_volume_open E w wide pyluksde_volume string_object mode).world.trace := by
  cases pyluksde_volume with
  | none => exact opens_read_only_refl _
  | some self =>
    cases hu : PyUnicode_AsUTF8String string_object <;>
      simp only [pyluksde_volume_open, hu] <;>
      split_ifs <;>
      first
        | exact opens_read_only_refl _
        | exact opens_read_only_call E w _ (by simp [EngineCall.access_flags])

/-- The calls of `open_file_object`. -/
lemma open_file_object_opens_read_only {σ : Type} (E : Engine σ) (w : World σ)
    (pyluksde_volume : Option PyVolume) (file_object : PyObject) (mode : Option String) :
    opens_read_only w.trace
      (pyluksde_volume_open_file_object E w pyluksde_volume file_object mode).world.trace := by
  cases pyluksde_volume with
  | none => exact opens_read_only_refl _
  | some self =>
    simp only [pyluksde_volume_open_file_object, pyluksde_volume_open_file_object_on_error]
    split_ifs <;>
      first
        | exact opens_read_only_refl _
        | exact opens_read_only_call E w _ (by simp [EngineCall.access_flags])
        | exact opens_read_only_trans
            (opens_read_only_call E w _ (by simp [EngineCall.access_flags]))
            (opens_read_only_call E _ _ (by simp [EngineCall.access_flags]))
        | exact opens_read_only_trans
            (opens_read_only_trans
              (opens_read_only_call E w _ (by simp [EngineCall.access_flags]))
              (opens_read_only_call E _ _ (by simp [EngineCall.access_flags])))
            (opens_read_only_call E _ _ (by simp [EngineCall.access_flags]))

/-- The calls of `pyluksde_volume_init`. -/
lemma init_opens_read_only {σ : Type} (E : Engine σ) (w : World σ)
    (pyluksde_volume : Option PyVolume) :
    opens_read_only w.trace (pyluksde_volume_init E w pyluksde_volume).world.trace := by
  cases pyluksde_volume with
  | none => exact opens_read_only_refl _
  | some v =>
    simp only [pyluksde_volume_init]
    split_ifs <;> exact opens_read_only_call E w _ (by simp [EngineCall.access_flags])

/-- The calls of `pyluksde_volume_free`. -/
lemma free_opens_read_only {σ : Type} (E : Engine σ) (w : World σ)
    (pyluksde_volume : Option PyVolume) :
    opens_read_only w.trace (pyluksde_volume_free E w pyluksde_volume).2.trace := by
  cases pyluksde_volume with
  | none => exact opens_read_only_refl _
  | some v =>
    simp only [pyluksde_volume_free]
    split_ifs <;>
      first
        | exact opens_read_only_refl _
        | exact opens_read_only_call E w _ (by simp [EngineCall.access_flags])

/-- The calls of `pyluksde_volume_new`. -/
lemma new_opens_read_only {σ : Type} (E : Engine σ) (w : World σ)
    (allocated : Option PyVolume) :
    opens_read_only w.trace (pyluksde_volume_new E w allocated).world.trace := by
  cases allocated with
  | none => exact opens_read_only_refl _
  | some v =>
    simp only [pyluksde_volume_new]
    split_ifs
    · exact opens_read_only_trans (init_opens_read_only E w _) (free_opens_read_only E _ _)
    · exact init_opens_read_only E w _

/-- C10: every call that `open` and `open_file_object` make into the engine
to open a volume passes `LIBLUKSDE_OPEN_READ`, whatever the arguments, the
state and the engine's answers, and so do the two functions that create a
volume object and open it.  For an accepted mode, a bytes file name is
opened with `libluksde_volume_open` and `LIBLUKSDE_OPEN_READ`, a unicode
file name with `libluksde_volume_open_wide` (wide build) or, UTF-8 encoded,
with `libluksde_volume_open`, and `LIBLUKSDE_OPEN_READ`; a file object, on a
volume object without a file IO handle, with
`libluksde_volume_open_file_io_handle` and `LIBLUKSDE_OPEN_READ` once its
handle is made. -/
theorem open_passes_read_only_flag {σ : Type} (E : Engine σ) (w : World σ) (wide : Bool)
    (pyluksde_volume allocated : Option PyVolume) (self : PyVolume)
    (string_object file_object : PyObject) (mode : Option String)
    (narrow utf8 : List Byte) (text : List Nat) :
    opens_read_only w.trace
      (pyluksde_volume_open E w wide pyluksde_volume string_object mode).world.trace
    ∧ opens_read_only w.trace
      (pyluksde_volume_open_file_object E w pyluksde_volume file_object mode).world.trace
    ∧ opens_read_only w.trace
      (pyluksde_volume_new_open E w wide allocated string_object mode).world.trace
    ∧ opens_read_only w.trace
      (pyluksde_volume_new_open_file_object E w allocated file_object mode).world.trace
    ∧ (mode_unsupported mode = false →
      (pyluksde_volume_open E w wide (some self) (.bytes narrow) mode).world.trace
        = w.trace ++ [.libluksde_volume_open narrow LIBLUKSDE_OPEN_READ]
      ∧ (pyluksde_volume_open E w true (some self) (.unicode text (some utf8)) mode).world.trace
        = w.trace ++ [.libluksde_volume_open_wide text LIBLUKSDE_OPEN_READ]
      ∧ (pyluksde_volume_open E w false (some self) (.unicode text (some utf8)) mode).world.trace
        = w.trace ++ [.libluksde_volume_open utf8 LIBLUKSDE_OPEN_READ]
      ∧ ((E w.state ( EngineCall.pyluksde_file_object_initialize file_object)).1.result = 1 →
        EngineCall.libluksde_volume_open_file_io_handle
            (E w.state ( EngineCall.pyluksde_file_object_initialize file_object)).1.pointer
            LIBLUKSDE_OPEN_READ
          ∈ (pyluksde_volume_open_file_object E w
              (some { volume := self.volume, file_io_handle := none }) file_object
              mode).world.trace)) := by
  refine ⟨open_opens_read_only _ _ _ _ _ _, open_file_object_opens_read_only _ _ _ _ _,
    opens_read_only_trans (new_opens_read_only E w allocated) (open_opens_read_only _ _ _ _ _ _),
    opens_read_only_trans (new_opens_read_only E w allocated)
      (open_file_object_opens_read_only _ _ _ _ _), ?_⟩
  intro hmode
  refine ⟨?_, ?_, ?_, ?_⟩
  · simp only [pyluksde_volume_open, hmode, PyObject_IsInstance_PyUnicode,
      PyObject_IsInstance_PyBytes, PyBytes_AsString, World.call]
    simp
    split_ifs <;> rfl
  · simp only [pyluksde_volume_open, hmode, PyObject_IsInstance_PyUnicode,
      PyUnicode_AsUnicode, World.call]
    simp
    split_ifs <;> rfl
  · simp only [pyluksde_volume_open, hmode, PyObject_IsInstance_PyUnicode,
      PyUnicode_AsUTF8String, World.call]
    simp
    split_ifs <;> rfl
  · intro hinit
    simp only [pyluksde_volume_open_file_object, pyluksde_volume_open_file_object_on_error,
      hmode, World.call, hinit]
    simp
    split_ifs <;> simp

/-- Witness of C10: `open(b"a", "r")` on the closed volume makes one call,
`libluksde_volume_open` with `LIBLUKSDE_OPEN_READ`, and
`open_file_object(f, "r")` opens the file IO handle it made with
`LIBLUKSDE_OPEN_READ`. -/
theorem open_passes_read_only_flag_witness :
    mode_unsupported (some "r") = false
    ∧ (pyluksde_volume_open specEngine closed_world false (some demo_self) (.bytes [97])
        (some "r")).world.trace = [.libluksde_volume_open [97] LIBLUKSDE_OPEN_READ]
    ∧ (pyluksde_volume_open_file_object specEngine closed_world (some demo_self) (.other 3)
        (some "r")).world.trace
        = [ EngineCall.pyluksde_file_object_initialize (.other 3),
            .libluksde_volume_open_file_io_handle (some 1) LIBLUKSDE_OPEN_READ]
    ∧ opens_read_only []
        (pyluksde_volume_new_open_file_object specEngine closed_world (some allocated_object)
          (.other 3) (some "r")).world.trace :=
  ⟨by decide,
   ((open_passes_read_only_flag specEngine closed_world false (some demo_self)
      (some allocated_object) demo_self (.bytes [97]) (.other 3) (some "r") [97] [97] [97]).2.2.2.2
        (by decide)).1,
   by decide,
   (open_passes_read_only_flag specEngine closed_world false (some demo_self)
      (some allocated_object) demo_self (.bytes [97]) (.other 3) (some "r") [97] [97]
      [97]).2.2.2.1⟩

/-- C11, the claim as stated fails: the modes "rw" and "r+" differ from "r",
yet `open(b"a", "rw")` and `open_file_object(f, "r+")` on the closed volume
raise nothing, return `None` and have called the engine to open the volume:
only the first character of the mode is tested. -/
theorem mode_rw_accepted_counterexample :
    (pyluksde_volume_open specEngine closed_world false (some demo_self) (.bytes [97])
        (some "rw")).ret = .object .none
    ∧ (pyluksde_volume_open specEngine closed_world false (some demo_self) (.bytes [97])
        (some "rw")).world.trace = [.libluksde_volume_open [97] LIBLUKSDE_OPEN_READ]
    ∧ (pyluksde_volume_open_file_object specEngine closed_world (some demo_self) (.other 3)
        (some "r+")).ret = .object .none
    ∧ (pyluksde_volume_open_file_object specEngine closed_world (some demo_self) (.other 3)
        (some "r+")).world.trace
        = [ EngineCall.pyluksde_file_object_initialize (.other 3),
            .libluksde_volume_open_file_io_handle (some 1) LIBLUKSDE_OPEN_READ] := by
  decide

/-- C11 as amended: `open` and `open_file_object` with the mode omitted
behave as with mode "r"; for every supplied mode string whose first
character is not `r` (such as "w" or the empty string) they return `NULL`
with ValueError "unsupported mode: <mode>." set and leave the world as it
was, so the engine is not called; a mode string that begins with `r` (such
as "rw" or "r+") is accepted and behaves as "r". -/
theorem mode_first_character_decides {σ : Type} (E : Engine σ) (w : World σ) (wide : Bool)
    (pyluksde_volume : Option PyVolume) (self : PyVolume)
    (string_object file_object : PyObject) (m : String) :
    pyluksde_volume_open E w wide pyluksde_volume string_object none
        = pyluksde_volume_open E w wide pyluksde_volume string_object (some "r")
    ∧ pyluksde_volume_open_file_object E w pyluksde_volume file_object none
        = pyluksde_volume_open_file_object E w pyluksde_volume file_object (some "r")
    ∧ (char_at_0 m ≠ 'r' →
        (pyluksde_volume_open E w wide (some self) string_object (some m)).ret
          = .null { exc := .ValueError, function := "pyluksde_volume_open",
                    message := "unsupported mode: " ++ m ++ ".", cause := none }
        ∧ (pyluksde_volume_open E w wide (some self) string_object (some m)).world = w
        ∧ (pyluksde_volume_open_file_object E w (some self) file_object (some m)).ret
          = .null { exc := .ValueError, function := "pyluksde_volume_open_file_object",
                    message := "unsupported mode: " ++ m ++ ".", cause := none }
        ∧ (pyluksde_volume_open_file_object E w (some self) file_object (some m)).world = w)
    ∧ (char_at_0 m = 'r' →
        pyluksde_volume_open E w wide pyluksde_volume string_object (some m)
          = pyluksde_volume_open E w wide pyluksde_volume string_object (some "r")
        ∧ pyluksde_volume_open_file_object E w pyluksde_volume file_object (some m)
          = pyluksde_volume_open_file_object E w pyluksde_volume file_object (some "r")) := by
  have hr : mode_unsupported (some "r") = false := by decide
  have hn : mode_unsupported none = false := rfl
  refine ⟨?_, ?_, ?_, ?_⟩
  · cases pyluksde_volume <;> simp [pyluksde_volume_open, hr, hn]
  · cases pyluksde_volume <;> simp [pyluksde_volume_open_file_object, hr, hn]
  · intro h
    have hm : mode_unsupported (some m) = true := by simp [mode_unsupported, h]
    simp [pyluksde_volume_open, pyluksde_volume_open_file_object, hm, PyErr_Format]
  · intro h
    have hm : mode_unsupported (some m) = false := by simp [mode_unsupported, h]
    constructor
    · cases pyluksde_volume <;> simp [pyluksde_volume_open, hr, hm]
    · cases pyluksde_volume <;> simp [pyluksde_volume_open_file_object, hr, hm]

/-- Witness of C11 as amended: `open(b"a", "w")` and `open(b"a", "")` on
the closed volume raise ValueError and make no call. -/
theorem mode_first_character_decides_witness :
    char_at_0 "w" ≠ 'r' ∧ char_at_0 "" ≠ 'r'
    ∧ (pyluksde_volume_open specEngine closed_world false (some demo_self) (.bytes [97])
        (some "w")).ret
        = .null { exc := .ValueError, function := "pyluksde_volume_open",
                  message := "unsupported mode: w.", cause := none }
    ∧ (pyluksde_volume_open specEngine closed_world false (some demo_self) (.bytes [97])
        (some "")).world = closed_world :=
  ⟨by decide, by decide,
   ((mode_first_character_decides specEngine closed_world false (some demo_self) demo_self
      (.bytes [97]) (.other 3) "w").2.2.1 (by decide)).1,
   ((mode_first_character_decides specEngine closed_world false (some demo_self) demo_self
      (.bytes [97]) (.other 3) "").2.2.1 (by decide)).2.1⟩

/-- C19: on the engine of the specification, whose offset query returns 1
and the cursor or fails with -1 (never 0), `tell()` / `get_offset()` never
returns `None`: when the query does not return -1 it returns the integer
equal to the engine's current offset (the cursor), and it returns `NULL`
with IOError "unable to retrieve offset." set exactly when the query returns
-1; the query is the one call it makes and the engine's state is as before.
For every engine (`E`, `w2`): `NULL` with IOError is returned exactly when
the query returns -1, the integer the engine stored when it returns anything
but -1 and 0, and `None` only in the branch `result == 0` of lines
1440-1446, which the engine of the specification never reaches. -/
theorem tell_returns_offset {σ : Type} (E : Engine σ) (w2 : World σ)
    (w : World SpecVolume) (self : PyVolume) :
    ((specEngine w.state .libluksde_volume_get_offset).1.result = 1
      ∨ (specEngine w.state .libluksde_volume_get_offset).1.result = -1)
    ∧ (pyluksde_volume_get_offset specEngine w (some self)).ret ≠ .object .none
    ∧ ((specEngine w.state .libluksde_volume_get_offset).1.result ≠ -1 →
        (specEngine w.state .libluksde_volume_get_offset).1.value = w.state.cursor
        ∧ (pyluksde_volume_get_offset specEngine w (some self)).ret
          = .object (.long w.state.cursor))
    ∧ ((specEngine w.state .libluksde_volume_get_offset).1.result = -1 →
        (pyluksde_volume_get_offset specEngine w (some self)).ret
          = .null { exc := .IOError, function := "pyluksde_volume_get_offset",
                    message := "unable to retrieve offset.",
                    cause := (specEngine w.state .libluksde_volume_get_offset).1.error })
    ∧ ((∃ e, (pyluksde_volume_get_offset specEngine w (some self)).ret = .null e)
        ↔ (specEngine w.state .libluksde_volume_get_offset).1.result = -1)
    ∧ (pyluksde_volume_get_offset specEngine w (some self)).world.state = w.state
    ∧ (pyluksde_volume_get_offset specEngine w (some self)).world.trace
        = w.trace ++ [.libluksde_volume_get_offset]
    ∧ (((∃ e, (pyluksde_volume_get_offset E w2 (some self)).ret = .null e)
          ↔ (E w2.state .libluksde_volume_get_offset).1.result = -1)
      ∧ ((E w2.state .libluksde_volume_get_offset).1.result = -1 →
          (pyluksde_volume_get_offset E w2 (some self)).ret
            = .null { exc := .IOError, function := "pyluksde_volume_get_offset",
                      message := "unable to retrieve offset.",
                      cause := (E w2.state .libluksde_volume_get_offset).1.error })
      ∧ ((E w2.state .libluksde_volume_get_offset).1.result ≠ -1 →
         (E w2.state .libluksde_volume_get_offset).1.result ≠ 0 →
          (pyluksde_volume_get_offset E w2 (some self)).ret
            = .object (.long (E w2.state .libluksde_volume_get_offset).1.value))
      ∧ ((pyluksde_volume_get_offset E w2 (some self)).ret = .object .none
          ↔ (E w2.state .libluksde_volume_get_offset).1.result = 0)
      ∧ (pyluksde_volume_get_offset E w2 (some self)).world.trace
          = w2.trace ++ [.libluksde_volume_get_offset]) := by
  refine ⟨?_, ?_, ?_, ?_, ?_, ?_, ?_, ?_⟩
  · by_cases hc : w.state.state = .Closed <;>
      simp [specEngine, hc, Response.failure, Response.of_result]
  · by_cases hc : w.state.state = .Closed <;>
      simp [pyluksde_volume_get_offset, World.call, specEngine, hc, Response.failure,
        Response.of_result]
  · by_cases hc : w.state.state = .Closed <;>
      simp [pyluksde_volume_get_offset, World.call, specEngine, hc, Response.failure,
        Response.of_result]
  · by_cases hc : w.state.state = .Closed <;>
      simp [pyluksde_volume_get_offset, World.call, specEngine, hc, Response.failure,
        Response.of_result, pyluksde_error_raise]
  · by_cases hc : w.state.state = .Closed <;>
      simp [pyluksde_volume_get_offset, World.call, specEngine, hc, Response.failure,
        Response.of_result]
  · by_cases hc : w.state.state = .Closed <;>
      simp [pyluksde_volume_get_offset, World.call, specEngine, hc, Response.failure,
        Response.of_result]
  · by_cases hc : w.state.state = .Closed <;>
      simp [pyluksde_volume_get_offset, World.call, specEngine, hc, Response.failure,
        Response.of_result]
  · by_cases h1 : (E w2.state .libluksde_volume_get_offset).1.result = -1
    · simp [pyluksde_volume_get_offset, World.call, pyluksde_error_raise, h1]
    · by_cases h0 : (E w2.state .libluksde_volume_get_offset).1.result = 0
      · simp [pyluksde_volume_get_offset, World.call, h0]
      · simp [pyluksde_volume_get_offset, World.call, h1, h0]

/-- Witness of C19: on the ten-byte volume with the cursor at 5 `tell()`
returns 5; on the closed volume the query fails and `tell()` raises
IOError. -/
theorem tell_returns_offset_witness :
    (specEngine demo_world.state .libluksde_volume_get_offset).1.result ≠ -1
    ∧ (pyluksde_volume_get_offset specEngine demo_world (some demo_self)).ret
        = .object (.long 5)
    ∧ (specEngine closed_world.state .libluksde_volume_get_offset).1.result = -1
    ∧ (pyluksde_volume_get_offset specEngine closed_world (some demo_self)).ret
        = .null { exc := .IOError, function := "pyluksde_volume_get_offset",
                  message := "unable to retrieve offset.", cause := none } :=
  ⟨by decide,
   ((tell_returns_offset specEngine closed_world demo_world demo_self).2.2.1 (by decide)).2,
   by decide,
   (tell_returns_offset specEngine closed_world closed_world demo_self).2.2.2.1 (by decide)⟩

/-- The method `open` does not touch the volume object. -/
lemma open_self {σ : Type} (E : Engine σ) (w : World σ) (wide : Bool) (self : PyVolume)
    (string_object : PyObject) (mode : Option String) :
    (pyluksde_volume_open E w wide (some self) string_object mode).self = some self := by
  cases hu : PyUnicode_AsUTF8String string_object <;>
    simp only [pyluksde_volume_open, hu] <;> split_ifs <;> rfl

/-- After the method `open_file_object` the file IO handle is `NULL` unless the call
succeeded. -/
lemma open_file_object_handle {σ : Type} (E : Engine σ) (w : World σ) (self : PyVolume)
    (file_object : PyObject) (mode : Option String) :
    ∃ self2, (pyluksde_volume_open_file_object E w (some self) file_object mode).self
        = some self2
      ∧ (self2.file_io_handle ≠ none →
          (pyluksde_volume_open_file_object E w (some self) file_object mode).ret.succeeded
            = true
          ∨ (self2 = self
            ∧ (pyluksde_volume_open_file_object E w (some self) file_object mode).ret.succeeded
              = false)) := by
  simp only [pyluksde_volume_open_file_object, pyluksde_volume_open_file_object_on_error]
  split_ifs <;> simp_all [PyReturn.succeeded]

/-- What `close` does to the volume object: nothing when the engine's close
fails, else the file IO handle is `NULL` afterwards. -/
lemma close_self {σ : Type} (E : Engine σ) (w : World σ) (self : PyVolume) :
    ((E w.state .libluksde_volume_close).1.result ≠ 0 →
      (pyluksde_volume_close E w (some self)).self = some self
      ∧ (pyluksde_volume_close E w (some self)).ret.succeeded = false)
    ∧ ((E w.state .libluksde_volume_close).1.result = 0 →
      (pyluksde_volume_close E w (some self)).self
        = some { volume := self.volume, file_io_handle := none }) := by
  cases self with
  | mk volume file_io_handle =>
    cases file_io_handle <;>
      simp only [pyluksde_volume_close, World.call] <;>
      constructor <;> intro h <;> simp [h, PyReturn.succeeded]
    split_ifs <;> rfl

/-- One call keeps the invariant. -/
lemma Lifetime.step_handle_only_when_opened {σ : Type} (E : Engine σ) (s : Lifetime σ)
    (op : VolumeOp) (h : s.handle_only_when_opened) :
    (s.step E op).handle_only_when_opened := by
  cases op with
  | call_init =>
    simp only [Lifetime.step, Lifetime.handle_only_when_opened, pyluksde_volume_init]
    split_ifs <;> simp
  | call_open wide string_object mode =>
    simp only [Lifetime.step, Lifetime.handle_only_when_opened, open_self, Option.getD_some]
    exact h
  | call_open_file_object file_object mode =>
    obtain ⟨self2, h1, h2⟩ := open_file_object_handle E s.world s.self file_object mode
    simp only [Lifetime.step, Lifetime.handle_only_when_opened, h1, Option.getD_some]
    intro hne
    rcases h2 hne with h3 | ⟨h3, h4⟩
    · simp [h3]
    · rw [h3] at hne
      simp [h4, h hne]
  | call_close =>
    have hc := close_self E s.world s.self
    by_cases h0 : (E s.world.state .libluksde_volume_close).1.result = 0
    · simp [Lifetime.step, Lifetime.handle_only_when_opened, hc.2 h0]
    · obtain ⟨h1, h2⟩ := hc.1 h0
      simp only [Lifetime.step, Lifetime.handle_only_when_opened, h1, h2, Option.getD_some]
      intro hne
      simp [h hne]

/-- Every sequence of calls keeps the invariant. -/
lemma Lifetime.run_handle_only_when_opened {σ : Type} (E : Engine σ) (ops : List VolumeOp)
    (s : Lifetime σ) (h : s.handle_only_when_opened) :
    (s.run E ops).handle_only_when_opened := by
  induction ops generalizing s with
  | nil => exact h
  | cons op ops ih =>
    exact ih (s.step E op) (Lifetime.step_handle_only_when_opened E s op h)

/-- On a volume object without a file IO handle, `open_file_object` is not
rejected as "file IO handle already set". -/
lemma open_file_object_not_already_set {σ : Type} (E : Engine σ) (w : World σ)
    (volume : Option Nat) (file_object : PyObject) (mode : Option String) :
    (pyluksde_volume_open_file_object E w
        (some { volume := volume, file_io_handle := none }) file_object mode).ret
      ≠ .null { exc := .IOError, function := "pyluksde_volume_open_file_object",
                message := "invalid volume - file IO handle already set.", cause := none } := by
  simp only [pyluksde_volume_open_file_object, pyluksde_volume_open_file_object_on_error,
    PyErr_Format, pyluksde_error_raise]
  split_ifs <;> simp_all

/-- C20: over every sequence of `init`, `open`, `open_file_object` and
`close` calls on one volume object, the file IO handle is not `NULL` only
between a successful `open_file_object` and the next successful `close`.
`init` sets it to `NULL`; a successful `close` leaves it `NULL`, so that a
following `open_file_object` is not rejected as "file IO handle already
set"; a `close` in which the engine's close fails leaves the volume object
as it was. -/
theorem file_io_handle_lifetime {σ : Type} (E : Engine σ) (s : Lifetime σ)
    (ops : List VolumeOp) (h : s.handle_only_when_opened) :
    (s.run E ops).handle_only_when_opened
    ∧ (s.step E .call_init).self.file_io_handle = none
    ∧ ((pyluksde_volume_close E s.world (some s.self)).ret.succeeded = true →
        (s.step E .call_close).self.file_io_handle = none
        ∧ ∀ (file_object : PyObject) (mode : Option String),
            (pyluksde_volume_open_file_object E (s.step E .call_close).world
                (some (s.step E .call_close).self) file_object mode).ret
              ≠ .null { exc := .IOError, function := "pyluksde_volume_open_file_object",
                        message := "invalid volume - file IO handle already set.",
                        cause := none })
    ∧ ((E s.world.state .libluksde_volume_close).1.result ≠ 0 →
        (s.step E .call_close).self = s.self
        ∧ (pyluksde_volume_close E s.world (some s.self)).ret.succeeded = false) := by
  have hc := close_self E s.world s.self
  refine ⟨Lifetime.run_handle_only_when_opened E ops s h, ?_, ?_, ?_⟩
  · simp only [Lifetime.step, pyluksde_volume_init]
    split_ifs <;> rfl
  · intro hs
    have h0 : (E s.world.state .libluksde_volume_close).1.result = 0 := by
      by_contra hne
      rw [(hc.1 hne).2] at hs
      cases hs
    have hself : (s.step E .call_close).self
        = { volume := s.self.volume, file_io_handle := none } := by
      simp [Lifetime.step, hc.2 h0]
    rw [hself]
    exact ⟨rfl, fun file_object mode => open_file_object_not_already_set E _ _ _ _⟩
  · intro hne
    exact ⟨by simp [Lifetime.step, (hc.1 hne).1], (hc.1 hne).2⟩

/-- Witness of C20: on the closed volume, `init`, `open_file_object`,
`close`, `open_file_object` in this order: the second `open_file_object` is
accepted and the handle is set at the end, inside the window; after `init`,
`open_file_object`, `close` the handle is `NULL`. -/
theorem file_io_handle_lifetime_witness :
    (({ self := demo_self_with_handle, world := closed_world,
        opened_from_file_object := true } : Lifetime SpecVolume).run specEngine
      [.call_init, .call_open_file_object (.other 3) none, .call_close,
       .call_open_file_object (.other 3) (some "r")]).handle_only_when_opened
    ∧ (({ self := demo_self_with_handle, world := closed_world,
          opened_from_file_object := true } : Lifetime SpecVolume).run specEngine
        [.call_init, .call_open_file_object (.other 3) none, .call_close,
         .call_open_file_object (.other 3) (some "r")]).self.file_io_handle = some 1
    ∧ (({ self := demo_self_with_handle, world := closed_world,
          opened_from_file_object := true } : Lifetime SpecVolume).run specEngine
        [.call_init, .call_open_file_object (.other 3) none,
         .call_close]).self.file_io_handle = none :=
  ⟨(file_io_handle_lifetime specEngine
      { self := demo_self_with_handle, world := closed_world, opened_from_file_object := true }
      [.call_init, .call_open_file_object (.other 3) none, .call_close,
       .call_open_file_object (.other 3) (some "r")] (fun _ => rfl)).1,
   by decide, by decide⟩

/-- The bound on the read size is `INT_MAX`. -/
lemma min_INT_MAX_SSIZE_MAX : min INT_MAX SSIZE_MAX = INT_MAX := by decide

/-- The world after the statements of `read_buffer` from
`if( read_size == 0 )` on: the engine's read is called exactly for a read
size from 1 to the bound, with that size. -/
lemma read_buffer_sized_world {σ : Type} (E : Engine σ) (w : World σ) (self : PyVolume)
    (read_size : Int) :
    (pyluksde_volume_read_buffer_sized E w self read_size).world
      = if 1 ≤ read_size ∧ read_size ≤ min INT_MAX SSIZE_MAX then
          (w.call E (.libluksde_volume_read_buffer read_size.toNat)).2
        else w := by
  rw [min_INT_MAX_SSIZE_MAX]
  have hmax : read_size > SSIZE_MAX → read_size > INT_MAX := by
    intro h
    simp only [SSIZE_MAX, INT_MAX] at *
    omega
  by_cases h0 : read_size = 0
  · simp [pyluksde_volume_read_buffer_sized, h0]
  by_cases h1 : read_size < 0
  · have : ¬ 1 ≤ read_size := by omega
    simp [pyluksde_volume_read_buffer_sized, h0, h1, this]
  by_cases h2 : read_size > INT_MAX
  · have : ¬ read_size ≤ INT_MAX := by omega
    simp [pyluksde_volume_read_buffer_sized, h0, h1, h2, this]
  have h3 : ¬ read_size > SSIZE_MAX := fun h => h2 (hmax h)
  have h5 : 1 ≤ read_size ∧ read_size ≤ INT_MAX := ⟨by omega, by omega⟩
  have hc := (casts_of_accepted_size read_size (by omega) h5.2).1
  simp only [pyluksde_volume_read_buffer_sized, h0, h1, h2, h3, h5, if_false, if_true,
    or_self, and_self, hc]
  split_ifs
  · rfl
  · split <;> rfl

/-- A buffer of `size` bytes that the engine filled: resized to `size`, it
is the first `size` bytes the engine wrote. -/
lemma PyBytes_Resize_filled (size : Int) (data : List Byte) (h0 : 0 ≤ size)
    (h : size.toNat ≤ data.length) :
    PyBytes_Resize (buffer_written (List.replicate size.toNat 0) data) size
      = some (data.take size.toNat) := by
  have hlen : (buffer_written (List.replicate size.toNat 0) data).length = size.toNat := by
    simp [buffer_written]
    omega
  rw [PyBytes_Resize_of_le _ _ h0 (by rw [hlen])]
  simp [buffer_written, List.take_append_eq_append_take, List.take_take]
  omega

/-- C21: in `read_buffer` (from `if( read_size == 0 )` on, which every way
of getting the read size runs into) and in `read_buffer_at_offset` the
engine's read is called exactly when the 64-bit read size satisfies
1 <= read_size <= min(INT_MAX, SSIZE_MAX) (and, for the positional read, the
offset is not negative), and then with that size.  For such a size the casts
to `size_t` and to `Py_ssize_t` keep the value, and the buffer the function
allocates, hands to the engine and resizes has exactly read_size bytes: what
the function returns is the exception for the count -1, and else the buffer
of read_size bytes with what the engine wrote at its start, resized to the
count the engine reported; so when the engine fills the buffer and reports
read_size, exactly the read_size bytes it wrote are returned.  Every size
above the bound returns `NULL` with ValueError "invalid argument read size
value exceeds maximum." set and leaves the world as it was, so the engine is
not called. -/
theorem read_size_bounds {σ : Type} (E : Engine σ) (w : World σ) (self : PyVolume)
    (read_size offset : Int) :
    (pyluksde_volume_read_buffer_sized E w self read_size).world
        = (if 1 ≤ read_size ∧ read_size ≤ min INT_MAX SSIZE_MAX then
            (w.call E (.libluksde_volume_read_buffer read_size.toNat)).2
          else w)
    ∧ (pyluksde_volume_read_buffer_at_offset E w (some self) (.long read_size) offset).world
        = (if 1 ≤ read_size ∧ read_size ≤ min INT_MAX SSIZE_MAX ∧ 0 ≤ offset then
            (w.call E (.libluksde_volume_read_buffer_at_offset read_size.toNat offset)).2
          else w)
    ∧ pyluksde_volume_read_buffer E w (some self) (some (.long read_size))
        = pyluksde_volume_read_buffer_sized E w self read_size
    ∧ (∀ integer_object : Option PyObject,
        integer_object = none ∨ integer_object = some .none →
        (E w.state .libluksde_volume_get_size).1.result = 1 →
        pyluksde_volume_read_buffer E w (some self) integer_object
          = pyluksde_volume_read_buffer_sized E (w.call E .libluksde_volume_get_size).2 self
              (int64_of_size64 (E w.state .libluksde_volume_get_size).1.value))
    ∧ (1 ≤ read_size → read_size ≤ min INT_MAX SSIZE_MAX →
        ((to_size_t read_size : Nat) : Int) = read_size
        ∧ to_Py_ssize_t read_size = read_size
        ∧ ((PyBytes_FromStringAndSize (to_Py_ssize_t read_size)).length : Int) = read_size
        ∧ (pyluksde_volume_read_buffer_sized E w self read_size).ret
            = (if (E w.state (.libluksde_volume_read_buffer read_size.toNat)).1.result = -1 then
                .null { exc := .IOError, function := "pyluksde_volume_read_buffer",
                        message := "unable to read data.",
                        cause :=
                          (E w.state (.libluksde_volume_read_buffer read_size.toNat)).1.error }
              else
                match PyBytes_Resize
                  (buffer_written (List.replicate read_size.toNat 0)
                    (E w.state (.libluksde_volume_read_buffer read_size.toNat)).1.data)
                  (E w.state (.libluksde_volume_read_buffer read_size.toNat)).1.result with
                | none => .null { exc := .SystemError, function := "_PyBytes_Resize",
                                  message := "bad internal call.", cause := none }
                | some resized => .object (.bytes resized))
        ∧ ((E w.state (.libluksde_volume_read_buffer read_size.toNat)).1.result = read_size →
            read_size.toNat
              ≤ (E w.state (.libluksde_volume_read_buffer read_size.toNat)).1.data.length →
            (pyluksde_volume_read_buffer_sized E w self read_size).ret
              = .object (.bytes
                  ((E w.state (.libluksde_volume_read_buffer read_size.toNat)).1.data.take
                    read_size.toNat)))
        ∧ (0 ≤ offset →
            (pyluksde_volume_read_buffer_at_offset E w (some self) (.long read_size) offset).ret
              = (if (E w.state (.libluksde_volume_read_buffer_at_offset read_size.toNat
                      offset)).1.result = -1 then
                  .null { exc := .IOError, function := "pyluksde_volume_read_buffer_at_offset",
                          message := "unable to read data.",
                          cause := (E w.state (.libluksde_volume_read_buffer_at_offset
                            read_size.toNat offset)).1.error }
                else
                  match PyBytes_Resize
                    (buffer_written (List.replicate read_size.toNat 0)
                      (E w.state (.libluksde_volume_read_buffer_at_offset read_size.toNat
                        offset)).1.data)
                    (E w.state (.libluksde_volume_read_buffer_at_offset read_size.toNat
                      offset)).1.result with
                  | none => .null { exc := .SystemError, function := "_PyBytes_Resize",
                                    message := "bad internal call.", cause := none }
                  | some resized => .object (.bytes resized))
            ∧ ((E w.state (.libluksde_volume_read_buffer_at_offset read_size.toNat
                  offset)).1.result = read_size →
                read_size.toNat
                  ≤ (E w.state (.libluksde_volume_read_buffer_at_offset read_size.toNat
                      offset)).1.data.length →
                (pyluksde_volume_read_buffer_at_offset E w (some self) (.long read_size)
                    offset).ret
                  = .object (.bytes
                      ((E w.state (.libluksde_volume_read_buffer_at_offset read_size.toNat
                        offset)).1.data.take read_size.toNat)))))
    ∧ (min INT_MAX SSIZE_MAX < read_size →
        (pyluksde_volume_read_buffer_sized E w self read_size).ret
          = .null { exc := .ValueError, function := "pyluksde_volume_read_buffer",
                    message := "invalid argument read size value exceeds maximum.",
                    cause := none }
        ∧ (pyluksde_volume_read_buffer_sized E w self read_size).world = w
        ∧ (pyluksde_volume_read_buffer_at_offset E w (some self) (.long read_size) offset).ret
          = .null { exc := .ValueError, function := "pyluksde_volume_read_buffer_at_offset",
                    message := "invalid argument read size value exceeds maximum.",
                    cause := none }
        ∧ (pyluksde_volume_read_buffer_at_offset E w (some self) (.long read_size)
            offset).world = w) := by
  refine ⟨read_buffer_sized_world E w self read_size, ?_, ?_, ?_, ?_, ?_⟩
  · rw [read_buffer_at_offset_world, min_INT_MAX_SSIZE_MAX]
    by_cases h : 0 < read_size ∧ read_size ≤ INT_MAX ∧ 0 ≤ offset
    · have h2 : 1 ≤ read_size ∧ read_size ≤ INT_MAX ∧ 0 ≤ offset := ⟨by omega, h.2.1, h.2.2⟩
      simp [read_buffer_at_offset_call, h, h2,
        (casts_of_accepted_size read_size (by omega) h.2.1).1]
    · have h2 : ¬ (1 ≤ read_size ∧ read_size ≤ INT_MAX ∧ 0 ≤ offset) := by
        intro h3
        exact h ⟨by omega, h3.2.1, h3.2.2⟩
      simp only [read_buffer_at_offset_call, h, h2, if_false]
  · simp [pyluksde_volume_read_buffer, PyObject_IsInstance_PyLong,
      pyluksde_integer_signed_copy_to_64bit]
  · intro integer_object harg hresult
    rcases harg with h | h <;> subst h <;>
      simp [pyluksde_volume_read_buffer, PyObject_IsInstance_PyLong, World.call, hresult]
  · intro h1 h2
    rw [min_INT_MAX_SSIZE_MAX] at h2
    obtain ⟨hc1, hc2⟩ := casts_of_accepted_size read_size (by omega) h2
    have hne : read_size ≠ -1 := by omega
    have h0 : read_size ≠ 0 := by omega
    have hn : ¬ read_size < 0 := by omega
    have hi : ¬ read_size > INT_MAX := not_lt.mpr h2
    have hss : ¬ read_size > SSIZE_MAX := by
      simp only [SSIZE_MAX, INT_MAX] at *
      omega
    have hsized : (pyluksde_volume_read_buffer_sized E w self read_size).ret
        = (if (E w.state (.libluksde_volume_read_buffer read_size.toNat)).1.result = -1 then
            .null { exc := .IOError, function := "pyluksde_volume_read_buffer",
                    message := "unable to read data.",
                    cause :=
                      (E w.state (.libluksde_volume_read_buffer read_size.toNat)).1.error }
          else
            match PyBytes_Resize
              (buffer_written (List.replicate read_size.toNat 0)
                (E w.state (.libluksde_volume_read_buffer read_size.toNat)).1.data)
              (E w.state (.libluksde_volume_read_buffer read_size.toNat)).1.result with
            | none => .null { exc := .SystemError, function := "_PyBytes_Resize",
                              message := "bad internal call.", cause := none }
            | some resized => .object (.bytes resized)) := by
      simp only [pyluksde_volume_read_buffer_sized, World.call, hc1, hc2,
        PyBytes_FromStringAndSize, pyluksde_error_raise, PyErr_Format, h0, hn, hi, hss,
        if_false, or_self]
      split_ifs
      · rfl
      · split <;> simp_all
    refine ⟨?_, hc2, ?_, hsized, ?_, ?_⟩
    · rw [hc1]; omega
    · rw [hc2]
      simp [PyBytes_FromStringAndSize]
      omega
    · intro hcount hdata
      rw [hsized, hcount, if_neg hne, PyBytes_Resize_filled read_size _ (by omega) hdata]
    · intro h3
      have h4 : ¬ offset < 0 := not_lt.mpr h3
      have hat : (pyluksde_volume_read_buffer_at_offset E w (some self) (.long read_size)
            offset).ret
          = (if (E w.state (.libluksde_volume_read_buffer_at_offset read_size.toNat
                  offset)).1.result = -1 then
              .null { exc := .IOError, function := "pyluksde_volume_read_buffer_at_offset",
                      message := "unable to read data.",
                      cause := (E w.state (.libluksde_volume_read_buffer_at_offset
                        read_size.toNat offset)).1.error }
            else
              match PyBytes_Resize
                (buffer_written (List.replicate read_size.toNat 0)
                  (E w.state (.libluksde_volume_read_buffer_at_offset read_size.toNat
                    offset)).1.data)
                (E w.state (.libluksde_volume_read_buffer_at_offset read_size.toNat
                  offset)).1.result with
              | none => .null { exc := .SystemError, function := "_PyBytes_Resize",
                                message := "bad internal call.", cause := none }
              | some resized => .object (.bytes resized)) := by
        simp only [pyluksde_volume_read_buffer_at_offset, PyObject_IsInstance_PyLong,
          pyluksde_integer_signed_copy_to_64bit, World.call, hc1, hc2,
          PyBytes_FromStringAndSize, pyluksde_error_raise, PyErr_Format]
        simp only [h0, hn, hi, hss, h4, if_false, or_self]
        simp
        split_ifs
        · rfl
        · split <;> simp_all
      refine ⟨hat, ?_⟩
      intro hcount hdata
      rw [hat, hcount, if_neg hne, PyBytes_Resize_filled read_size _ (by omega) hdata]
  · intro hbig
    rw [min_INT_MAX_SSIZE_MAX] at hbig
    have h0 : read_size ≠ 0 := by
      simp only [INT_MAX] at hbig
      omega
    have h1 : ¬ read_size < 0 := by
      simp only [INT_MAX] at hbig
      omega
    simp [pyluksde_volume_read_buffer_sized, pyluksde_volume_read_buffer_at_offset,
      PyObject_IsInstance_PyLong, pyluksde_integer_signed_copy_to_64bit, PyErr_Format,
      h0, h1, hbig]

/-- Witness of C21: on the ten-byte volume `read(3)` calls the engine's read
with size 3 and returns the three bytes at the cursor, and
`read_buffer_at_offset(3, 0)` the first three bytes; `read(2147483648)`
calls nothing and raises ValueError, and so does `read()` on the volume of
`INT_MAX + 1` bytes once it has the size. -/
theorem read_size_bounds_witness :
    (pyluksde_volume_read_buffer specEngine demo_world (some demo_self)
        (some (.long 3))).world.trace = [.libluksde_volume_read_buffer 3]
    ∧ (pyluksde_volume_read_buffer specEngine demo_world (some demo_self)
        (some (.long 3))).ret = .object (.bytes [15, 16, 17])
    ∧ (pyluksde_volume_read_buffer_sized specEngine demo_world demo_self 3).ret
        = .object (.bytes [15, 16, 17])
    ∧ (pyluksde_volume_read_buffer_at_offset specEngine demo_world (some demo_self)
        (.long 3) 0).ret = .object (.bytes [10, 11, 12])
    ∧ (pyluksde_volume_read_buffer specEngine demo_world (some demo_self)
        (some (.long 2147483648))).world.trace = []
    ∧ (pyluksde_volume_read_buffer_sized specEngine demo_world demo_self 2147483648).ret
        = .null { exc := .ValueError, function := "pyluksde_volume_read_buffer",
                  message := "invalid argument read size value exceeds maximum.",
                  cause := none }
    ∧ pyluksde_volume_read_buffer specEngine large_world (some demo_self) none
        = pyluksde_volume_read_buffer_sized specEngine
            (large_world.call specEngine .libluksde_volume_get_size).2 demo_self
            (int64_of_size64
              (specEngine large_world.state .libluksde_volume_get_size).1.value) :=
  ⟨by decide, by decide,
   ((read_size_bounds specEngine demo_world demo_self 3 0).2.2.2.2.1
      (by decide) (by decide)).2.2.2.2.1 (by decide) (by decide),
   (((read_size_bounds specEngine demo_world demo_self 3 0).2.2.2.2.1
      (by decide) (by decide)).2.2.2.2.2 (by decide)).2 (by decide) (by decide),
   by decide,
   ((read_size_bounds specEngine demo_world demo_self 2147483648 0).2.2.2.2.2
      (by decide)).1,
   (read_size_bounds specEngine large_world demo_self 0 0).2.2.2.1 none (Or.inl rfl)
      (by decide)⟩

/-- C22: `read(0)` and `read_buffer_at_offset(0, o)` return the empty byte
string and leave the world as it was (no engine call), for every engine and
state of its volume, every volume object and every offset `o`; and `read()`
with the size omitted (or `None`), when the engine reports the size 0,
returns the empty byte string, having asked the engine for the size only. -/
theorem read_zero_is_empty {σ : Type} (E : Engine σ) (w : World σ) (self : PyVolume)
    (o : Int) :
    (pyluksde_volume_read_buffer E w (some self) (some (.long 0))).ret = .object (.bytes [])
    ∧ (pyluksde_volume_read_buffer E w (some self) (some (.long 0))).world = w
    ∧ (pyluksde_volume_read_buffer_at_offset E w (some self) (.long 0) o).ret
        = .object (.bytes [])
    ∧ (pyluksde_volume_read_buffer_at_offset E w (some self) (.long 0) o).world = w
    ∧ (∀ integer_object : Option PyObject,
        integer_object = none ∨ integer_object = some .none →
        (E w.state .libluksde_volume_get_size).1.result = 1 →
        (E w.state .libluksde_volume_get_size).1.value = 0 →
        (pyluksde_volume_read_buffer E w (some self) integer_object).ret
          = .object (.bytes [])
        ∧ (pyluksde_volume_read_buffer E w (some self) integer_object).world.trace
          = w.trace ++ [.libluksde_volume_get_size]) := by
  have hz : int64_of_size64 0 = 0 := by decide
  refine ⟨?_, ?_, ?_, ?_, ?_⟩
  · simp [pyluksde_volume_read_buffer, pyluksde_volume_read_buffer_sized,
      PyObject_IsInstance_PyLong, pyluksde_integer_signed_copy_to_64bit]
  · simp [pyluksde_volume_read_buffer, pyluksde_volume_read_buffer_sized,
      PyObject_IsInstance_PyLong, pyluksde_integer_signed_copy_to_64bit]
  · simp [pyluksde_volume_read_buffer_at_offset, PyObject_IsInstance_PyLong,
      pyluksde_integer_signed_copy_to_64bit]
  · simp [pyluksde_volume_read_buffer_at_offset, PyObject_IsInstance_PyLong,
      pyluksde_integer_signed_copy_to_64bit]
  · intro integer_object harg hresult hvalue
    rcases harg with h | h <;> subst h <;>
      simp [pyluksde_volume_read_buffer, pyluksde_volume_read_buffer_sized,
        PyObject_IsInstance_PyLong, World.call, hresult, hvalue, hz]

/-- Witness of C22: `read(0)` and `read_buffer_at_offset(0, -7)` on the
closed volume, and `read()` on the unlocked volume of no bytes. -/
theorem read_zero_is_empty_witness :
    (pyluksde_volume_read_buffer specEngine closed_world (some allocated_object)
        (some (.long 0))).ret = .object (.bytes [])
    ∧ (pyluksde_volume_read_buffer_at_offset specEngine closed_world (some allocated_object)
        (.long 0) (-7)).world = closed_world
    ∧ (specEngine empty_world.state .libluksde_volume_get_size).1.result = 1
    ∧ (specEngine empty_world.state .libluksde_volume_get_size).1.value = 0
    ∧ (pyluksde_volume_read_buffer specEngine empty_world (some demo_self) none).ret
        = .object (.bytes []) :=
  ⟨(read_zero_is_empty specEngine closed_world allocated_object (-7)).1,
   (read_zero_is_empty specEngine closed_world allocated_object (-7)).2.2.2.1,
   by decide, by decide,
   ((read_zero_is_empty specEngine empty_world demo_self 0).2.2.2.2 none (Or.inl rfl)
      (by decide) (by decide)).1⟩

end Pyluksde

namespace Luksdeinfo

/-- The steps of `main` after the option loop are the plan, run in order. -/
lemma main_from_initialize_eq_run_steps {σ : Type} (E : ToolEngine σ) (r : Run σ)
    (options : Options) (source : String) :
    main_from_initialize E r options source
      = run_steps E (planned_steps options source) r := by
  obtain ⟨keys, password, offset, verbose⟩ := options
  cases keys <;> cases password <;> cases offset <;>
    simp only [ main_from_initialize, main_from_keys, main_from_password,
      main_from_volume_offset, main_from_open_input, planned_steps, run_steps, Run.after,
      Run.call_error,
      List.cons_append, List.nil_append, List.append_nil, if_true, Bool.false_eq_true,
      if_false, decide_eq_true_eq, ne_eq, ite_not]

/-- What the error path does: `EXIT_FAILURE`, the backtrace of the error
object if there is one, and `info_handle_free` if there is an info handle. -/
lemma on_error_outcome {σ : Type} (E : ToolEngine σ) (r : Run σ) :
    (on_error E r).exit_status = EXIT_FAILURE
    ∧ (on_error E r).final.output = r.output ++ backtrace_of r.error
    ∧ ∃ cleanup, (on_error E r).final.trace = r.trace ++ cleanup
      ∧ (r.luksdeinfo_info_handle = none → cleanup = [])
      ∧ (r.luksdeinfo_info_handle ≠ none →
          ∃ response, cleanup = [(ToolCall.info_handle_free, response)]) := by
  obtain ⟨state, trace, output, error, handle⟩ := r
  cases error <;> cases handle <;>
    simp [on_error, Run.print, Run.call, backtrace_of]

/-- The run after a step: the log has one more entry, nothing is printed,
`error` holds the first error object, the handle what the step stored. -/
lemma Run.after_fields {σ : Type} (E : ToolEngine σ) (r : Run σ) (s : Step) :
    (r.after E s).trace = r.trace ++ [(s.call, (E r.state s.call).1)]
    ∧ (r.after E s).output = r.output
    ∧ (r.after E s).error = error_after r.error [(s, (E r.state s.call).1)]
    ∧ (r.after E s).luksdeinfo_info_handle
        = handle_after r.luksdeinfo_info_handle [(s, (E r.state s.call).1)] := by
  cases hs : s.stores_handle <;> cases he : r.error <;>
    simp [Run.after, Run.call_error, error_after, handle_after, hs, he]

/-- How a run of a plan ends: every step was made and none failed, or the
steps up to the first failing one were made, its diagnostic and the
backtrace were printed and the error path was taken. -/
lemma run_steps_outcome {σ : Type} (E : ToolEngine σ) (steps : List Step) (r : Run σ) :
    (∃ log : List (Step × ToolResponse), log.map Prod.fst = steps
      ∧ (∀ p ∈ log, p.1.failed p.2.result = false)
      ∧ (run_steps E steps r).exit_status = EXIT_SUCCESS
      ∧ (run_steps E steps r).final.trace = r.trace ++ entries log
      ∧ (run_steps E steps r).final.output = r.output)
    ∨ (∃ (done : List (Step × ToolResponse)) (p : Step × ToolResponse) (rest : List Step)
        (cleanup : List (ToolCall × ToolResponse)),
      steps = done.map Prod.fst ++ p.1 :: rest
      ∧ (∀ q ∈ done, q.1.failed q.2.result = false)
      ∧ p.1.failed p.2.result = true
      ∧ (run_steps E steps r).exit_status = EXIT_FAILURE
      ∧ (run_steps E steps r).final.trace = r.trace ++ entries (done ++ [p]) ++ cleanup
      ∧ (run_steps E steps r).final.output
          = r.output ++ [.write .stderr p.1.diagnostic]
            ++ backtrace_of (error_after r.error (done ++ [p]))
      ∧ (handle_after r.luksdeinfo_info_handle (done ++ [p]) = none → cleanup = [])
      ∧ (handle_after r.luksdeinfo_info_handle (done ++ [p]) ≠ none →
          ∃ response, cleanup = [(ToolCall.info_handle_free, response)])) := by
  induction steps generalizing r with
  | nil => exact Or.inl ⟨[], rfl, by simp, rfl, by simp [run_steps, entries], rfl⟩
  | cons s rest ih =>
    obtain ⟨htrace, houtput, herror, hhandle⟩ := Run.after_fields E r s
    by_cases hf : s.failed (E r.state s.call).1.result = true
    · right
      obtain ⟨h1, h2, cleanup, h3, h4, h5⟩ := on_error_outcome E
        ((r.after E s).print [.write .stderr s.diagnostic])
      have hrun : run_steps E (s :: rest) r
          = on_error E ((r.after E s).print [.write .stderr s.diagnostic]) := by
        simp [run_steps, hf]
      rw [hrun]
      refine ⟨[], (s, (E r.state s.call).1), rest, cleanup, rfl, by simp, hf, h1, ?_, ?_, ?_, ?_⟩
      · rw [h3]
        simp [Run.print, htrace, entries]
      · rw [h2]
        simp [Run.print, houtput, herror]
      · intro hn
        exact h4 (by simpa [Run.print, hhandle] using hn)
      · intro hn
        exact h5 (by simpa [Run.print, hhandle] using hn)
    · have hf2 : s.failed (E r.state s.call).1.result = false := by simpa using hf
      have hrun : run_steps E (s :: rest) r = run_steps E rest (r.after E s) := by
        simp [run_steps, hf2]
      rw [hrun]
      rcases ih (r.after E s) with
        ⟨log, h1, h2, h3, h4, h5⟩ | ⟨done, p, rest2, cleanup, h1, h2, h3, h4, h5, h6, h7, h8⟩
      · left
        refine ⟨(s, (E r.state s.call).1) :: log, by simp [h1], ?_, h3, ?_, ?_⟩
        · intro p hp
          rcases List.mem_cons.mp hp with h | h
          · rw [h]; exact hf2
          · exact h2 p h
        · rw [h4, htrace]; simp [entries]
        · rw [h5, houtput]
      · right
        refine ⟨(s, (E r.state s.call).1) :: done, p, rest2, cleanup, by simp [h1], ?_, h3, h4,
          ?_, ?_, ?_, ?_⟩
        · intro q hq
          rcases List.mem_cons.mp hq with h | h
          · rw [h]; exact hf2
          · exact h2 q h
        · rw [h5, htrace]; simp [entries]
        · rw [h6, houtput, herror]; simp [error_after]
        · intro hn
          apply h7
          rw [hhandle]
          simpa [handle_after] using hn
        · intro hn
          apply h8
          rw [hhandle]
          simpa [handle_after] using hn

/-- Where the start of `main` leaves off when it goes on: the banner is
printed, four calls are logged, there is no info handle. -/
lemma main_startup_goes_on {σ : Type} (E : ToolEngine σ) (state : σ) (r : Run σ)
    (h : main_startup E state = .goes_on () r) :
    r.output = [.version .stdout "luksdeinfo"]
    ∧ r.trace.map Prod.fst
        = [.libcnotify_stream_set, .libcnotify_verbose_set 1,
           ToolCall.libclocale_initialize, ToolCall.luksdetools_output_initialize]
    ∧ r.luksdeinfo_info_handle = none := by
  simp only [main_startup] at h
  split_ifs at h
  cases h
  simp [Run.print, Run.call, Run.call_error]

/-- Over results that are all `k`, `o`, `p` or `v` the option loop sets the
variables and goes on. -/
lemma main_options_plain {σ : Type} (argv : List String) (pre rest : List GetoptResult)
    (options : Options) (r : Run σ) (h : ∀ g ∈ pre, g.option ∈ plain_options) :
    main_options argv (pre ++ rest) options r
      = main_options argv rest (options_after pre options) r := by
  induction pre generalizing options with
  | nil => rfl
  | cons g pre ih =>
    have hg : g.option ∈ plain_options := h g (List.mem_cons_self _ _)
    have hpre : ∀ g ∈ pre, g.option ∈ plain_options :=
      fun x hx => h x (List.mem_cons_of_mem _ hx)
    simp only [plain_options, List.mem_cons, List.mem_singleton, List.not_mem_nil,
      or_false] at hg
    rcases hg with hg | hg | hg | hg <;>
      simp [main_options, options_after, hg, ih _ hpre]

/-- The error path when there is no info handle: `EXIT_FAILURE`, no call,
still no info handle. -/
lemma on_error_without_handle {σ : Type} (E : ToolEngine σ) (r : Run σ)
    (h : r.luksdeinfo_info_handle = none) :
    (on_error E r).exit_status = EXIT_FAILURE
    ∧ (on_error E r).final.trace = r.trace
    ∧ (on_error E r).final.luksdeinfo_info_handle = none := by
  obtain ⟨state, trace, output, error, handle⟩ := r
  simp only at h
  subst h
  cases error <;> simp [on_error, Run.print]

/-- When the start of `main` does not get to the option loop, `main` has
returned `EXIT_FAILURE` having made only calls of its start, with no info
handle. -/
lemma main_startup_returned {σ : Type} (E : ToolEngine σ) (state : σ)
    (result : MainResult σ) (h : main_startup E state = .returned result) :
    result.exit_status = EXIT_FAILURE
    ∧ (∀ c ∈ result.final.trace.map Prod.fst,
        c ∈ [.libcnotify_stream_set, .libcnotify_verbose_set 1,
             ToolCall.libclocale_initialize, ToolCall.luksdetools_output_initialize])
    ∧ result.final.luksdeinfo_info_handle = none := by
  simp only [main_startup] at h
  split_ifs at h
  · cases h
    obtain ⟨h1, h2, h3⟩ := on_error_without_handle E
      (((((Run.mk state [] [] none none).call E .libcnotify_stream_set).2.call E
        (.libcnotify_verbose_set 1)).2.call_error E ToolCall.libclocale_initialize).2.print
          [.write .stderr "Unable to initialize locale values.\n"]) rfl
    refine ⟨h1, ?_, h3⟩
    rw [h2]
    simp [Run.print, Run.call, Run.call_error]
  · cases h
    obtain ⟨h1, h2, h3⟩ := on_error_without_handle E
      ((((((Run.mk state [] [] none none).call E .libcnotify_stream_set).2.call E
        (.libcnotify_verbose_set 1)).2.call_error E ToolCall.libclocale_initialize).2.call_error E
          ToolCall.luksdetools_output_initialize).2.print
          [.write .stderr "Unable to initialize output settings.\n"]) rfl
    refine ⟨h1, ?_, h3⟩
    rw [h2]
    simp [Run.print, Run.call, Run.call_error]

/-- C14: when every result of the option parser is one of the valid options
`k`, `o`, `p`, `v` (so neither `-h` nor `-V`) and no argument is left after
the options (`optind == argc`), `main` returns `EXIT_FAILURE`, makes no call
but those of its start and has no info handle: no info handle is
initialised, nothing is opened.  When the option loop is reached (the two
initialisations of the start returned 1), `main` has printed, after the
version banner, "Missing source file or device." to standard error (and
nothing else there) and the usage text, all nine pieces of it as
`usage_fprint` writes them, to standard output, and the calls made are
exactly the four of the start of `main`. -/
theorem missing_source_is_usage_error {σ : Type} (E : ToolEngine σ) (state : σ)
    (cl : CommandLine)
    (hoptions : ∀ g ∈ cl.getopt, g.option ∈ plain_options)
    (hsource : cl.optind = cl.argv.length) :
    (main E state cl).exit_status = EXIT_FAILURE
    ∧ (∀ c ∈ (main E state cl).final.trace.map Prod.fst,
        c ∈ [.libcnotify_stream_set, .libcnotify_verbose_set 1,
             ToolCall.libclocale_initialize, ToolCall.luksdetools_output_initialize])
    ∧ (main E state cl).final.luksdeinfo_info_handle = none
    ∧ (∀ r : Run σ, main_startup E state = .goes_on () r →
        (main E state cl).final.output
          = [.version .stdout "luksdeinfo",
             .write .stderr "Missing source file or device.\n",
             .write .stdout
               "Use luksdeinfo to determine information about a Linux Unified\nKey Setup (LUKS) volume\n\n",
             .write .stdout
               "Usage: luksdeinfo [ -k keys ] [ -o offset ] [ -p password ]\n                  [ -hvV ] source\n\n",
             .write .stdout "\tsource: the source file or device\n\n",
             .write .stdout "\t-h:     shows this help\n",
             .write .stdout "\t-k:     the master key, formatted in base16\n",
             .write .stdout "\t-o:     specify the volume offset\n",
             .write .stdout "\t-p:     specify the password/passphrase\n",
             .write .stdout "\t-v:     verbose output to stderr\n",
             .write .stdout "\t-V:     print version\n"]
        ∧ stderr_of (main E state cl).final.output
            = [.write .stderr "Missing source file or device.\n"]
        ∧ (main E state cl).final.trace.map Prod.fst
            = [.libcnotify_stream_set, .libcnotify_verbose_set 1,
               ToolCall.libclocale_initialize, ToolCall.luksdetools_output_initialize]) := by
  have hloop : ∀ r : Run σ, main_options cl.argv cl.getopt Options.initial r
      = main_options cl.argv [] (options_after cl.getopt Options.initial) r := by
    intro r
    have h := main_options_plain cl.argv cl.getopt [] Options.initial r hoptions
    rwa [List.append_nil] at h
  cases hstart : main_startup E state with
  | returned result =>
    obtain ⟨h1, h2, h3⟩ := main_startup_returned E state result hstart
    refine ⟨?_, ?_, ?_, ?_⟩
    · simpa [main, hstart] using h1
    · simpa [main, hstart] using h2
    · simpa [main, hstart] using h3
    · intro r hr
      cases hr
  | goes_on u r =>
    obtain ⟨h1, h2, h3⟩ := main_startup_goes_on E state r hstart
    refine ⟨?_, ?_, ?_, ?_⟩
    · simp [main, hstart, hloop, main_options, main_after_options, hsource]
    · simp [main, hstart, hloop, main_options, main_after_options, hsource, Run.print, h2]
    · simp [main, hstart, hloop, main_options, main_after_options, hsource, Run.print, h3]
    · intro r2 hr
      cases hr
      simp [main, hstart, hloop, main_options, main_after_options, hsource, Run.print, h1, h2,
        usage_fprint, stderr_of, Output.stream]

/-- Witness of C14: `luksdeinfo -v`, with what it prints. -/
theorem missing_source_is_usage_error_witness :
    main_startup (tableEngine all_succeed) () = .goes_on () started
    ∧ (main (tableEngine all_succeed) ()
        { argv := ["luksdeinfo", "-v"],
          getopt := [{ option := 'v', optarg := none, optind := 2 }],
          optind := 2 }).exit_status = EXIT_FAILURE
    ∧ (main (tableEngine all_succeed) ()
        { argv := ["luksdeinfo", "-v"],
          getopt := [{ option := 'v', optarg := none, optind := 2 }],
          optind := 2 }).final.output
        = [.version .stdout "luksdeinfo",
           .write .stderr "Missing source file or device.\n",
           .write .stdout
             "Use luksdeinfo to determine information about a Linux Unified\nKey Setup (LUKS) volume\n\n",
           .write .stdout
             "Usage: luksdeinfo [ -k keys ] [ -o offset ] [ -p password ]\n                  [ -hvV ] source\n\n",
           .write .stdout "\tsource: the source file or device\n\n",
           .write .stdout "\t-h:     shows this help\n",
           .write .stdout "\t-k:     the master key, formatted in base16\n",
           .write .stdout "\t-o:     specify the volume offset\n",
           .write .stdout "\t-p:     specify the password/passphrase\n",
           .write .stdout "\t-v:     verbose output to stderr\n",
           .write .stdout "\t-V:     print version\n"]
    ∧ (main (tableEngine all_succeed) ()
        { argv := ["luksdeinfo", "-v"],
          getopt := [{ option := 'v', optarg := none, optind := 2 }],
          optind := 2 }).final.luksdeinfo_info_handle = none :=
  ⟨rfl,
   (missing_source_is_usage_error (tableEngine all_succeed) ()
      { argv := ["luksdeinfo", "-v"],
        getopt := [{ option := 'v', optarg := none, optind := 2 }],
        optind := 2 } (by decide) (by decide)).1,
   ((missing_source_is_usage_error (tableEngine all_succeed) ()
      { argv := ["luksdeinfo", "-v"],
        getopt := [{ option := 'v', optarg := none, optind := 2 }],
        optind := 2 } (by decide) (by decide)).2.2.2 started rfl).1,
   (missing_source_is_usage_error (tableEngine all_succeed) ()
      { argv := ["luksdeinfo", "-v"],
        getopt := [{ option := 'v', optarg := none, optind := 2 }],
        optind := 2 } (by decide) (by decide)).2.2.1⟩

/-- C16: when the option loop is reached and the option parser returns `h`
after results that are all `k`, `o`, `p` or `v` (so before any `V` or
invalid option), `main` returns `EXIT_SUCCESS` having printed, after the
version banner, the usage text, all nine pieces of it as `usage_fprint`
writes them, to standard output and nothing to standard error, whatever
results and arguments follow and whether or not a source is given; the only
calls made are the four of the start of `main`: no info handle is
initialised, nothing is opened. -/
theorem help_prints_usage {σ : Type} (E : ToolEngine σ) (state : σ) (cl : CommandLine)
    (r : Run σ) (pre rest : List GetoptResult) (g : GetoptResult)
    (hstart : main_startup E state = .goes_on () r)
    (hgetopt : cl.getopt = pre ++ g :: rest)
    (hpre : ∀ g ∈ pre, g.option ∈ plain_options) (hg : g.option = 'h') :
    (main E state cl).exit_status = EXIT_SUCCESS
    ∧ (main E state cl).final.output
        = [.version .stdout "luksdeinfo",
           .write .stdout
             "Use luksdeinfo to determine information about a Linux Unified\nKey Setup (LUKS) volume\n\n",
           .write .stdout
             "Usage: luksdeinfo [ -k keys ] [ -o offset ] [ -p password ]\n                  [ -hvV ] source\n\n",
           .write .stdout "\tsource: the source file or device\n\n",
           .write .stdout "\t-h:     shows this help\n",
           .write .stdout "\t-k:     the master key, formatted in base16\n",
           .write .stdout "\t-o:     specify the volume offset\n",
           .write .stdout "\t-p:     specify the password/passphrase\n",
           .write .stdout "\t-v:     verbose output to stderr\n",
           .write .stdout "\t-V:     print version\n"]
    ∧ stderr_of (main E state cl).final.output = []
    ∧ (main E state cl).final.trace.map Prod.fst
        = [.libcnotify_stream_set, .libcnotify_verbose_set 1,
           ToolCall.libclocale_initialize, ToolCall.luksdetools_output_initialize]
    ∧ (main E state cl).final.luksdeinfo_info_handle = none := by
  obtain ⟨h1, h2, h3⟩ := main_startup_goes_on E state r hstart
  have hloop := main_options_plain cl.argv pre (g :: rest) Options.initial r hpre
  rw [← hgetopt] at hloop
  simp [main, hstart, hloop, main_options, hg, Run.print, h1, h2, h3, usage_fprint, stderr_of,
    Output.stream]

/-- Witness of C16: `luksdeinfo -v -h -V image.raw`, with what it prints. -/
theorem help_prints_usage_witness :
    main_startup (tableEngine all_succeed) () = .goes_on () started
    ∧ (main (tableEngine all_succeed) ()
        { argv := ["luksdeinfo", "-v", "-h", "-V", "image.raw"],
          getopt := [{ option := 'v', optarg := none, optind := 2 },
                     { option := 'h', optarg := none, optind := 3 },
                     { option := 'V', optarg := none, optind := 4 }],
          optind := 4 }).exit_status = EXIT_SUCCESS
    ∧ (main (tableEngine all_succeed) ()
        { argv := ["luksdeinfo", "-v", "-h", "-V", "image.raw"],
          getopt := [{ option := 'v', optarg := none, optind := 2 },
                     { option := 'h', optarg := none, optind := 3 },
                     { option := 'V', optarg := none, optind := 4 }],
          optind := 4 }).final.output
        = [.version .stdout "luksdeinfo",
           .write .stdout
             "Use luksdeinfo to determine information about a Linux Unified\nKey Setup (LUKS) volume\n\n",
           .write .stdout
             "Usage: luksdeinfo [ -k keys ] [ -o offset ] [ -p password ]\n                  [ -hvV ] source\n\n",
           .write .stdout "\tsource: the source file or device\n\n",
           .write .stdout "\t-h:     shows this help\n",
           .write .stdout "\t-k:     the master key, formatted in base16\n",
           .write .stdout "\t-o:     specify the volume offset\n",
           .write .stdout "\t-p:     specify the password/passphrase\n",
           .write .stdout "\t-v:     verbose output to stderr\n",
           .write .stdout "\t-V:     print version\n"] :=
  ⟨rfl,
   (help_prints_usage (tableEngine all_succeed) ()
      { argv := ["luksdeinfo", "-v", "-h", "-V", "image.raw"],
        getopt := [{ option := 'v', optarg := none, optind := 2 },
                   { option := 'h', optarg := none, optind := 3 },
                   { option := 'V', optarg := none, optind := 4 }],
        optind := 4 } started
      [{ option := 'v', optarg := none, optind := 2 }]
      [{ option := 'V', optarg := none, optind := 4 }]
      { option := 'h', optarg := none, optind := 3 } rfl rfl (by decide) rfl).1,
   (help_prints_usage (tableEngine all_succeed) ()
      { argv := ["luksdeinfo", "-v", "-h", "-V", "image.raw"],
        getopt := [{ option := 'v', optarg := none, optind := 2 },
                   { option := 'h', optarg := none, optind := 3 },
                   { option := 'V', optarg := none, optind := 4 }],
        optind := 4 } started
      [{ option := 'v', optarg := none, optind := 2 }]
      [{ option := 'V', optarg := none, optind := 4 }]
      { option := 'h', optarg := none, optind := 3 } rfl rfl (by decide) rfl).2.1⟩

/-- C17: when the option loop is reached and the option parser returns `V`
after results that are all `k`, `o`, `p` or `v` (so before any `h` or
invalid option), `main` returns `EXIT_SUCCESS` having printed the version
banner (printed before the option loop) and the copyright text to standard
output, whether or not a source is given; the only calls made are the four
of the start of `main`: no info handle is initialised, nothing is opened. -/
theorem version_option_prints_version {σ : Type} (E : ToolEngine σ) (state : σ)
    (cl : CommandLine) (r : Run σ) (pre rest : List GetoptResult) (g : GetoptResult)
    (hstart : main_startup E state = .goes_on () r)
    (hgetopt : cl.getopt = pre ++ g :: rest)
    (hpre : ∀ g ∈ pre, g.option ∈ plain_options) (hg : g.option = 'V') :
    (main E state cl).exit_status = EXIT_SUCCESS
    ∧ (main E state cl).final.output
        = [.version .stdout "luksdeinfo", .copyright .stdout]
    ∧ (main E state cl).final.trace.map Prod.fst
        = [.libcnotify_stream_set, .libcnotify_verbose_set 1,
           ToolCall.libclocale_initialize, ToolCall.luksdetools_output_initialize]
    ∧ (main E state cl).final.luksdeinfo_info_handle = none := by
  obtain ⟨h1, h2, h3⟩ := main_startup_goes_on E state r hstart
  have hloop := main_options_plain cl.argv pre (g :: rest) Options.initial r hpre
  rw [← hgetopt] at hloop
  simp [main, hstart, hloop, main_options, hg, Run.print, h1, h2, h3]

/-- Witness of C17: `luksdeinfo -V`. -/
theorem version_option_prints_version_witness :
    main_startup (tableEngine all_succeed) () = .goes_on () started
    ∧ (main (tableEngine all_succeed) ()
        { argv := ["luksdeinfo", "-V"],
          getopt := [{ option := 'V', optarg := none, optind := 2 }],
          optind := 2 }).exit_status = EXIT_SUCCESS
    ∧ (main (tableEngine all_succeed) ()
        { argv := ["luksdeinfo", "-V"],
          getopt := [{ option := 'V', optarg := none, optind := 2 }],
          optind := 2 }).final.output
        = [.version .stdout "luksdeinfo", .copyright .stdout] :=
  ⟨rfl,
   (version_option_prints_version (tableEngine all_succeed) ()
      { argv := ["luksdeinfo", "-V"],
        getopt := [{ option := 'V', optarg := none, optind := 2 }],
        optind := 2 } started [] [] { option := 'V', optarg := none, optind := 2 }
      rfl rfl (by decide) rfl).1,
   (version_option_prints_version (tableEngine all_succeed) ()
      { argv := ["luksdeinfo", "-V"],
        getopt := [{ option := 'V', optarg := none, optind := 2 }],
        optind := 2 } started [] [] { option := 'V', optarg := none, optind := 2 }
      rfl rfl (by decide) rfl).2.1⟩

/-- C18: the options string given to the option parser declares exactly the
options `h`, `k`, `o`, `p`, `v`, `V`, of which exactly `k`, `o` and `p` take
an argument; the usage text documents exactly these six; the switch of
`main` handles each of the six (`k`, `o`, `p`, `v` set a variable and the
loop goes on, `h` and `V` return `EXIT_SUCCESS`); and when the option loop
is reached and the option parser returns any other character (the `?` it
gives for an option letter that is not declared, or the letter itself)
after results that are all `k`, `o`, `p` or `v`, `main` prints "Invalid
argument: " with `argv[ optind - 1 ]` to standard error and the usage text
to standard output and returns `EXIT_FAILURE`, having made only the four
calls of its start: the source is not opened. -/
theorem option_letters {σ : Type} (E : ToolEngine σ) (state : σ) (cl : CommandLine)
    (r : Run σ) (pre rest : List GetoptResult) (g : GetoptResult)
    (hstart : main_startup E state = .goes_on () r)
    (hgetopt : cl.getopt = pre ++ g :: rest)
    (hpre : ∀ g ∈ pre, g.option ∈ plain_options) (hg : g.option ∉ handled_options) :
    optstring_options options_string.toList
        = [('h', false), ('k', true), ('o', true), ('p', true), ('v', false), ('V', false)]
    ∧ (usage_fprint (some .stdout)).filterMap documented_option = handled_options
    ∧ (∀ (argv : List String) (g2 : GetoptResult) (rest2 : List GetoptResult)
        (options : Options) (r2 : Run σ), g2.option ∈ handled_options →
        (g2.option ∈ plain_options
          ∧ main_options argv (g2 :: rest2) options r2
            = main_options argv rest2 (options_after [g2] options) r2)
        ∨ ((g2.option = 'h' ∨ g2.option = 'V')
          ∧ ∃ result, main_options argv (g2 :: rest2) options r2 = .returned result
            ∧ result.exit_status = EXIT_SUCCESS))
    ∧ (main E state cl).exit_status = EXIT_FAILURE
    ∧ (main E state cl).final.output
        = [.version .stdout "luksdeinfo",
           .write .stderr ("Invalid argument: " ++ cl.argv.getD (g.optind - 1) "" ++ "\n")]
          ++ usage_fprint (some .stdout)
    ∧ (main E state cl).final.trace.map Prod.fst
        = [.libcnotify_stream_set, .libcnotify_verbose_set 1,
           ToolCall.libclocale_initialize, ToolCall.luksdetools_output_initialize]
    ∧ (main E state cl).final.luksdeinfo_info_handle = none := by
  obtain ⟨h1, h2, h3⟩ := main_startup_goes_on E state r hstart
  have hloop := main_options_plain cl.argv pre (g :: rest) Options.initial r hpre
  rw [← hgetopt] at hloop
  simp only [handled_options, List.mem_cons, List.mem_singleton, List.not_mem_nil, or_false,
    not_or] at hg
  obtain ⟨n1, n2, n3, n4, n5, n6⟩ := hg
  refine ⟨by decide, by decide, ?_, ?_⟩
  · intro argv g2 rest2 options r2 hmem
    simp only [handled_options, List.mem_cons, List.mem_singleton, List.not_mem_nil,
      or_false] at hmem
    rcases hmem with h | h | h | h | h | h
    · exact Or.inr ⟨Or.inl h, MainResult.mk EXIT_SUCCESS (r2.print (usage_fprint (some .stdout))),
        by simp [main_options, h], rfl⟩
    · exact Or.inl ⟨by simp [plain_options, h], by simp [main_options, options_after, h]⟩
    · exact Or.inl ⟨by simp [plain_options, h], by simp [main_options, options_after, h]⟩
    · exact Or.inl ⟨by simp [plain_options, h], by simp [main_options, options_after, h]⟩
    · exact Or.inl ⟨by simp [plain_options, h], by simp [main_options, options_after, h]⟩
    · exact Or.inr ⟨Or.inr h, MainResult.mk EXIT_SUCCESS (r2.print [.copyright .stdout]),
        by simp [main_options, h], rfl⟩
  · simp [main, hstart, hloop, main_options, n1, n2, n3, n4, n5, n6, Run.print, h1, h2, h3]

/-- Witness of C18: `luksdeinfo -x image.raw`, for which the option parser
returns `?`. -/
theorem option_letters_witness :
    main_startup (tableEngine all_succeed) () = .goes_on () started
    ∧ (main (tableEngine all_succeed) ()
        { argv := ["luksdeinfo", "-x", "image.raw"],
          getopt := [{ option := '?', optarg := none, optind := 2 }],
          optind := 2 }).exit_status = EXIT_FAILURE
    ∧ (main (tableEngine all_succeed) ()
        { argv := ["luksdeinfo", "-x", "image.raw"],
          getopt := [{ option := '?', optarg := none, optind := 2 }],
          optind := 2 }).final.output
        = [.version .stdout "luksdeinfo", .write .stderr "Invalid argument: -x\n"]
          ++ usage_fprint (some .stdout) :=
  ⟨rfl,
   (option_letters (tableEngine all_succeed) ()
      { argv := ["luksdeinfo", "-x", "image.raw"],
        getopt := [{ option := '?', optarg := none, optind := 2 }],
        optind := 2 } started [] [] { option := '?', optarg := none, optind := 2 }
      rfl rfl (by decide) (by decide)).2.2.2.1,
   (option_letters (tableEngine all_succeed) ()
      { argv := ["luksdeinfo", "-x", "image.raw"],
        getopt := [{ option := '?', optarg := none, optind := 2 }],
        optind := 2 } started [] [] { option := '?', optarg := none, optind := 2 }
      rfl rfl (by decide) (by decide)).2.2.2.2.1⟩

/-- The run after the three calls that pass `verbose` on: three more log
entries, nothing printed, `error` and the info handle as before. -/
lemma Run.notify_set_fields {σ : Type} (E : ToolEngine σ) (r : Run σ) (verbose : Int) :
    (r.notify_set E verbose).trace.map Prod.fst
        = r.trace.map Prod.fst
          ++ [.libcnotify_verbose_set verbose, .libluksde_notify_set_stream,
              .libluksde_notify_set_verbose verbose]
    ∧ (r.notify_set E verbose).output = r.output
    ∧ (r.notify_set E verbose).error = r.error
    ∧ (r.notify_set E verbose).luksdeinfo_info_handle = r.luksdeinfo_info_handle := by
  simp [Run.notify_set, Run.call]

/-- Past the option loop, with a source given, `main` runs the plan. -/
lemma main_past_options {σ : Type} (E : ToolEngine σ) (state : σ) (cl : CommandLine)
    (r : Run σ) (hstart : main_startup E state = .goes_on () r)
    (hoptions : ∀ g ∈ cl.getopt, g.option ∈ plain_options)
    (hsource : cl.optind ≠ cl.argv.length) :
    main E state cl
      = run_steps E
          (planned_steps (options_after cl.getopt Options.initial)
            (cl.argv.getD cl.optind ""))
          (r.notify_set E (options_after cl.getopt Options.initial).verbose) := by
  have hloop := main_options_plain cl.argv cl.getopt [] Options.initial r hoptions
  rw [List.append_nil] at hloop
  simp only [main, hstart, hloop, main_options, main_after_options, hsource, if_false,
    main_from_initialize_eq_run_steps, Run.notify_set]

/-- The failure tests of the plan: the open step fails on -1, the lock check
on every value but 0. -/
lemma planned_steps_failed (options : Options) (source : String) (s : Step)
    (hs : s ∈ planned_steps options source) :
    (∀ src, s.call = .info_handle_open_input src → s.failed (-1) = true)
    ∧ (s.call = .info_handle_input_is_locked → ∀ result, result ≠ 0 → s.failed result = true)
    := by
  revert s
  obtain ⟨keys, password, offset, verbose⟩ := options
  cases keys <;> cases password <;> cases offset <;> simp [planned_steps]

/-- How `main` ends past the option loop, with a source given: every step of
the plan was made and none failed, or the steps up to the first failing one
were made, its diagnostic and the backtrace of the error object were printed
and the info handle, if there is one, was freed. -/
lemma main_outcome {σ : Type} (E : ToolEngine σ) (state : σ) (cl : CommandLine)
    (r : Run σ) (options : Options) (source : String)
    (hstart : main_startup E state = .goes_on () r)
    (hoptions : ∀ g ∈ cl.getopt, g.option ∈ plain_options)
    (hsource : cl.optind ≠ cl.argv.length)
    (hopt : options = options_after cl.getopt Options.initial)
    (hsrc : source = cl.argv.getD cl.optind "") :
    (∃ log : List (Step × ToolResponse), log.map Prod.fst = planned_steps options source
      ∧ (∀ p ∈ log, p.1.failed p.2.result = false)
      ∧ (main E state cl).exit_status = EXIT_SUCCESS
      ∧ (main E state cl).final.trace = (r.notify_set E options.verbose).trace ++ entries log
      ∧ (main E state cl).final.output = [.version .stdout "luksdeinfo"])
    ∨ (∃ (done : List (Step × ToolResponse)) (p : Step × ToolResponse) (rest : List Step)
        (cleanup : List (ToolCall × ToolResponse)),
      planned_steps options source = done.map Prod.fst ++ p.1 :: rest
      ∧ (∀ q ∈ done, q.1.failed q.2.result = false)
      ∧ p.1.failed p.2.result = true
      ∧ (main E state cl).exit_status = EXIT_FAILURE
      ∧ (main E state cl).final.trace
          = (r.notify_set E options.verbose).trace ++ entries (done ++ [p]) ++ cleanup
      ∧ (main E state cl).final.output
          = [.version .stdout "luksdeinfo", .write .stderr p.1.diagnostic]
            ++ backtrace_of (error_after r.error (done ++ [p]))
      ∧ (handle_after none (done ++ [p]) = none → cleanup = [])
      ∧ (handle_after none (done ++ [p]) ≠ none →
          ∃ response, cleanup = [(ToolCall.info_handle_free, response)])) := by
  obtain ⟨h1, -, h3⟩ := main_startup_goes_on E state r hstart
  obtain ⟨-, n2, n3, n4⟩ := Run.notify_set_fields E r options.verbose
  have hmain := main_past_options E state cl r hstart hoptions hsource
  rw [← hopt, ← hsrc] at hmain
  rw [hmain]
  have h := run_steps_outcome E (planned_steps options source) (r.notify_set E options.verbose)
  rw [n2, n3, n4, h1, h3] at h
  simpa using h

/-- The calls logged before the plan is run are none of the plan's. -/
lemma prelude_calls {σ : Type} (E : ToolEngine σ) (state : σ) (r : Run σ) (verbose : Int)
    (hstart : main_startup E state = .goes_on () r) (c : ToolCall) (response : ToolResponse)
    (h : (c, response) ∈ (r.notify_set E verbose).trace) :
    c ∈ [.libcnotify_stream_set, .libcnotify_verbose_set 1,
         ToolCall.libclocale_initialize, ToolCall.luksdetools_output_initialize,
         .libcnotify_verbose_set verbose, .libluksde_notify_set_stream,
         .libluksde_notify_set_verbose verbose] := by
  obtain ⟨-, h2, -⟩ := main_startup_goes_on E state r hstart
  obtain ⟨n1, -, -, -⟩ := Run.notify_set_fields E r verbose
  have hc : c ∈ (r.notify_set E verbose).trace.map Prod.fst :=
    List.mem_map.mpr ⟨(c, response), h, rfl⟩
  rw [n1, h2] at hc
  simpa using hc

/-- After a run that ends in `EXIT_SUCCESS` every step of the plan is in the
log with a response that is not its failure. -/
lemma main_success_steps {σ : Type} (E : ToolEngine σ) (state : σ) (cl : CommandLine)
    (r : Run σ) (options : Options) (source : String)
    (hstart : main_startup E state = .goes_on () r)
    (hoptions : ∀ g ∈ cl.getopt, g.option ∈ plain_options)
    (hsource : cl.optind ≠ cl.argv.length)
    (hopt : options = options_after cl.getopt Options.initial)
    (hsrc : source = cl.argv.getD cl.optind "")
    (hexit : (main E state cl).exit_status = EXIT_SUCCESS) :
    ∀ s ∈ planned_steps options source,
      ∃ response, (s.call, response) ∈ (main E state cl).final.trace
        ∧ s.failed response.result = false := by
  rcases main_outcome E state cl r options source hstart hoptions hsource hopt hsrc with
    ⟨log, h1, h2, -, h4, -⟩ | ⟨-, -, -, -, -, -, -, h4, -⟩
  · intro s hs
    rw [← h1] at hs
    obtain ⟨p, hp, rfl⟩ := List.mem_map.mp hs
    refine ⟨p.2, ?_, h2 p hp⟩
    rw [h4]
    exact List.mem_append_right _ (List.mem_map.mpr ⟨p, hp, rfl⟩)
  · rw [hexit] at h4
    cases h4

/-- A step of the plan that is in the log with a response that is its
failure makes `main` return `EXIT_FAILURE`, when the plan has no other step
with the same call that this response would not fail. -/
lemma main_failure_of_logged {σ : Type} (E : ToolEngine σ) (state : σ) (cl : CommandLine)
    (r : Run σ) (options : Options) (source : String)
    (hstart : main_startup E state = .goes_on () r)
    (hoptions : ∀ g ∈ cl.getopt, g.option ∈ plain_options)
    (hsource : cl.optind ≠ cl.argv.length)
    (hopt : options = options_after cl.getopt Options.initial)
    (hsrc : source = cl.argv.getD cl.optind "")
    (c : ToolCall) (response : ToolResponse)
    (hlogged : (c, response) ∈ (main E state cl).final.trace)
    (hprelude : c ∉ [.libcnotify_stream_set, .libcnotify_verbose_set 1,
         ToolCall.libclocale_initialize, ToolCall.luksdetools_output_initialize,
         .libcnotify_verbose_set options.verbose, .libluksde_notify_set_stream,
         .libluksde_notify_set_verbose options.verbose])
    (hfails : ∀ s ∈ planned_steps options source, s.call = c →
      s.failed response.result = true) :
    (main E state cl).exit_status = EXIT_FAILURE := by
  rcases main_outcome E state cl r options source hstart hoptions hsource hopt hsrc with
    ⟨log, h1, h2, -, h4, -⟩ | ⟨-, -, -, -, -, -, -, h4, -⟩
  · exfalso
    rw [h4] at hlogged
    rcases List.mem_append.mp hlogged with h | h
    · exact hprelude (prelude_calls E state r options.verbose hstart c response h)
    · obtain ⟨p, hp, hpe⟩ := List.mem_map.mp h
      have hc : p.1.call = c := congrArg Prod.fst hpe
      have hr : p.2 = response := congrArg Prod.snd hpe
      have hmem : p.1 ∈ planned_steps options source := by
        rw [← h1]
        exact List.mem_map.mpr ⟨p, hp, rfl⟩
      have := hfails p.1 hmem hc
      rw [← hr, h2 p hp] at this
      cases this
  · exact h4

/-- The variable `error` stays `NULL` over steps that store no error
object. -/
lemma error_after_of_none (log : List (Step × ToolResponse))
    (h : ∀ q ∈ log, q.2.error = none) : error_after none log = none := by
  induction log with
  | nil => rfl
  | cons q log ih =>
    have hq : q.2.error = none := h q (List.mem_cons_self _ _)
    have hl : ∀ x ∈ log, x.2.error = none := fun x hx => h x (List.mem_cons_of_mem _ hx)
    simpa [error_after, hq] using ih hl

/-- After steps that store no error object, `error` is what the last step
stored. -/
lemma error_after_append_last (done : List (Step × ToolResponse)) (p : Step × ToolResponse)
    (h : ∀ q ∈ done, q.2.error = none) : error_after none (done ++ [p]) = p.2.error := by
  have hd := error_after_of_none done h
  simp only [error_after] at hd
  simp [error_after, List.foldl_append, hd]

/-- What of the output of a failed run goes to standard error. -/
lemma stderr_of_failure_output (diagnostic : String) (error : Option Pyluksde.EngineError) :
    stderr_of ([.version .stdout "luksdeinfo", .write .stderr diagnostic] ++ backtrace_of error)
      = [.write .stderr diagnostic] ++ backtrace_of error := by
  cases error <;> simp [stderr_of, backtrace_of, Output.stream]

/-- C12: for every run of `main` that gets past option parsing with a source
argument (the option loop is reached, the option parser's results are all
`k`, `o`, `p` or `v`, and `optind` is not `argc`): if
`info_handle_open_input` returns -1, or `info_handle_input_is_locked`
returns a value other than 0, `main` returns `EXIT_FAILURE`, which is not 0;
`main` returns `EXIT_SUCCESS` or `EXIT_FAILURE`, and `EXIT_SUCCESS` only when
the handle was initialised (1), each of `set_keys`, `set_password`,
`set_volume_offset` that was asked for returned 1, the open did not return
-1, printing returned 1, the lock check 0, the close 0 and the free 1. -/
theorem exit_status_after_options {σ : Type} (E : ToolEngine σ) (state : σ)
    (cl : CommandLine) (r : Run σ) (options : Options) (source : String)
    (hstart : main_startup E state = .goes_on () r)
    (hoptions : ∀ g ∈ cl.getopt, g.option ∈ plain_options)
    (hsource : cl.optind ≠ cl.argv.length)
    (hopt : options = options_after cl.getopt Options.initial)
    (hsrc : source = cl.argv.getD cl.optind "") :
    (∀ src response, (ToolCall.info_handle_open_input src, response)
        ∈ (main E state cl).final.trace →
      response.result = -1 → (main E state cl).exit_status = EXIT_FAILURE)
    ∧ (∀ response, (ToolCall.info_handle_input_is_locked, response)
        ∈ (main E state cl).final.trace →
      response.result ≠ 0 → (main E state cl).exit_status = EXIT_FAILURE)
    ∧ EXIT_FAILURE ≠ 0
    ∧ ((main E state cl).exit_status = EXIT_SUCCESS
      ∨ (main E state cl).exit_status = EXIT_FAILURE)
    ∧ ((main E state cl).exit_status = EXIT_SUCCESS →
      (∃ response, ( ToolCall.info_handle_initialize, response) ∈ (main E state cl).final.trace
        ∧ response.result = 1)
      ∧ (∀ keys, options.option_keys = some keys →
        ∃ response, (ToolCall.info_handle_set_keys keys, response)
          ∈ (main E state cl).final.trace ∧ response.result = 1)
      ∧ (∀ password, options.option_password = some password →
        ∃ response, (ToolCall.info_handle_set_password password, response)
          ∈ (main E state cl).final.trace ∧ response.result = 1)
      ∧ (∀ offset, options.option_volume_offset = some offset →
        ∃ response, (ToolCall.info_handle_set_volume_offset offset, response)
          ∈ (main E state cl).final.trace ∧ response.result = 1)
      ∧ (∃ response, (ToolCall.info_handle_open_input source, response)
          ∈ (main E state cl).final.trace ∧ response.result ≠ -1)
      ∧ (∃ response, (ToolCall.info_handle_volume_fprint, response)
          ∈ (main E state cl).final.trace ∧ response.result = 1)
      ∧ (∃ response, (ToolCall.info_handle_input_is_locked, response)
          ∈ (main E state cl).final.trace ∧ response.result = 0)
      ∧ (∃ response, (ToolCall.info_handle_close_input, response)
          ∈ (main E state cl).final.trace ∧ response.result = 0)
      ∧ (∃ response, (ToolCall.info_handle_free, response)
          ∈ (main E state cl).final.trace ∧ response.result = 1)) := by
  refine ⟨?_, ?_, by decide, ?_, ?_⟩
  · intro src response hlogged hresult
    refine main_failure_of_logged E state cl r options source hstart hoptions hsource hopt hsrc
      _ response hlogged (by simp) ?_
    intro s hs hc
    rw [hresult]
    exact (planned_steps_failed options source s hs).1 src hc
  · intro response hlogged hresult
    refine main_failure_of_logged E state cl r options source hstart hoptions hsource hopt hsrc
      _ response hlogged (by simp) ?_
    intro s hs hc
    exact (planned_steps_failed options source s hs).2 hc _ hresult
  · rcases main_outcome E state cl r options source hstart hoptions hsource hopt hsrc with
      ⟨-, -, -, h, -⟩ | ⟨-, -, -, -, -, -, -, h, -⟩
    · exact Or.inl h
    · exact Or.inr h
  · intro hexit
    have hsteps := main_success_steps E state cl r options source hstart hoptions hsource
      hopt hsrc hexit
    refine ⟨?_, ?_, ?_, ?_, ?_, ?_, ?_, ?_, ?_⟩
    · obtain ⟨response, hm, hf⟩ := hsteps
        { call := ToolCall.info_handle_initialize, failed := fun result => decide (result ≠ 1),
          diagnostic := "Unable to initialize info handle.\n", stores_handle := true }
        (by simp [planned_steps])
      exact ⟨response, hm, by simpa using hf⟩
    · intro keys hk
      obtain ⟨response, hm, hf⟩ := hsteps
        { call := .info_handle_set_keys keys, failed := fun result => decide (result ≠ 1),
          diagnostic := "Unable to set keys.\n", stores_handle := false }
        (by simp [planned_steps, hk])
      exact ⟨response, hm, by simpa using hf⟩
    · intro password hk
      obtain ⟨response, hm, hf⟩ := hsteps
        { call := .info_handle_set_password password,
          failed := fun result => decide (result ≠ 1),
          diagnostic := "Unable to set password.\n", stores_handle := false }
        (by simp [planned_steps, hk])
      exact ⟨response, hm, by simpa using hf⟩
    · intro offset hk
      obtain ⟨response, hm, hf⟩ := hsteps
        { call := .info_handle_set_volume_offset offset,
          failed := fun result => decide (result ≠ 1),
          diagnostic := "Unable to set volume offset.\n", stores_handle := false }
        (by simp [planned_steps, hk])
      exact ⟨response, hm, by simpa using hf⟩
    · obtain ⟨response, hm, hf⟩ := hsteps
        { call := .info_handle_open_input source, failed := fun result => decide (result = -1),
          diagnostic := "Unable to open: " ++ source ++ ".\n", stores_handle := false }
        (by simp [planned_steps])
      exact ⟨response, hm, by simpa using hf⟩
    · obtain ⟨response, hm, hf⟩ := hsteps
        { call := .info_handle_volume_fprint, failed := fun result => decide (result ≠ 1),
          diagnostic := "Unable to print volume information.\n", stores_handle := false }
        (by simp [planned_steps])
      exact ⟨response, hm, by simpa using hf⟩
    · obtain ⟨response, hm, hf⟩ := hsteps
        { call := .info_handle_input_is_locked, failed := fun result => decide (result ≠ 0),
          diagnostic := "Unable to unlock volume.\n", stores_handle := false }
        (by simp [planned_steps])
      exact ⟨response, hm, by simpa using hf⟩
    · obtain ⟨response, hm, hf⟩ := hsteps
        { call := .info_handle_close_input, failed := fun result => decide (result ≠ 0),
          diagnostic := "Unable to close info handle.\n", stores_handle := false }
        (by simp [planned_steps])
      exact ⟨response, hm, by simpa using hf⟩
    · obtain ⟨response, hm, hf⟩ := hsteps
        { call := .info_handle_free, failed := fun result => decide (result ≠ 1),
          diagnostic := "Unable to free info handle.\n", stores_handle := true }
        (by simp [planned_steps])
      exact ⟨response, hm, by simpa using hf⟩

/-- Witness of C12: `luksdeinfo image.raw` when the volume stays locked
returns `EXIT_FAILURE`. -/
theorem exit_status_after_options_witness :
    main_startup (tableEngine stays_locked) () = .goes_on () started
    ∧ (∀ g ∈ cl_image.getopt, g.option ∈ plain_options)
    ∧ cl_image.optind ≠ cl_image.argv.length
    ∧ (ToolCall.info_handle_input_is_locked, stays_locked .info_handle_input_is_locked)
        ∈ (main (tableEngine stays_locked) () cl_image).final.trace
    ∧ (main (tableEngine stays_locked) () cl_image).exit_status = EXIT_FAILURE :=
  ⟨rfl, by decide, by decide, by decide,
   (exit_status_after_options (tableEngine stays_locked) () cl_image started Options.initial
      "image.raw" rfl (by decide) (by decide) rfl rfl).2.1
      (stays_locked .info_handle_input_is_locked) (by decide) (by decide)⟩

/-- The variable `error` after a step and further steps. -/
lemma error_after_cons (error : Option Pyluksde.EngineError) (q : Step × ToolResponse)
    (log : List (Step × ToolResponse)) :
    error_after error (q :: log) = error_after (error_after error [q]) log := rfl

/-- The variable `error` is `NULL` after the steps of a log exactly when it
was `NULL` before and no step stored an error object. -/
lemma error_after_eq_none_iff (error : Option Pyluksde.EngineError)
    (log : List (Step × ToolResponse)) :
    error_after error log = none ↔ error = none ∧ ∀ q ∈ log, q.2.error = none := by
  induction log generalizing error with
  | nil => simp [error_after]
  | cons q log ih =>
    rw [error_after_cons, ih]
    cases error <;> simp [error_after]

/-- The error object the variable `error` holds after the steps of a log was
there before or was stored by one of the steps. -/
lemma error_after_eq_some (error : Option Pyluksde.EngineError)
    (log : List (Step × ToolResponse)) (e : Pyluksde.EngineError)
    (h : error_after error log = some e) :
    error = some e ∨ ∃ q ∈ log, q.2.error = some e := by
  induction log generalizing error with
  | nil => left; simpa [error_after] using h
  | cons q log ih =>
    rw [error_after_cons] at h
    rcases ih _ h with h3 | ⟨x, hx, hxe⟩
    · cases error with
      | none => exact Or.inr ⟨q, List.mem_cons_self _ _, by simpa [error_after] using h3⟩
      | some e2 => exact Or.inl (by simpa [error_after] using h3)
    · exact Or.inr ⟨x, List.mem_cons_of_mem _ hx, hxe⟩

/-- The log determines the steps made and the one that failed: two ways of
reading a log as steps of the plan that did not fail, followed by one that
did, are the same. -/
lemma first_failure_unique (done : List (Step × ToolResponse)) :
    ∀ (plan : List Step) (log : List (ToolCall × ToolResponse))
      (done2 : List (Step × ToolResponse)) (p p2 : Step × ToolResponse)
      (rest rest2 : List Step) (cleanup cleanup2 : List (ToolCall × ToolResponse)),
      plan = done.map Prod.fst ++ p.1 :: rest →
      (∀ q ∈ done, q.1.failed q.2.result = false) →
      p.1.failed p.2.result = true →
      log = entries (done ++ [p]) ++ cleanup →
      plan = done2.map Prod.fst ++ p2.1 :: rest2 →
      (∀ q ∈ done2, q.1.failed q.2.result = false) →
      p2.1.failed p2.2.result = true →
      log = entries (done2 ++ [p2]) ++ cleanup2 →
      done2 = done ∧ p2 = p := by
  induction done with
  | nil =>
    intro plan log done2 p p2 rest rest2 cleanup cleanup2 h1 _ h3 h4 h5 h6 h7 h8
    cases done2 with
    | nil =>
      rw [h1] at h5
      rw [h4] at h8
      simp only [List.map_nil, List.nil_append, List.cons.injEq, entries, List.map_cons,
        List.singleton_append, Prod.mk.injEq] at h5 h8
      exact ⟨rfl, Prod.ext h5.1.symm h8.1.2.symm⟩
    | cons q done2 =>
      exfalso
      rw [h1] at h5
      rw [h4] at h8
      simp only [List.map_nil, List.nil_append, List.cons.injEq, entries, List.map_cons,
        List.cons_append, Prod.mk.injEq] at h5 h8
      have hq := h6 q (List.mem_cons_self _ _)
      rw [← h5.1, ← h8.1.2, h3] at hq
      cases hq
  | cons d done ih =>
    intro plan log done2 p p2 rest rest2 cleanup cleanup2 h1 h2 h3 h4 h5 h6 h7 h8
    cases done2 with
    | nil =>
      exfalso
      rw [h1] at h5
      rw [h4] at h8
      simp only [List.map_nil, List.nil_append, List.cons.injEq, entries, List.map_cons,
        List.cons_append, Prod.mk.injEq] at h5 h8
      have hd := h2 d (List.mem_cons_self _ _)
      rw [h5.1, h8.1.2, h7] at hd
      cases hd
    | cons q done2 =>
      rw [h1] at h5
      rw [h4] at h8
      simp only [List.cons.injEq, entries, List.map_cons, List.cons_append,
        Prod.mk.injEq] at h5 h8
      have hq : q = d := Prod.ext h5.1.symm h8.1.2.symm
      obtain ⟨hd, hp⟩ := ih (done.map Prod.fst ++ p.1 :: rest)
        (entries (done ++ [p]) ++ cleanup) done2 p p2 rest rest2 cleanup cleanup2 rfl
        (fun x hx => h2 x (List.mem_cons_of_mem _ hx)) h3 rfl h5.2
        (fun x hx => h6 x (List.mem_cons_of_mem _ hx)) h7 (by simpa [entries] using h8.2)
      exact ⟨by rw [hq, hd], hp⟩

/-- The run where the start of `main` leaves off: the log holds the four
calls with their responses, and the variable `error` what the two calls that
are given its address stored, the first one first. -/
lemma main_startup_run {σ : Type} (E : ToolEngine σ) (state : σ) (r : Run σ)
    (h : main_startup E state = .goes_on () r) :
    ∃ a b c d : ToolResponse,
      r.trace = [(.libcnotify_stream_set, a), (.libcnotify_verbose_set 1, b),
                 ( ToolCall.libclocale_initialize, c),
                 ( ToolCall.luksdetools_output_initialize, d)]
      ∧ (c.error = none → r.error = d.error)
      ∧ (∀ e, c.error = some e → r.error = some e) := by
  simp only [main_startup] at h
  split_ifs at h
  cases h
  refine ⟨_, _, _, _, rfl, ?_, ?_⟩
  · intro hc
    simp only [Run.print, Run.call, Run.call_error] at hc ⊢
    simp [hc]
  · intro e hc
    simp only [Run.print, Run.call, Run.call_error] at hc ⊢
    simp [hc]

/-- The variable `error` where the start of `main` leaves off is `NULL`
exactly when neither call that is given its address stored an error object,
and an error object it holds was stored by a call in the log. -/
lemma main_startup_error {σ : Type} (E : ToolEngine σ) (state : σ) (r : Run σ)
    (h : main_startup E state = .goes_on () r) :
    (r.error = none ↔ ∀ c response, (c, response) ∈ r.trace →
        c = ToolCall.libclocale_initialize ∨ c = ToolCall.luksdetools_output_initialize →
        response.error = none)
    ∧ (∀ e, r.error = some e → ∃ c response, (c, response) ∈ r.trace
        ∧ response.error = some e) := by
  obtain ⟨a, b, c, d, ht, h1, h2⟩ := main_startup_run E state r h
  rw [ht]
  cases hc : c.error with
  | none =>
    rw [h1 hc]
    constructor
    · constructor
      · intro hd x response hmem hx
        simp only [List.mem_cons, Prod.mk.injEq, List.mem_singleton, List.not_mem_nil,
          or_false] at hmem
        rcases hmem with ⟨rfl, -⟩ | ⟨rfl, -⟩ | ⟨-, rfl⟩ | ⟨-, rfl⟩
        · simp at hx
        · simp at hx
        · exact hc
        · exact hd
      · intro hall
        exact hall _ d (by simp) (Or.inr rfl)
    · intro e he
      exact ⟨ ToolCall.luksdetools_output_initialize, d, by simp, he⟩
  | some e2 =>
    rw [h2 e2 hc]
    constructor
    · constructor
      · intro hd
        cases hd
      · intro hall
        have := hall _ c (by simp) (Or.inl rfl)
        rw [hc] at this
        cases this
    · intro e he
      exact ⟨ ToolCall.libclocale_initialize, c, by simp, by rw [hc, he]⟩

/-- The log after the three calls that pass `verbose` on continues the log
before. -/
lemma Run.notify_set_trace {σ : Type} (E : ToolEngine σ) (r : Run σ) (verbose : Int) :
    r.trace <+: (r.notify_set E verbose).trace := by
  simp [Run.notify_set, Run.call]


/-- The diagnostics of the plan: the open step has "Unable to open: " with
the source, the lock check "Unable to unlock volume.". -/
lemma planned_steps_diagnostic (options : Options) (source : String) (s : Step)
    (hs : s ∈ planned_steps options source) :
    (∀ src, s.call = .info_handle_open_input src →
      s.diagnostic = "Unable to open: " ++ source ++ ".\n")
    ∧ (s.call = .info_handle_input_is_locked → s.diagnostic = "Unable to unlock volume.\n")
    := by
  revert s
  obtain ⟨keys, password, offset, verbose⟩ := options
  cases keys <;> cases password <;> cases offset <;> simp [planned_steps]

/-- A backtrace in the output of the error path is that of the variable
`error`. -/
lemma mem_backtrace_of (error : Option Pyluksde.EngineError) (e : Pyluksde.EngineError)
    (diagnostic : String)
    (h : Output.backtrace e ∈ [Output.write .stderr diagnostic] ++ backtrace_of error) :
    error = some e := by
  cases error <;> simp [backtrace_of] at h
  rw [h]

/-- A call of the plan that is in the log of a failed run with a response
that is its failure is the step that failed, when the steps of the plan with
this call all fail on this response. -/
lemma failing_step_of_logged {σ : Type} (E : ToolEngine σ) (state : σ) (r : Run σ)
    (verbose : Int) (hstart : main_startup E state = .goes_on () r)
    (plan : List Step) (trace : List (ToolCall × ToolResponse))
    (done : List (Step × ToolResponse)) (p : Step × ToolResponse) (rest : List Step)
    (cleanup : List (ToolCall × ToolResponse))
    (h1 : plan = done.map Prod.fst ++ p.1 :: rest)
    (h2 : ∀ q ∈ done, q.1.failed q.2.result = false)
    (h5 : trace = (r.notify_set E verbose).trace ++ entries (done ++ [p]) ++ cleanup)
    (hcleanup : cleanup = [] ∨ ∃ response, cleanup = [(ToolCall.info_handle_free, response)])
    (c : ToolCall) (response : ToolResponse) (hlogged : (c, response) ∈ trace)
    (hprelude : c ∉ [.libcnotify_stream_set, .libcnotify_verbose_set 1,
         ToolCall.libclocale_initialize, ToolCall.luksdetools_output_initialize,
         .libcnotify_verbose_set verbose, .libluksde_notify_set_stream,
         .libluksde_notify_set_verbose verbose])
    (hfree : c ≠ .info_handle_free)
    (hfails : ∀ s ∈ plan, s.call = c → s.failed response.result = true) :
    p.1.call = c ∧ p.2 = response := by
  rw [h5] at hlogged
  rcases List.mem_append.mp hlogged with h | h
  · rcases List.mem_append.mp h with h | h
    · exact absurd (prelude_calls E state r verbose hstart c response h) hprelude
    · simp only [entries, List.map_append, List.map_cons, List.map_nil, List.mem_append,
        List.mem_map, List.mem_singleton, Prod.mk.injEq] at h
      rcases h with ⟨q, hq, hqc, hqr⟩ | ⟨hc, hr⟩
      · exfalso
        have hmem : q.1 ∈ plan := by
          rw [h1]
          exact List.mem_append_left _ (List.mem_map.mpr ⟨q, hq, rfl⟩)
        have := hfails q.1 hmem hqc
        rw [← hqr, h2 q hq] at this
        cases this
      · exact ⟨hc.symm, hr.symm⟩
  · exfalso
    rcases hcleanup with hc | ⟨response2, hc⟩
    · rw [hc] at h
      cases h
    · rw [hc] at h
      simp only [List.mem_singleton, Prod.mk.injEq] at h
      exact hfree h.1

/-- C13, the claim as stated fails: `luksdeinfo image.raw` when
`info_handle_open_input` returns -1 and stores an error object: standard
error gets the diagnostic line and, after it, the backtrace of the error
object, which the error path prints with `libcnotify_print_error_backtrace`. -/
theorem stderr_backtrace_counterexample :
    (main (tableEngine open_fails) () cl_image).exit_status = EXIT_FAILURE
    ∧ stderr_of (main (tableEngine open_fails) () cl_image).final.output
        = [.write .stderr "Unable to open: image.raw.\n", .backtrace .IoError]
    ∧ stderr_of (main (tableEngine open_fails) () cl_image).final.output
        ≠ [.write .stderr "Unable to open: image.raw.\n"] := by
  decide

/-- C13 as amended: on every path of `main` past option parsing on which a
step fails (the open, the lock check, or any other step of the plan), the
log of the run is that of the start of `main`, then the steps made, of which
the last (`p`) is the first that failed, then the freeing of the info handle
if there is one; the log determines these steps and their responses (no
other reading of it as steps made and one that failed exists).  What `main`
writes to standard error is the one diagnostic line of the failing step,
followed by the backtrace of the error object the variable `error` holds, if
it holds one, with or without `-v`.  It is exactly the diagnostic line if
and only if no call that is given the address of `error` stored an error
object (neither of the two at the start of `main`, none of the steps made);
it is the diagnostic line and the backtrace of `e` when the failing call is
the first to store an error object, `e`; and a backtrace printed is that of
an error object a call in the log stored.  When `info_handle_open_input` is
in the log with -1 the failing step is this call and the line is "Unable to
open: " with the source; when `info_handle_input_is_locked` is in the log
with a value other than 0 the failing step is this call and the line is
"Unable to unlock volume.". -/
theorem stderr_on_failure {σ : Type} (E : ToolEngine σ) (state : σ)
    (cl : CommandLine) (r : Run σ) (options : Options) (source : String)
    (hstart : main_startup E state = .goes_on () r)
    (hoptions : ∀ g ∈ cl.getopt, g.option ∈ plain_options)
    (hsource : cl.optind ≠ cl.argv.length)
    (hopt : options = options_after cl.getopt Options.initial)
    (hsrc : source = cl.argv.getD cl.optind "")
    (hfail : (main E state cl).exit_status ≠ EXIT_SUCCESS) :
    ∃ (done : List (Step × ToolResponse)) (p : Step × ToolResponse) (rest : List Step)
        (cleanup : List (ToolCall × ToolResponse)),
      planned_steps options source = done.map Prod.fst ++ p.1 :: rest
      ∧ (∀ q ∈ done, q.1.failed q.2.result = false)
      ∧ p.1.failed p.2.result = true
      ∧ (main E state cl).final.trace
          = (r.notify_set E options.verbose).trace ++ entries (done ++ [p]) ++ cleanup
      ∧ (cleanup = [] ∨ ∃ response, cleanup = [(ToolCall.info_handle_free, response)])
      ∧ (∀ (done2 : List (Step × ToolResponse)) (p2 : Step × ToolResponse) (rest2 : List Step)
          (cleanup2 : List (ToolCall × ToolResponse)),
          planned_steps options source = done2.map Prod.fst ++ p2.1 :: rest2 →
          (∀ q ∈ done2, q.1.failed q.2.result = false) →
          p2.1.failed p2.2.result = true →
          (main E state cl).final.trace
            = (r.notify_set E options.verbose).trace ++ entries (done2 ++ [p2]) ++ cleanup2 →
          done2 = done ∧ p2 = p)
      ∧ stderr_of (main E state cl).final.output
          = [.write .stderr p.1.diagnostic]
            ++ backtrace_of (error_after r.error (done ++ [p]))
      ∧ (stderr_of (main E state cl).final.output = [.write .stderr p.1.diagnostic]
          ↔ r.error = none ∧ ∀ q ∈ done ++ [p], q.2.error = none)
      ∧ (∀ e, r.error = none → (∀ q ∈ done, q.2.error = none) → p.2.error = some e →
          stderr_of (main E state cl).final.output
            = [.write .stderr p.1.diagnostic, .backtrace e])
      ∧ (∀ e, Output.backtrace e ∈ stderr_of (main E state cl).final.output →
          ∃ c response, (c, response) ∈ (main E state cl).final.trace
            ∧ response.error = some e)
      ∧ (r.error = none ↔ ∀ c response, (c, response) ∈ r.trace →
          c = ToolCall.libclocale_initialize ∨ c = ToolCall.luksdetools_output_initialize →
          response.error = none)
      ∧ (∀ response, (ToolCall.info_handle_open_input source, response)
            ∈ (main E state cl).final.trace → response.result = -1 →
          p.1.diagnostic = "Unable to open: " ++ source ++ ".\n" ∧ p.2 = response)
      ∧ (∀ response, (ToolCall.info_handle_input_is_locked, response)
            ∈ (main E state cl).final.trace → response.result ≠ 0 →
          p.1.diagnostic = "Unable to unlock volume.\n" ∧ p.2 = response) := by
  rcases main_outcome E state cl r options source hstart hoptions hsource hopt hsrc with
    ⟨-, -, -, h, -⟩ | ⟨done, p, rest, cleanup, h1, h2, h3, -, h5, h6, h7, h8⟩
  · exact absurd h hfail
  · have hout : stderr_of (main E state cl).final.output
        = [.write .stderr p.1.diagnostic]
          ++ backtrace_of (error_after r.error (done ++ [p])) := by
      rw [h6]
      exact stderr_of_failure_output _ _
    have hcleanup : cleanup = []
        ∨ ∃ response, cleanup = [(ToolCall.info_handle_free, response)] := by
      by_cases hh : handle_after none (done ++ [p]) = none
      · exact Or.inl (h7 hh)
      · exact Or.inr (h8 hh)
    have hp : p.1 ∈ planned_steps options source := by
      rw [h1]
      exact List.mem_append_right _ (List.mem_cons_self _ _)
    refine ⟨done, p, rest, cleanup, h1, h2, h3, h5, hcleanup, ?_, hout, ?_, ?_, ?_,
      (main_startup_error E state r hstart).1, ?_, ?_⟩
    · intro done2 p2 rest2 cleanup2 g1 g2 g3 g4
      rw [h5, List.append_assoc, List.append_assoc] at g4
      exact first_failure_unique done _ _ done2 p p2 rest rest2 cleanup cleanup2 h1 h2 h3 rfl
        g1 g2 g3 (List.append_cancel_left g4)
    · rw [hout, ← error_after_eq_none_iff]
      cases error_after r.error (done ++ [p]) <;> simp [backtrace_of]
    · intro e hr hnone he
      rw [hout, hr, error_after_append_last _ _ hnone, he]
      rfl
    · intro e he
      rw [hout] at he
      rcases error_after_eq_some _ _ _ (mem_backtrace_of _ _ _ he) with hr | ⟨q, hq, hqe⟩
      · obtain ⟨c, response, hmem, herr⟩ := (main_startup_error E state r hstart).2 e hr
        refine ⟨c, response, ?_, herr⟩
        rw [h5]
        exact List.mem_append_left _ (List.mem_append_left _
          ((Run.notify_set_trace E r options.verbose).subset hmem))
      · refine ⟨q.1.call, q.2, ?_, hqe⟩
        rw [h5]
        exact List.mem_append_left _ (List.mem_append_right _
          (List.mem_map.mpr ⟨q, hq, rfl⟩))
    · intro response hlogged hresult
      obtain ⟨hc, hr⟩ := failing_step_of_logged E state r options.verbose hstart
        (planned_steps options source) _ done p rest cleanup h1 h2 h5 hcleanup _ response
        hlogged (by simp) (by simp) (by
          intro s hs hcall
          rw [hresult]
          exact (planned_steps_failed options source s hs).1 source hcall)
      exact ⟨(planned_steps_diagnostic options source p.1 hp).1 source hc, hr⟩
    · intro response hlogged hresult
      obtain ⟨hc, hr⟩ := failing_step_of_logged E state r options.verbose hstart
        (planned_steps options source) _ done p rest cleanup h1 h2 h5 hcleanup _ response
        hlogged (by simp) (by simp) (by
          intro s hs hcall
          exact (planned_steps_failed options source s hs).2 hcall _ hresult)
      exact ⟨(planned_steps_diagnostic options source p.1 hp).2 hc, hr⟩

/-- Witness of C13 as amended: `luksdeinfo image.raw` when the volume stays
locked and no error object is stored: the failing step is the lock check
with the response the engine gave, and standard error gets the line "Unable
to unlock volume." and nothing else; when the open fails and stores an error
object, standard error gets the line and the backtrace. -/
theorem stderr_on_failure_witness :
    main_startup (tableEngine stays_locked) () = .goes_on () started
    ∧ (main (tableEngine stays_locked) () cl_image).exit_status ≠ EXIT_SUCCESS
    ∧ stderr_of (main (tableEngine stays_locked) () cl_image).final.output
        = [.write .stderr "Unable to unlock volume.\n"]
    ∧ stderr_of (main (tableEngine open_fails) () cl_image).final.output
        = [.write .stderr "Unable to open: image.raw.\n", .backtrace .IoError]
    ∧ ∃ (done : List (Step × ToolResponse)) (p : Step × ToolResponse),
        p.1.diagnostic = "Unable to unlock volume.\n"
        ∧ p.2 = stays_locked .info_handle_input_is_locked
        ∧ stderr_of (main (tableEngine stays_locked) () cl_image).final.output
          = [.write .stderr p.1.diagnostic]
            ++ backtrace_of (error_after started.error (done ++ [p])) := by
  obtain ⟨done, p, rest, cleanup, -, -, -, -, -, -, hout, -, -, -, -, -, hlocked⟩ :=
    stderr_on_failure (tableEngine stays_locked) () cl_image started Options.initial
      "image.raw" rfl (by decide) (by decide) rfl rfl (by decide)
  exact ⟨rfl, by decide, by decide, by decide, done, p,
    (hlocked (stays_locked .info_handle_input_is_locked) (by decide) (by decide)).1,
    (hlocked (stays_locked .info_handle_input_is_locked) (by decide) (by decide)).2, hout⟩

/-- C15: past option parsing with a source argument, `main` runs the steps
of the plan in their fixed order (initialise the handle, set the keys if
`-k`, set the password if `-p`, set the volume offset if `-o`, open, print
the volume information, lock check, close, free), whatever order the option
parser returned the options in.  Either every step is made and none fails,
and `main` returns `EXIT_SUCCESS`; or the steps up to the first one that
fails are made and no later one, the diagnostic of that step is printed to
standard error (followed by the backtrace of the error object, if there is
one), the info handle is freed if there is one, and `main` returns
`EXIT_FAILURE`. -/
theorem steps_run_in_fixed_order {σ : Type} (E : ToolEngine σ) (state : σ)
    (cl : CommandLine) (r : Run σ) (options : Options) (source : String)
    (hstart : main_startup E state = .goes_on () r)
    (hoptions : ∀ g ∈ cl.getopt, g.option ∈ plain_options)
    (hsource : cl.optind ≠ cl.argv.length)
    (hopt : options = options_after cl.getopt Options.initial)
    (hsrc : source = cl.argv.getD cl.optind "") :
    main E state cl
        = run_steps E (planned_steps options source) (r.notify_set E options.verbose)
    ∧ ((∃ log : List (Step × ToolResponse), log.map Prod.fst = planned_steps options source
        ∧ (∀ p ∈ log, p.1.failed p.2.result = false)
        ∧ (main E state cl).exit_status = EXIT_SUCCESS
        ∧ (main E state cl).final.trace
            = (r.notify_set E options.verbose).trace ++ entries log
        ∧ (main E state cl).final.output = [.version .stdout "luksdeinfo"])
      ∨ (∃ (done : List (Step × ToolResponse)) (p : Step × ToolResponse) (rest : List Step)
          (cleanup : List (ToolCall × ToolResponse)),
        planned_steps options source = done.map Prod.fst ++ p.1 :: rest
        ∧ (∀ q ∈ done, q.1.failed q.2.result = false)
        ∧ p.1.failed p.2.result = true
        ∧ (main E state cl).exit_status = EXIT_FAILURE
        ∧ (main E state cl).final.trace
            = (r.notify_set E options.verbose).trace ++ entries (done ++ [p]) ++ cleanup
        ∧ (main E state cl).final.output
            = [.version .stdout "luksdeinfo", .write .stderr p.1.diagnostic]
              ++ backtrace_of (error_after r.error (done ++ [p]))
        ∧ (handle_after none (done ++ [p]) = none → cleanup = [])
        ∧ (handle_after none (done ++ [p]) ≠ none →
            ∃ response, cleanup = [(ToolCall.info_handle_free, response)]))) := by
  have hmain := main_past_options E state cl r hstart hoptions hsource
  rw [← hopt, ← hsrc] at hmain
  exact ⟨hmain, main_outcome E state cl r options source hstart hoptions hsource hopt hsrc⟩

/-- Witness of C15: `luksdeinfo -p pw -k 00 image.raw` and
`luksdeinfo -k 00 -p pw image.raw` make the same calls in the same order,
the keys before the password, and return `EXIT_SUCCESS`; when the volume
stays locked the lock check is the last step made, the handle is then freed
and `main` returns `EXIT_FAILURE`. -/
theorem steps_run_in_fixed_order_witness :
    main_startup (tableEngine all_succeed) () = .goes_on () started
    ∧ (main (tableEngine all_succeed) () cl_password_keys).exit_status = EXIT_SUCCESS
    ∧ (main (tableEngine all_succeed) () cl_password_keys).final.trace.map Prod.fst
        = [.libcnotify_stream_set, .libcnotify_verbose_set 1,
           ToolCall.libclocale_initialize, ToolCall.luksdetools_output_initialize,
           .libcnotify_verbose_set 0, .libluksde_notify_set_stream,
           .libluksde_notify_set_verbose 0,
           ToolCall.info_handle_initialize, .info_handle_set_keys "00",
           .info_handle_set_password "pw", .info_handle_open_input "image.raw",
           .info_handle_volume_fprint, .info_handle_input_is_locked,
           .info_handle_close_input, .info_handle_free]
    ∧ (main (tableEngine all_succeed) () cl_keys_password).final.trace
        = (main (tableEngine all_succeed) () cl_password_keys).final.trace
    ∧ (main (tableEngine stays_locked) () cl_password_keys).exit_status = EXIT_FAILURE
    ∧ ((main (tableEngine stays_locked) () cl_password_keys).final.trace.map Prod.fst).drop 10
        = [.info_handle_open_input "image.raw", .info_handle_volume_fprint,
           .info_handle_input_is_locked, .info_handle_free] :=
  ⟨rfl,
   (congrArg MainResult.exit_status
      (steps_run_in_fixed_order (tableEngine all_succeed) () cl_password_keys started
        { option_keys := some "00", option_password := some "pw",
          option_volume_offset := none, verbose := 0 }
        "image.raw" rfl (by decide) (by decide) rfl rfl).1).trans (by decide),
   by decide, by decide, by decide, by decide⟩

end Luksdeinfo
